import Mathlib

/-!
# UnrealMCP PCG graph commands

A shallow embedding of the PCG-graph command subsystem of the UnrealMCP plugin
(`PCGNodeManager.cpp`, `PCGNodePropertyManager.cpp`, `PCGNodeConnector.cpp`,
`PCGParameterManager.cpp`, `PCGGraphCreator.cpp`) and theorems about it.

Conventions of the embedding:

* C++ pointers that the code tests for null are `Option`s.
* A JSON number (a C++ `double`) is a rational, the value of the double. The
  rounding of `static_cast<float>` and of parsing a decimal text is modelled by
  `RoundToBinary`; infinities and NaN have no counterpart. A `static_cast` from a
  double to an integer type truncates toward zero; for a value outside the range
  of the target type, where C++ leaves the result undefined, the embedding wraps.
* The engine's JSON accessors convert between shapes as `Dom/JsonValue.h` does:
  a number reads as a boolean (`!= 0`) and as text (`SanitizeFloat` with no
  minimum of fractional digits), a boolean reads as the number 1 or 0 and as the
  text `true` or `false`, a string reads as a boolean (`ToBool`) and, when it
  `IsNumeric`, as a number (`Atod`). Null, arrays and objects have none of these
  readings. Field names of a JSON object are looked up as written.
* `==` on `FString`, equality of `FName`s and the keys of a `TMap` keyed by
  `FString` ignore case, as does `FindPropertyByName`; so do `Contains`,
  `StartsWith` and `EndsWith` where the call site names no search case. The
  embedding writes the `IgnoreCase` form at each such call site. For the
  separator `"."` the search case makes no difference.
* The memory of a reflected object or struct is a list of `(member name, value)`
  cells; a member without a cell still holds the default value of its type.
* Calls into the engine whose behaviour the plugin cannot see (asset loading,
  node creation, edge creation, text import, property-bag setters) are fields of
  `FEngine`. Such a call either reports failure (`none`), leaving the document as
  it was, or yields the object as the call left it.
-/

namespace UnrealMCP

/-! ## FString -/

namespace FString

/-- Lower-cased characters of a string, the key of a case-insensitive comparison
(`A`..`Z` are lowered, every other character is kept). -/
def ToLowerChars (s : String) : List Char := s.data.map Char.toLower

/-- `A.Equals(B, ESearchCase::IgnoreCase)`; also `A == B` on `FString`s, which
compares with `Stricmp`. -/
def EqualsIgnoreCase (a b : String) : Bool := ToLowerChars a == ToLowerChars b

/-- `S.StartsWith(Prefix, ESearchCase::CaseSensitive)`. -/
def StartsWith (s pre : String) : Bool := pre.data.isPrefixOf s.data

/-- `S.EndsWith(Suffix, ESearchCase::CaseSensitive)`. -/
def EndsWith (s suf : String) : Bool := suf.data.isSuffixOf s.data

/-- `S.StartsWith(Prefix)`: the search case defaults to `IgnoreCase`. -/
def StartsWithIgnoreCase (s pre : String) : Bool :=
  (ToLowerChars pre).isPrefixOf (ToLowerChars s)

/-- `S.EndsWith(Suffix)`: the search case defaults to `IgnoreCase`. -/
def EndsWithIgnoreCase (s suf : String) : Bool :=
  (ToLowerChars suf).isSuffixOf (ToLowerChars s)

/-- `S.LeftChop(N)`: the string without its last `N` characters. -/
def LeftChop (s : String) (n : Nat) : String := ⟨s.data.take (s.data.length - n)⟩

/-- `S.RightChop(N)`: the string without its first `N` characters. -/
def RightChop (s : String) (n : Nat) : String := ⟨s.data.drop n⟩

/-- Substring search on character lists. -/
def ContainsChars (sub : List Char) : List Char → Bool
  | [] => sub.isEmpty
  | c :: cs => sub.isPrefixOf (c :: cs) || ContainsChars sub cs

/-- `S.Contains(Sub, ESearchCase::CaseSensitive)`. -/
def Contains (s sub : String) : Bool := ContainsChars sub.data s.data

/-- `S.Contains(Sub, ESearchCase::IgnoreCase)`, also `S.Contains(Sub)`, whose search
case defaults to `IgnoreCase`. -/
def ContainsIgnoreCase (s sub : String) : Bool :=
  ContainsChars (ToLowerChars sub) (ToLowerChars s)

/-- Split a character list at the first occurrence of the separator. -/
def SplitChars (sep : Char) : List Char → Option (List Char × List Char)
  | [] => none
  | c :: cs =>
    if c = sep then some ([], cs)
    else match SplitChars sep cs with
      | some (l, r) => some (c :: l, r)
      | none => none

/-- `S.Split(TEXT("."), &Left, &Right)`: split at the first dot; `none` when there is no dot. -/
def Split (s : String) : Option (String × String) :=
  match SplitChars '.' s.data with
  | some (l, r) => some (⟨l⟩, ⟨r⟩)
  | none => none

/-- `FPaths::GetCleanFilename`: the part of a path after its last slash. -/
def GetCleanFilename (s : String) : String :=
  ⟨(s.data.reverse.takeWhile (fun c => c != '/' && c != Char.ofNat 92)).reverse⟩

end FString

/-! ## Numbers and their text -/

/-- Division of naturals rounded to the nearest, ties to even. -/
def RoundHalfEven (n d : Nat) : Nat :=
  let q := n / d
  let r := n % d
  if 2 * r < d then q else if d < 2 * r then q + 1 else if q % 2 = 0 then q else q + 1

def Log2Fuel : Nat → Nat → Nat
  | 0, _ => 0
  | fuel + 1, n => if 2 ≤ n then Log2Fuel fuel (n / 2) + 1 else 0

/-- The position of the highest set bit of a natural (0 for 0 and 1). -/
def Log2 (n : Nat) : Nat := Log2Fuel n n

/-- The exponent `e` with `2^e ≤ n/d < 2^(e+1)` of a positive fraction. -/
def BinaryExponent (n d : Nat) : Int :=
  let e0 : Int := (Log2 n : Int) - (Log2 d : Int)
  if 0 ≤ e0 then (if d * 2 ^ e0.toNat ≤ n then e0 else e0 - 1)
  else (if d ≤ n * 2 ^ (-e0).toNat then e0 else e0 - 1)

/-- Rounding to the nearest binary floating-point number with the given number of
explicit mantissa bits and least normal exponent, ties to even. Below the least
normal exponent the spacing stays that of the subnormals. The embedding has no
infinity: a value beyond the largest finite number is rounded like any other. -/
def RoundToBinary (MantissaBits : Nat) (MinExponent : Int) (q : ℚ) : ℚ :=
  if q.num = 0 then 0 else
  let n := q.num.natAbs
  let d := q.den
  let e0 := BinaryExponent n d
  let e := if e0 ≤ MinExponent then MinExponent else e0
  let s := e - MantissaBits
  let v : ℚ :=
    if 0 ≤ s then ((RoundHalfEven n (d * 2 ^ s.toNat) * 2 ^ s.toNat : Nat) : ℚ)
    else mkRat (RoundHalfEven (n * 2 ^ (-s).toNat) d) (2 ^ (-s).toNat)
  if q.num < 0 then -v else v

/-- `static_cast<float>(double)`: rounding to IEEE binary32. -/
def CastFloat (q : ℚ) : ℚ := RoundToBinary 23 (-126) q

/-- Rounding of a real number to a `double` (IEEE binary64). -/
def CastDouble (q : ℚ) : ℚ := RoundToBinary 52 (-1022) q

namespace FString

/-- The value of a run of decimal digits. -/
def DigitsValue (cs : List Char) : Nat :=
  cs.foldl (fun acc c => acc * 10 + (c.toNat - '0'.toNat)) 0

/-- The loop of `FCString::IsNumeric` after the optional sign: digits with at most
one dot; `bHasDot` tells whether a dot was seen. -/
def IsNumericChars : Bool → List Char → Bool
  | _, [] => true
  | bHasDot, c :: cs =>
    if c = '.' then (if bHasDot then false else IsNumericChars true cs)
    else if c.isDigit then IsNumericChars bHasDot cs
    else false

/-- `S.IsNumeric()`: false on the empty string, else an optional sign followed by
digits with at most one dot. -/
def IsNumeric (s : String) : Bool :=
  match s.data with
  | [] => false
  | c :: cs => if c = '-' ∨ c = '+' then IsNumericChars false cs else IsNumericChars false (c :: cs)

/-- `FCString::Atod` on a string that `IsNumeric`: the decimal number it spells,
rounded to a double. -/
def Atod (s : String) : ℚ :=
  let Negative := match s.data with
    | '-' :: _ => true
    | _ => false
  let Body := match s.data with
    | '-' :: cs => cs
    | '+' :: cs => cs
    | cs => cs
  let Whole := Body.takeWhile Char.isDigit
  let Fraction := match Body.dropWhile Char.isDigit with
    | '.' :: fs => fs.takeWhile Char.isDigit
    | _ => []
  let Magnitude : ℚ := mkRat (DigitsValue (Whole ++ Fraction)) (10 ^ Fraction.length)
  CastDouble (if Negative then -Magnitude else Magnitude)

/-- The white space `Atoi` skips: space, tab, line feed, vertical tab, form feed
and carriage return. -/
def IsSpace (c : Char) : Bool :=
  c == ' ' || (9 ≤ c.toNat && c.toNat ≤ 13)

/-- `FCString::Atoi(S) != 0`: after leading white space and an optional sign, the
leading run of digits has a digit other than 0. -/
def AtoiIsNonZero (s : String) : Bool :=
  let Trimmed := s.data.dropWhile IsSpace
  let Body := match Trimmed with
    | '-' :: cs => cs
    | '+' :: cs => cs
    | cs => cs
  (Body.takeWhile Char.isDigit).any (fun c => c != '0')

/-- `S.ToBool()`: `True`, `Yes`, `On` and `False`, `No`, `Off` in any case, else
whether the string reads as a non-zero integer. -/
def ToBool (s : String) : Bool :=
  if EqualsIgnoreCase s "True" || EqualsIgnoreCase s "Yes" || EqualsIgnoreCase s "On"
  then true
  else if EqualsIgnoreCase s "False" || EqualsIgnoreCase s "No" || EqualsIgnoreCase s "Off"
  then false
  else AtoiIsNonZero s

/-- The digits of a natural, padded on the left with zeros to the given width. -/
def PadLeft (Width : Nat) (cs : List Char) : List Char :=
  List.replicate (Width - cs.length) '0' ++ cs

/-- The `%f` format: the number rounded to six fractional digits. -/
def PrintfF (q : ℚ) : List Char :=
  let Scaled := RoundHalfEven (q.num.natAbs * 10 ^ 6) q.den
  (if q.num < 0 then ['-'] else []) ++ (Nat.repr (Scaled / 10 ^ 6)).data ++ ['.'] ++
    PadLeft 6 (Nat.repr (Scaled % 10 ^ 6)).data

/-- `FString::SanitizeFloat(Value, InMinFractionalDigits)`: the `%f` text without
the trailing zeros of its fractional part, then padded with zeros to the minimum
number of fractional digits (the call without a second argument passes 1); the
dot is dropped when no fractional digit is left. -/
def SanitizeFloat (q : ℚ) (InMinFractionalDigits : Nat) : String :=
  let TempString := PrintfF q
  let Whole := TempString.takeWhile (fun c => c != '.')
  let Trimmed :=
    (((TempString.dropWhile (fun c => c != '.')).drop 1).reverse.dropWhile
      (fun c => c == '0')).reverse
  let Fraction := Trimmed ++ List.replicate (InMinFractionalDigits - Trimmed.length) '0'
  ⟨if Fraction.isEmpty then Whole else Whole ++ ['.'] ++ Fraction⟩

end FString

/-! ## JSON -/

/-- A JSON value (`FJsonValue`). -/
inductive FJsonValue where
  | Null
  | Boolean (Value : Bool)
  | Number (Value : ℚ)
  | Str (Value : String)
  | Array (Value : List FJsonValue)
  | Object (Value : List (String × FJsonValue))

/-- A JSON object (`FJsonObject`): its fields in insertion order. -/
abbrev FJsonObject := List (String × FJsonValue)

namespace FJsonValue

/-- `TryGetBool`: a number reads as `Value != 0`, a string through `ToBool`. -/
def TryGetBool : FJsonValue → Option Bool
  | .Boolean b => some b
  | .Number n => some (n != 0)
  | .Str s => some (FString.ToBool s)
  | _ => none

/-- `TryGetNumber(double&)`: a boolean reads as 1 or 0, a string as the number it
spells when it `IsNumeric`. -/
def TryGetNumber : FJsonValue → Option ℚ
  | .Number n => some n
  | .Boolean b => some (if b then 1 else 0)
  | .Str s => if FString.IsNumeric s then some (FString.Atod s) else none
  | _ => none

/-- `TryGetString`: a number reads as `SanitizeFloat(Value, 0)`, a boolean as
`true` or `false`. -/
def TryGetString : FJsonValue → Option String
  | .Str s => some s
  | .Number n => some (FString.SanitizeFloat n 0)
  | .Boolean b => some (if b then "true" else "false")
  | _ => none

def TryGetArray : FJsonValue → Option (List FJsonValue)
  | .Array a => some a
  | _ => none

def TryGetObject : FJsonValue → Option FJsonObject
  | .Object o => some o
  | _ => none

/-- `AsNumber()`: the reading of `TryGetNumber`, 0 when there is none. -/
def AsNumber (v : FJsonValue) : ℚ :=
  match v.TryGetNumber with
  | some n => n
  | none => 0

end FJsonValue

namespace FJsonObject

def TryGetField (o : FJsonObject) (name : String) : Option FJsonValue := o.lookup name

def HasField (o : FJsonObject) (name : String) : Bool := (TryGetField o name).isSome

def TryGetStringField (o : FJsonObject) (name : String) : Option String :=
  (TryGetField o name).bind FJsonValue.TryGetString

def TryGetArrayField (o : FJsonObject) (name : String) : Option (List FJsonValue) :=
  (TryGetField o name).bind FJsonValue.TryGetArray

/-- `GetNumberField`: the field as a number, 0 when it is absent or has no reading
as a number. -/
def GetNumberField (o : FJsonObject) (name : String) : ℚ :=
  match TryGetField o name with
  | some v => v.AsNumber
  | none => 0

/-- `GetArrayField`: the field as an array, empty when it is absent or not an array. -/
def GetArrayField (o : FJsonObject) (name : String) : List FJsonValue :=
  match TryGetArrayField o name with
  | some a => a
  | none => []

end FJsonObject

/-- Modelled from the spec: `FEpicUnrealMCPCommonUtils::CreateErrorResponse`, whose
definition is not among the sources. An error result is "an error object carrying a
single human-readable message string"; every success result carries a boolean
success indicator, so the error object carries it too, set to false. -/
def CreateErrorResponse (Message : String) : FJsonObject :=
  [("success", .Boolean false), ("error", .Str Message)]

/-- The message of an error response. -/
def ErrorMessage (r : FJsonObject) : Option String :=
  match FJsonObject.TryGetField r "success" with
  | some (.Boolean true) => none
  | _ => FJsonObject.TryGetStringField r "error"

/-- A response is an error unless its success indicator is true. -/
def IsErrorResponse (r : FJsonObject) : Bool :=
  match FJsonObject.TryGetField r "success" with
  | some (.Boolean true) => false
  | _ => true

/-! ## Numeric conversions -/

/-- Truncation toward zero, the value of `static_cast<integer>(double)`. -/
def TruncToInt (d : ℚ) : Int := Int.tdiv d.num d.den

/-- `static_cast<int32>(double)`: the truncated value when it is in the int32 range.
Outside that range C++ leaves the result undefined; the embedding wraps modulo
2^32 there. -/
def CastInt32 (d : ℚ) : Int := (TruncToInt d + 2 ^ 31) % 2 ^ 32 - 2 ^ 31

/-- `static_cast<int64>(double)`: the truncated value when it is in the int64 range.
Outside that range C++ leaves the result undefined; the embedding wraps modulo
2^64 there. -/
def CastInt64 (d : ℚ) : Int := (TruncToInt d + 2 ^ 63) % 2 ^ 64 - 2 ^ 63

/-- `static_cast<uint8>` of an integer: the value modulo 256. -/
def CastUInt8 (i : Int) : Nat := (i % 256).toNat

/-- `INDEX_NONE`. -/
def INDEX_NONE : Int := -1

/-! ## Reflection -/

/-- The engine structs the code recognises by identity (`TBaseStructure<T>::Get()`). -/
inductive EBaseStructure where
  | FVector
  | FRotator
  | FTransform
  | FSoftObjectPath
  deriving DecidableEq, Repr

/-- A reflected enum: its name and the engine's lookup of its symbolic values. -/
structure UEnum where
  Name : String
  /-- `Enum->GetValueByNameString(Name)`: the value of the symbolic name,
  `INDEX_NONE` when the enum has no such name. -/
  GetValueByNameString : String → Int

/-- The integer types a numeric property can store. -/
inductive ENumericType where
  | Int8
  | Int16
  | Int32
  | Int64
  | UInt8
  | UInt16
  | UInt32
  | UInt64
  deriving DecidableEq, Repr

/-- The value an integer property of the given type holds after
`SetIntPropertyValue(Data, Value)`, which stores `(TCppType)Value`: the int64
reduced to the width of the type. -/
def ENumericType.Store : ENumericType → Int → Int
  | .Int8, i => (i + 2 ^ 7) % 2 ^ 8 - 2 ^ 7
  | .Int16, i => (i + 2 ^ 15) % 2 ^ 16 - 2 ^ 15
  | .Int32, i => (i + 2 ^ 31) % 2 ^ 32 - 2 ^ 31
  | .Int64, i => (i + 2 ^ 63) % 2 ^ 64 - 2 ^ 63
  | .UInt8, i => i % 2 ^ 8
  | .UInt16, i => i % 2 ^ 16
  | .UInt32, i => i % 2 ^ 32
  | .UInt64, i => i % 2 ^ 64

mutual
/-- A reflected field (`FProperty`). -/
inductive FProperty where
  | mk (Name : String) (CPPType : String) (EditOrBlueprintVisible : Bool)
      (Kind : FPropertyKind)
/-- The property class of a field, as decided by `CastField<…>`. -/
inductive FPropertyKind where
  | FBoolProperty
  | FIntProperty
  | FInt64Property
  | FFloatProperty
  | FDoubleProperty
  | FStrProperty
  | FNameProperty
  | FByteProperty (Enum : Option UEnum)
  | FEnumProperty (Enum : Option UEnum) (UnderlyingProp : Option ENumericType)
  | FStructProperty (Struct : UScriptStruct)
  | FSoftObjectProperty
  | FObjectProperty
  | FArrayProperty (Inner : FProperty)
  | Other
/-- A reflected struct type (`UScriptStruct`). -/
inductive UScriptStruct where
  | mk (Name : String) (Base : Option EBaseStructure) (Fields : List FProperty)
end

def FProperty.GetName : FProperty → String
  | .mk n _ _ _ => n

def FProperty.GetCPPType : FProperty → String
  | .mk _ t _ _ => t

/-- `HasAnyPropertyFlags(CPF_Edit | CPF_BlueprintVisible)`. -/
def FProperty.IsEditable : FProperty → Bool
  | .mk _ _ e _ => e

def FProperty.Kind : FProperty → FPropertyKind
  | .mk _ _ _ k => k

def UScriptStruct.GetName : UScriptStruct → String
  | .mk n _ _ => n

def UScriptStruct.Base : UScriptStruct → Option EBaseStructure
  | .mk _ b _ => b

def UScriptStruct.Fields : UScriptStruct → List FProperty
  | .mk _ _ f => f

/-- `CastField<FStructProperty>(Property)`: the struct type of a struct field. -/
def FProperty.AsStructProperty (p : FProperty) : Option UScriptStruct :=
  match p.Kind with
  | .FStructProperty s => some s
  | _ => none

/-- `FindPropertyByName(FName(Name))`: names are compared as `FName`s, which
ignore case, so this is the first field whose name equals the requested one
ignoring case. -/
def FindPropertyByName (Fields : List FProperty) (Name : String) : Option FProperty :=
  Fields.find? (fun p => FString.EqualsIgnoreCase p.GetName Name)

/-- The loop over `TFieldIterator<FProperty>` that takes the first field whose name
equals the requested one ignoring case. -/
def FindPropertyIgnoreCase (Fields : List FProperty) (Name : String) : Option FProperty :=
  Fields.find? (fun p => FString.EqualsIgnoreCase p.GetName Name)

/-- The field lookup shared by the property setters: `FindPropertyByName` first,
then the case-insensitive loop. -/
def FindProperty (Fields : List FProperty) (Name : String) : Option FProperty :=
  match FindPropertyByName Fields Name with
  | some p => some p
  | none => FindPropertyIgnoreCase Fields Name

/-! ## Values -/

structure FVector where
  X : ℚ
  Y : ℚ
  Z : ℚ

structure FRotator where
  Pitch : ℚ
  Yaw : ℚ
  Roll : ℚ

/-- The value held by a field. A struct value lists its members; the value of
`FRotator(…).Quaternion()` is kept symbolic. An enum field holds the integer its
underlying numeric property stores. -/
inductive FValue where
  | Bool (Value : Bool)
  | Int32 (Value : Int)
  | Int64 (Value : Int)
  | Float (Value : ℚ)
  | Double (Value : ℚ)
  | Str (Value : String)
  | Name (Value : String)
  | Byte (Value : Nat)
  | Enum (Value : Int)
  | SoftObjectPath (Path : String)
  | SoftObjectPtr (Path : String)
  | Object (Path : String)
  | Quat (FromRotator : FRotator)
  | Imported (Text : String)
  | Struct (Members : List (String × FValue))
  | Array (Elements : List FValue)

/-- A `TMap` keyed by `FString`: its pairs in insertion order. Keys are compared
ignoring case. -/
abbrev TMap (β : Type) := List (String × β)

/-- `Map.Add(Key, Value)`: replace the pair of an existing key, else append the pair. -/
def TMap.Add {β : Type} : TMap β → String → β → TMap β
  | [], k, v => [(k, v)]
  | (k0, v0) :: rest, k, v =>
    if FString.EqualsIgnoreCase k0 k then (k, v) :: rest else (k0, v0) :: TMap.Add rest k v

/-- `Map.Find(Key)`. -/
def TMap.Find {β : Type} (m : TMap β) (k : String) : Option β :=
  (m.find? (fun Pair => FString.EqualsIgnoreCase Pair.1 k)).map Prod.snd

/-- `Map.Contains(Key)`. -/
def TMap.Contains {β : Type} (m : TMap β) (k : String) : Bool := (TMap.Find m k).isSome

/-- The memory of an object or struct: one cell per member, keyed by the name of
the member as the reflected field spells it. -/
abbrev FMemory := List (String × FValue)

/-- Store a value in the cell of a member (the cell is created when missing). -/
def FMemory.Write : FMemory → String → FValue → FMemory
  | [], name, v => [(name, v)]
  | (k0, v0) :: rest, name, v =>
    if k0 = name then (k0, v) :: rest else (k0, v0) :: FMemory.Write rest name v

/-- The value in the cell of a member. -/
def FMemory.Read (m : FMemory) (name : String) : Option FValue := m.lookup name

/-- The members of the struct value in a cell; a cell that holds no struct value
is a default-constructed struct. -/
def FMemory.ReadStruct (m : FMemory) (name : String) : FMemory :=
  match m.lookup name with
  | some (.Struct ms) => ms
  | _ => []

/-- The elements of the array in a cell. -/
def FMemory.ReadArray (m : FMemory) (name : String) : List FValue :=
  match m.lookup name with
  | some (.Array es) => es
  | _ => []

/-- An `FVector` as a struct value with members X, Y, Z. -/
def FVector.ToValue (v : FVector) : FValue :=
  .Struct [("X", .Double v.X), ("Y", .Double v.Y), ("Z", .Double v.Z)]

/-! ## Graph document -/

/-- A class of the host's type universe (`UClass`). -/
structure UClass where
  Name : String
  /-- `IsChildOf(UPCGSettings::StaticClass())`. -/
  IsChildOfPCGSettings : Bool
  /-- `HasAnyClassFlags(CLASS_Abstract)`. -/
  IsAbstract : Bool
  Properties : List FProperty

/-- A settings object: its class and the memory holding its fields. -/
structure UPCGSettings where
  Class : UClass
  Memory : FMemory

/-- An edge between an upstream (output) pin and a downstream (input) pin, each
named by the identity of the pin object. -/
structure UPCGEdge where
  InputPin : Nat
  OutputPin : Nat
  deriving DecidableEq, Repr

/-- A pin: the identity of the pin object, its label and its edges. -/
structure UPCGPin where
  Ptr : Nat
  Label : String
  Edges : List UPCGEdge
  deriving DecidableEq, Repr

/-- A node: the identity of the node object, its name, editor position, settings and pins. -/
structure UPCGNode where
  Ptr : Nat
  Name : String
  PositionX : Int
  PositionY : Int
  Settings : Option UPCGSettings
  InputPins : List UPCGPin
  OutputPins : List UPCGPin

inductive EPCGChangeType where
  | Structural
  | Settings
  deriving DecidableEq, Repr

inductive EPropertyBagPropertyType where
  | Bool
  | Int32
  | Int64
  | Float
  | Double
  | String
  | Name
  | Struct
  | Other
  deriving DecidableEq, Repr

structure FPropertyBagPropertyDesc where
  Name : String
  ValueType : EPropertyBagPropertyType
  ValueTypeObject : Option EBaseStructure
  deriving DecidableEq, Repr

/-- The graph's parameter bag: its layout (`GetPropertyBagStruct()`, absent while
no parameter was declared) and the values. -/
structure FInstancedPropertyBag where
  PropertyDescs : Option (List FPropertyBagPropertyDesc)
  Values : FMemory

/-- A graph document, with the record of the change notifications it broadcast
and the dirty mark of its package. -/
structure UPCGGraph where
  Nodes : List UPCGNode
  InputNode : Option UPCGNode
  OutputNode : Option UPCGNode
  UserParameters : Option FInstancedPropertyBag
  ChangeNotifications : List EPCGChangeType
  PackageDirty : Bool

/-- `Graph->NotifyGraphChanged(ChangeType)`. -/
def UPCGGraph.NotifyGraphChanged (g : UPCGGraph) (c : EPCGChangeType) : UPCGGraph :=
  { g with ChangeNotifications := g.ChangeNotifications ++ [c] }

/-- `MarkPackageDirty()` on the graph's package (settings objects live in it too). -/
def UPCGGraph.MarkPackageDirty (g : UPCGGraph) : UPCGGraph :=
  { g with PackageDirty := true }

/-- Pointer equality of a node with a possibly null node pointer. -/
def UPCGNode.IsSameObject (n : UPCGNode) (other : Option UPCGNode) : Bool :=
  match other with
  | some m => n.Ptr == m.Ptr
  | none => false

/-- Drop from a pin the edges that touch one of the given pins. -/
def UPCGPin.BreakEdgesTo (removed : List Nat) (p : UPCGPin) : UPCGPin :=
  let untouched := fun (e : UPCGEdge) =>
    !(removed.contains e.InputPin || removed.contains e.OutputPin)
  { p with Edges := p.Edges.filter untouched }

/-- Drop from a node's pins the edges that touch one of the given pins. -/
def UPCGNode.BreakEdgesTo (removed : List Nat) (n : UPCGNode) : UPCGNode :=
  { n with InputPins := n.InputPins.map (UPCGPin.BreakEdgesTo removed),
           OutputPins := n.OutputPins.map (UPCGPin.BreakEdgesTo removed) }

/-- `Graph->RemoveNode(Node)`: the node leaves the node list and its edges are broken. -/
def UPCGGraph.RemoveNode (g : UPCGGraph) (n : UPCGNode) : UPCGGraph :=
  let removed := (n.InputPins ++ n.OutputPins).map UPCGPin.Ptr
  { g with
    Nodes := (g.Nodes.filter (fun m => m.Ptr != n.Ptr)).map (UPCGNode.BreakEdgesTo removed),
    InputNode := g.InputNode.map (UPCGNode.BreakEdgesTo removed),
    OutputNode := g.OutputNode.map (UPCGNode.BreakEdgesTo removed) }

/-- An entry of the asset registry for a graph asset. -/
structure FAssetData where
  ObjectPathString : String
  AssetName : String
  /-- `Cast<UPCGGraph>(AssetData.GetAsset())`. -/
  Asset : Option UPCGGraph

/-- A component of an actor that can host a graph. -/
structure UPCGComponent where
  Ptr : Nat
  deriving DecidableEq, Repr

/-- An actor of the editor world. -/
structure AActor where
  ActorLabel : String
  Name : String
  /-- `FindComponentByClass<UPCGComponent>()`. -/
  PCGComponent : Option UPCGComponent

/-- A node of a blueprint's construction script: its component template when the
node has one and `Cast<UPCGComponent>` of it succeeds. -/
structure USCS_Node where
  PCGComponentTemplate : Option UPCGComponent

structure UBlueprint where
  /-- `SimpleConstructionScript->GetAllNodes()`, absent when there is no script. -/
  SimpleConstructionScript : Option (List USCS_Node)
  /-- `Cast<AActor>(GeneratedClass->GetDefaultObject())`. -/
  ActorCDO : Option AActor

/-- The host engine as the commands see it. -/
structure FEngine where
  /-- `LoadObject<UPCGGraph>(nullptr, Path)`. -/
  LoadObject : String → Option UPCGGraph
  /-- `AssetRegistry.GetAssetsByClass(UPCGGraph)`. -/
  AssetDataList : List FAssetData
  /-- `FindObject<UClass>(nullptr, Name)`. -/
  FindObject : String → Option UClass
  /-- The classes enumerated by `TObjectIterator<UClass>`, in enumeration order. -/
  Classes : List UClass
  /-- `Graph->AddNodeOfType(SettingsClass, NewSettings)`: the node it creates. -/
  AddNodeOfType : UPCGGraph → UClass → Option UPCGNode
  /-- `OutputPin->AddEdgeTo(InputPin)`: `none` when it returns false, else the graph
  as the call left it. -/
  AddEdgeTo : UPCGGraph → UPCGPin → UPCGPin → Option UPCGGraph
  /-- `Graph->AddEdge(FromNode, FromLabel, ToNode, ToLabel)`, which returns the To
  node: `none` when it returns null, else the graph as the call left it, with or
  without a new edge. -/
  AddEdge : UPCGGraph → UPCGNode → String → UPCGNode → String → Option UPCGGraph
  /-- `Property->ImportText(Text, ValuePtr, …)`: the value parsed from the text. -/
  ImportText : FProperty → String → Option FValue
  /-- `LoadObject<UStaticMesh>(nullptr, Path)` succeeds. -/
  LoadStaticMesh : String → Bool
  /-- `Graph->AddUserParameters(Descs)`. -/
  AddUserParameters : Option FInstancedPropertyBag → List FPropertyBagPropertyDesc →
    Option FInstancedPropertyBag
  SetValueBool : FInstancedPropertyBag → String → Bool → Option FInstancedPropertyBag
  SetValueInt32 : FInstancedPropertyBag → String → Int → Option FInstancedPropertyBag
  SetValueInt64 : FInstancedPropertyBag → String → Int → Option FInstancedPropertyBag
  SetValueFloat : FInstancedPropertyBag → String → ℚ → Option FInstancedPropertyBag
  SetValueDouble : FInstancedPropertyBag → String → ℚ → Option FInstancedPropertyBag
  SetValueString : FInstancedPropertyBag → String → String → Option FInstancedPropertyBag
  SetValueName : FInstancedPropertyBag → String → String → Option FInstancedPropertyBag
  SetValueSerialize : FInstancedPropertyBag → String → String → Option FInstancedPropertyBag
  /-- `Graph->GetMutableUserParametersStruct()`. -/
  GetMutableUserParametersStruct : UPCGGraph → Option FInstancedPropertyBag
  /-- The actors of the editor world, absent when there is no editor world. -/
  EditorWorldActors : Option (List AActor)
  /-- `FEpicUnrealMCPCommonUtils::FindBlueprint`. -/
  FindBlueprint : String → Option UBlueprint

/-- The result of a command: the response returned to the caller and the graph
document as the call left it (absent when no graph was loaded). -/
structure FOutcome where
  Response : FJsonObject
  Graph : Option UPCGGraph

namespace FPCGGraphCreator

/-- `FPCGGraphCreator::LoadPCGGraph`. -/
def LoadPCGGraph (E : FEngine) (GraphPath : String) : Option UPCGGraph :=
  -- Strategy 1: direct load
  match E.LoadObject GraphPath with
  | some Graph => some Graph
  | none =>
    -- Strategy 2: asset name appended
    let AssetName := FString.GetCleanFilename GraphPath
    let FullPath := GraphPath ++ "." ++ AssetName
    match E.LoadObject FullPath with
    | some Graph => some Graph
    | none =>
      -- Strategy 3: asset registry search
      match E.AssetDataList.find? (fun AssetData =>
          FString.ContainsIgnoreCase AssetData.ObjectPathString GraphPath ||
          FString.EqualsIgnoreCase AssetData.AssetName AssetName) with
      | some AssetData => AssetData.Asset
      | none => none

end FPCGGraphCreator

/-- The loop that lists names for a diagnostic: comma-separated, cut after 30 names
with a trailing "...". `Count` is the number of names already listed. -/
def JoinCapped (Count : Nat) : List String → String
  | [] => ""
  | Name :: Rest =>
    (if Count > 0 then ", " else "") ++ Name ++
      (if Count + 1 ≥ 30 then "..." else JoinCapped (Count + 1) Rest)

/-- The pins of a node serialised as `{pin_name}` objects. -/
def SerializePinNames (Pins : List UPCGPin) : List FJsonValue :=
  Pins.map (fun Pin => FJsonValue.Object [("pin_name", .Str Pin.Label)])

namespace FPCGNodeManager

/-- The fixed list of `TryRegister(FriendlyName, ClassName)` calls, in source order. -/
def StaticRegistrations : List (String × String) :=
  [ ("SurfaceSampler", "PCGSurfaceSamplerSettings"),
    ("StaticMeshSpawner", "PCGStaticMeshSpawnerSettings"),
    ("DensityFilter", "PCGDensityFilterSettings"),
    ("DensityNoise", "PCGSpatialNoiseSettings"),
    ("Union", "PCGMergeSettings"),
    ("Merge", "PCGMergeSettings"),
    ("CopyPoints", "PCGCopyPointsSettings"),
    ("TransformPoints", "PCGTransformPointsSettings"),
    ("CreatePointsGrid", "PCGCreatePointsGridSettings"),
    ("PointsGrid", "PCGCreatePointsGridSettings"),
    ("AttributeFilter", "PCGFilterByAttributeSettings"),
    ("FilterByAttribute", "PCGFilterByAttributeSettings"),
    ("CreateAttribute", "PCGCreateAttributeSettings"),
    ("Difference", "PCGDifferenceSettings"),
    ("Subgraph", "PCGSubgraphSettings"),
    ("GetActorData", "PCGGetActorDataSettings"),
    ("BoundsModifier", "PCGBoundsModifierSettings"),
    ("DensityRemapSettings", "PCGDensityRemapSettings"),
    ("DensityRemap", "PCGDensityRemapSettings"),
    ("Projection", "PCGProjectionSettings"),
    ("Intersection", "PCGIntersectionSettings"),
    ("SplineSampler", "PCGSplineSamplerSettings"),
    ("VolumeSampler", "PCGVolumeSamplerSettings"),
    ("PointMatchAndSet", "PCGPointMatchAndSetSettings"),
    ("AttributeNoise", "PCGAttributeNoiseSettings"),
    ("AttributeOperation", "PCGAttributeOperationSettings"),
    -- UE5.7 alternative class names
    ("AttributeFilter", "PCGAttributeFilterSettings"),
    ("CreateAttribute", "PCGMetadataCreateAttributeSettings"),
    ("AttributeOperation", "PCGMetadataAttributeOperationSettings"),
    ("Union", "PCGUnionSettings"),
    ("MetadataBreakVector", "PCGMetadataBreakVectorSettings"),
    ("BreakVector", "PCGMetadataBreakVectorSettings"),
    ("MetadataMakeVector", "PCGMetadataMakeVectorSettings"),
    ("MakeVector", "PCGMetadataMakeVectorSettings") ]

/-- The class lookup of `TryRegister`: the bare name, then the name under `/Script/PCG.`. -/
def FindClass (E : FEngine) (ClassName : String) : Option UClass :=
  match E.FindObject ClassName with
  | some FoundClass => some FoundClass
  | none => E.FindObject ("/Script/PCG." ++ ClassName)

/-- The `TryRegister` lambda of `GetNodeTypeRegistry`. -/
def TryRegister (E : FEngine) (Registry : TMap UClass) (FriendlyName ClassName : String) :
    TMap UClass :=
  match FindClass E ClassName with
  | some FoundClass =>
    if FoundClass.IsChildOfPCGSettings then Registry.Add FriendlyName FoundClass
    else Registry
  | none => Registry

/-- The registry after the static registrations. -/
def StaticRegistry (E : FEngine) : TMap UClass :=
  StaticRegistrations.foldl (fun Registry r => TryRegister E Registry r.1 r.2) []

/-- The short name derived from a class name: without a trailing "Settings" and
without a leading "PCG" (both found ignoring case). -/
def DeriveShortName (ClassName : String) : String :=
  let ShortName := if FString.EndsWithIgnoreCase ClassName "Settings"
    then FString.LeftChop ClassName 8 else ClassName
  if FString.StartsWithIgnoreCase ShortName "PCG" then FString.RightChop ShortName 3
  else ShortName

/-- The guarded insertion of the self-discovery loop:
`if (!Registry.Contains(Key)) Registry.Add(Key, Class)`. -/
def AddIfAbsent (Registry : TMap UClass) (Key : String) (Class : UClass) : TMap UClass :=
  if !Registry.Contains Key then Registry.Add Key Class else Registry

/-- The body of the self-discovery loop for one enumerated class. -/
def DiscoverClass (Registry : TMap UClass) (Class : UClass) : TMap UClass :=
  if Class.IsChildOfPCGSettings && !Class.IsAbstract then
    let ClassName := Class.Name
    let ShortName := DeriveShortName ClassName
    let Registry1 := AddIfAbsent Registry ShortName Class
    -- Also register the full class name as a key
    AddIfAbsent Registry1 ClassName Class
  else Registry

/-- The self-discovery loop over the enumerated classes. -/
def AutoDiscover (Registry : TMap UClass) (Classes : List UClass) : TMap UClass :=
  Classes.foldl DiscoverClass Registry

/-- `FPCGNodeManager::GetNodeTypeRegistry`: the registry as built on first use. -/
def GetNodeTypeRegistry (E : FEngine) : TMap UClass :=
  AutoDiscover (StaticRegistry E) E.Classes

/-- The lookup steps of `ResolveNodeType` on a given registry. -/
def ResolveIn (E : FEngine) (Registry : TMap UClass) (NodeType : String) : Option UClass :=
  -- Exact match in registry (the map compares its keys ignoring case)
  match Registry.Find NodeType with
  | some Found => some Found
  | none =>
    -- Case-insensitive search
    match Registry.find? (fun Pair => FString.EqualsIgnoreCase Pair.1 NodeType) with
    | some Pair => some Pair.2
    | none =>
      -- Direct class lookup as fallback
      match FindClass E NodeType with
      | some DirectClass =>
        if DirectClass.IsChildOfPCGSettings then some DirectClass else none
      | none => none

/-- `FPCGNodeManager::ResolveNodeType`. -/
def ResolveNodeType (E : FEngine) (NodeType : String) : Option UClass :=
  ResolveIn E (GetNodeTypeRegistry E) NodeType

/-- `FPCGNodeManager::FindNodeByName` on a loaded graph. -/
def FindNodeByName (Graph : UPCGGraph) (NodeName : String) : Option UPCGNode :=
  -- Check regular nodes
  match Graph.Nodes.find? (fun Node => FString.EqualsIgnoreCase Node.Name NodeName) with
  | some Node => some Node
  | none =>
    -- Check input/output nodes
    match Graph.InputNode.filter (fun Node => FString.EqualsIgnoreCase Node.Name NodeName) with
    | some InputNode => some InputNode
    | none => Graph.OutputNode.filter (fun Node => FString.EqualsIgnoreCase Node.Name NodeName)

/-- `FPCGNodeManager::AddNode`. -/
def AddNode (E : FEngine) (Params : FJsonObject) : FOutcome :=
  match Params.TryGetStringField "graph_path" with
  | none => ⟨CreateErrorResponse "Missing 'graph_path' parameter", none⟩
  | some GraphPath =>
  match Params.TryGetStringField "node_type" with
  | none => ⟨CreateErrorResponse "Missing 'node_type' parameter", none⟩
  | some NodeType =>
  match FPCGGraphCreator.LoadPCGGraph E GraphPath with
  | none => ⟨CreateErrorResponse ("Could not find PCG graph at '" ++ GraphPath ++ "'"), none⟩
  | some Graph =>
  match ResolveNodeType E NodeType with
  | none =>
    let AvailableTypes := JoinCapped 0 ((GetNodeTypeRegistry E).map Prod.fst)
    ⟨CreateErrorResponse ("Unknown PCG node type '" ++ NodeType ++
      "'. Available types: " ++ AvailableTypes), some Graph⟩
  | some SettingsClass =>
  let PosX : Int := if Params.HasField "pos_x"
    then CastInt32 (Params.GetNumberField "pos_x") else 0
  let PosY : Int := if Params.HasField "pos_y"
    then CastInt32 (Params.GetNumberField "pos_y") else 0
  match E.AddNodeOfType Graph SettingsClass with
  | none =>
    ⟨CreateErrorResponse ("Failed to create PCG node of type '" ++ NodeType ++ "'"),
      some Graph⟩
  | some CreatedNode =>
  let NewNode := { CreatedNode with PositionX := PosX, PositionY := PosY }
  let Graph1 := { Graph with Nodes := Graph.Nodes ++ [NewNode] }
  let Graph2 := (Graph1.NotifyGraphChanged .Structural).MarkPackageDirty
  let SettingsClassName := match NewNode.Settings with
    | some NewSettings => NewSettings.Class.Name
    | none => "None"
  ⟨[ ("success", .Boolean true),
     ("node_id", .Str NewNode.Name),
     ("settings_class", .Str SettingsClassName),
     ("pos_x", .Number PosX),
     ("pos_y", .Number PosY),
     ("input_pins", .Array (SerializePinNames NewNode.InputPins)),
     ("output_pins", .Array (SerializePinNames NewNode.OutputPins)) ],
   some Graph2⟩

/-- `FPCGNodeManager::DeleteNode`. -/
def DeleteNode (E : FEngine) (Params : FJsonObject) : FOutcome :=
  match Params.TryGetStringField "graph_path" with
  | none => ⟨CreateErrorResponse "Missing 'graph_path' parameter", none⟩
  | some GraphPath =>
  match Params.TryGetStringField "node_id" with
  | none => ⟨CreateErrorResponse "Missing 'node_id' parameter", none⟩
  | some NodeId =>
  match FPCGGraphCreator.LoadPCGGraph E GraphPath with
  | none => ⟨CreateErrorResponse ("Could not find PCG graph at '" ++ GraphPath ++ "'"), none⟩
  | some Graph =>
  match FindNodeByName Graph NodeId with
  | none =>
    ⟨CreateErrorResponse ("Could not find node '" ++ NodeId ++ "' in PCG graph"), some Graph⟩
  | some Node =>
  -- Don't allow deleting the built-in Input/Output nodes
  if Node.IsSameObject Graph.InputNode || Node.IsSameObject Graph.OutputNode then
    ⟨CreateErrorResponse "Cannot delete the built-in Input or Output nodes", some Graph⟩
  else
    let Graph1 := ((Graph.RemoveNode Node).NotifyGraphChanged .Structural).MarkPackageDirty
    ⟨[("success", .Boolean true), ("deleted_node_id", .Str NodeId)], some Graph1⟩

end FPCGNodeManager

/-! ## Property marshalling -/

/-- The members of the struct reached from a root memory through a chain of
struct-valued members. -/
def FMemory.ReadPath : FMemory → List String → FMemory
  | m, [] => m
  | m, h :: t => FMemory.ReadPath (FMemory.ReadStruct m h) t

/-- In-place write through a struct pointer: store a value in a member of the struct
reached from the root memory through a chain of struct-valued members. -/
def FMemory.WritePath : FMemory → List String → String → FValue → FMemory
  | m, [], name, v => FMemory.Write m name v
  | m, h :: t, name, v =>
    FMemory.Write m h (.Struct (FMemory.WritePath (FMemory.ReadStruct m h) t name v))

/-- `UPCGGraph` with the node of the given identity updated in place. -/
def UPCGGraph.UpdateNode (g : UPCGGraph) (Ptr : Nat) (f : UPCGNode → UPCGNode) : UPCGGraph :=
  let upd := fun (n : UPCGNode) => if n.Ptr = Ptr then f n else n
  { g with Nodes := g.Nodes.map upd,
           InputNode := g.InputNode.map upd,
           OutputNode := g.OutputNode.map upd }

/-- The result of a property setter: the returned flag, the memory of the target
object when the setter returns, and the type tag written to `OutPropertyType`
(left empty by a failing setter). -/
structure FSetResult where
  Success : Bool
  Memory : FMemory
  PropertyType : String

namespace FPCGNodePropertyManager

/-- The `Enum(<name>)` type tag. -/
def EnumTypeName (Enum : UEnum) : String := "Enum(" ++ Enum.Name ++ ")"

/-- `FPCGNodePropertyManager::SetPropertyValue` on an object with the given class
fields and memory. The components of a vector, rotator or transform are members of
the struct value in the cell of the field (`X`, `Y`, `Z`; `Pitch`, `Yaw`, `Roll`;
`Translation`, `Rotation`, `Scale3D`) and are written in place. -/
def SetPropertyValue (E : FEngine) (Fields : List FProperty) (Memory : FMemory)
    (PropertyName : String) (JsonValue : FJsonValue) : FSetResult :=
  match FindProperty Fields PropertyName with
  | none => ⟨false, Memory, ""⟩
  | some Property =>
  let Cell := Property.GetName
  let Done := fun (Value : FValue) (Tag : String) =>
    FSetResult.mk true (Memory.Write Cell Value) Tag
  -- Last resort: ImportText for any property type
  let LastResort : FSetResult :=
    match JsonValue.TryGetString with
    | some StrValue =>
      match E.ImportText Property StrValue with
      | some Value => Done Value Property.GetCPPType
      | none => ⟨false, Memory, ""⟩
    | none => ⟨false, Memory, ""⟩
  match Property.Kind with
  | .FBoolProperty =>
    match JsonValue.TryGetBool with
    | some bValue => Done (.Bool bValue) "Bool"
    | none => LastResort
  | .FIntProperty =>
    match JsonValue.TryGetNumber with
    | some NumValue => Done (.Int32 (CastInt32 NumValue)) "Int32"
    | none => LastResort
  | .FInt64Property =>
    match JsonValue.TryGetNumber with
    | some NumValue => Done (.Int64 (CastInt64 NumValue)) "Int64"
    | none => LastResort
  | .FFloatProperty =>
    match JsonValue.TryGetNumber with
    | some NumValue => Done (.Float (CastFloat NumValue)) "Float"
    | none => LastResort
  | .FDoubleProperty =>
    match JsonValue.TryGetNumber with
    | some NumValue => Done (.Double NumValue) "Double"
    | none => LastResort
  | .FStrProperty =>
    match JsonValue.TryGetString with
    | some StrValue => Done (.Str StrValue) "String"
    | none => LastResort
  | .FNameProperty =>
    match JsonValue.TryGetString with
    | some StrValue => Done (.Name StrValue) "Name"
    | none => LastResort
  | .FByteProperty (some Enum) =>
    let Numeric : FSetResult :=
      match JsonValue.TryGetNumber with
      | some NumValue => Done (.Byte (CastUInt8 (TruncToInt NumValue))) (EnumTypeName Enum)
      | none => LastResort
    match JsonValue.TryGetString with
    | some StrValue =>
      let EnumValue := Enum.GetValueByNameString StrValue
      if EnumValue ≠ INDEX_NONE then Done (.Byte (CastUInt8 EnumValue)) (EnumTypeName Enum)
      else Numeric
    | none => Numeric
  | .FByteProperty none =>
    match JsonValue.TryGetNumber with
    | some NumValue => Done (.Byte (CastUInt8 (TruncToInt NumValue))) "Byte"
    | none => LastResort
  | .FEnumProperty (some Enum) UnderlyingProp =>
    let Numeric : FSetResult :=
      match JsonValue.TryGetNumber with
      | some NumValue =>
        match UnderlyingProp with
        | some Underlying =>
          Done (.Enum (Underlying.Store (CastInt64 NumValue))) (EnumTypeName Enum)
        | none => LastResort
      | none => LastResort
    match JsonValue.TryGetString with
    | some StrValue =>
      let EnumValue := Enum.GetValueByNameString StrValue
      if EnumValue ≠ INDEX_NONE then
        match UnderlyingProp with
        | some Underlying => Done (.Enum (Underlying.Store EnumValue)) (EnumTypeName Enum)
        | none => Numeric
      else Numeric
    | none => Numeric
  | .FEnumProperty none _ => LastResort
  | .FStructProperty Struct =>
    -- Generic struct fallback: ImportText, then the last resort
    let Generic : FSetResult :=
      match JsonValue.TryGetString with
      | some StrValue =>
        match E.ImportText Property StrValue with
        | some Value => Done Value ("Struct(" ++ Struct.GetName ++ ")")
        | none => LastResort
      | none => LastResort
    match Struct.Base with
    | some .FVector =>
      match JsonValue.TryGetArray with
      | some (A0 :: A1 :: A2 :: _) =>
        let Memory1 := Memory.WritePath [Cell] "X" (.Double A0.AsNumber)
        let Memory2 := Memory1.WritePath [Cell] "Y" (.Double A1.AsNumber)
        let Memory3 := Memory2.WritePath [Cell] "Z" (.Double A2.AsNumber)
        ⟨true, Memory3, "Vector"⟩
      | _ => Generic
    | some .FRotator =>
      match JsonValue.TryGetArray with
      | some (A0 :: A1 :: A2 :: _) =>
        let Memory1 := Memory.WritePath [Cell] "Pitch" (.Double A0.AsNumber)
        let Memory2 := Memory1.WritePath [Cell] "Yaw" (.Double A1.AsNumber)
        let Memory3 := Memory2.WritePath [Cell] "Roll" (.Double A2.AsNumber)
        ⟨true, Memory3, "Rotator"⟩
      | _ => Generic
    | some .FTransform =>
      match JsonValue.TryGetObject with
      | some ObjValue =>
        let Memory1 :=
          if ObjValue.HasField "location" then
            match ObjValue.GetArrayField "location" with
            | L0 :: L1 :: L2 :: _ =>
              Memory.WritePath [Cell] "Translation"
                (FVector.ToValue ⟨L0.AsNumber, L1.AsNumber, L2.AsNumber⟩)
            | _ => Memory
          else Memory
        let Memory2 :=
          if ObjValue.HasField "rotation" then
            match ObjValue.GetArrayField "rotation" with
            | R0 :: R1 :: R2 :: _ =>
              Memory1.WritePath [Cell] "Rotation"
                (.Quat ⟨R0.AsNumber, R1.AsNumber, R2.AsNumber⟩)
            | _ => Memory1
          else Memory1
        let Memory3 :=
          if ObjValue.HasField "scale" then
            match ObjValue.GetArrayField "scale" with
            | S0 :: S1 :: S2 :: _ =>
              Memory2.WritePath [Cell] "Scale3D"
                (FVector.ToValue ⟨S0.AsNumber, S1.AsNumber, S2.AsNumber⟩)
            | _ => Memory2
          else Memory2
        ⟨true, Memory3, "Transform"⟩
      | none => Generic
    | some .FSoftObjectPath =>
      match JsonValue.TryGetString with
      | some StrValue => Done (.SoftObjectPath StrValue) "SoftObjectPath"
      | none => Generic
    | none => Generic
  | .FSoftObjectProperty =>
    match JsonValue.TryGetString with
    | some StrValue => Done (.SoftObjectPtr StrValue) "SoftObjectReference"
    | none => LastResort
  | .FObjectProperty => LastResort
  | .FArrayProperty _ => LastResort
  | .Other => LastResort

/-- `FPCGNodePropertyManager::SetStructPropertyValue`: `Root` is the memory of the
object that owns the struct and `StructPtr` the chain of members leading to it. -/
def SetStructPropertyValue (E : FEngine) (Struct : UScriptStruct) (Root : FMemory)
    (StructPtr : List String) (PropertyName : String) (JsonValue : FJsonValue) :
    FSetResult :=
  -- Find the property on the struct
  match FindProperty Struct.Fields PropertyName with
  | none => ⟨false, Root, ""⟩
  | some Property =>
  let Done := fun (Value : FValue) (Tag : String) =>
    FSetResult.mk true (Root.WritePath StructPtr Property.GetName Value) Tag
  -- Generic fallback: ImportText
  let Fallback : FSetResult :=
    match JsonValue.TryGetString with
    | some StrValue =>
      match E.ImportText Property StrValue with
      | some Value => Done Value Property.GetCPPType
      | none => ⟨false, Root, ""⟩
    | none => ⟨false, Root, ""⟩
  match Property.Kind with
  | .FNameProperty =>
    match JsonValue.TryGetString with
    | some StrValue => Done (.Name StrValue) "Name"
    | none => Fallback
  | .FStrProperty =>
    match JsonValue.TryGetString with
    | some StrValue => Done (.Str StrValue) "String"
    | none => Fallback
  | .FBoolProperty =>
    match JsonValue.TryGetBool with
    | some bValue => Done (.Bool bValue) "Bool"
    | none => Fallback
  | .FIntProperty =>
    match JsonValue.TryGetNumber with
    | some NumValue => Done (.Int32 (CastInt32 NumValue)) "Int32"
    | none => Fallback
  | .FFloatProperty =>
    match JsonValue.TryGetNumber with
    | some NumValue => Done (.Float (CastFloat NumValue)) "Float"
    | none => Fallback
  | .FDoubleProperty =>
    match JsonValue.TryGetNumber with
    | some NumValue => Done (.Double NumValue) "Double"
    | none => Fallback
  | .FByteProperty (some Enum) =>
    let Numeric : FSetResult :=
      match JsonValue.TryGetNumber with
      | some NumValue => Done (.Byte (CastUInt8 (TruncToInt NumValue))) (EnumTypeName Enum)
      | none => Fallback
    match JsonValue.TryGetString with
    | some StrValue =>
      let EnumValue := Enum.GetValueByNameString StrValue
      if EnumValue ≠ INDEX_NONE then Done (.Byte (CastUInt8 EnumValue)) (EnumTypeName Enum)
      else Numeric
    | none => Numeric
  | .FByteProperty none =>
    match JsonValue.TryGetNumber with
    | some NumValue => Done (.Byte (CastUInt8 (TruncToInt NumValue))) "Byte"
    | none => Fallback
  | .FEnumProperty (some Enum) UnderlyingProp =>
    match JsonValue.TryGetString with
    | some StrValue =>
      let EnumValue := Enum.GetValueByNameString StrValue
      if EnumValue ≠ INDEX_NONE then
        match UnderlyingProp with
        | some Underlying => Done (.Enum (Underlying.Store EnumValue)) (EnumTypeName Enum)
        | none => Fallback
      else Fallback
    | none => Fallback
  | .FEnumProperty none _ => Fallback
  | .FInt64Property => Fallback
  | .FStructProperty _ => Fallback
  | .FSoftObjectProperty => Fallback
  | .FObjectProperty => Fallback
  | .FArrayProperty _ => Fallback
  | .Other => Fallback

/-- `FPCGNodePropertyManager::SetPropertyValueByPath`. -/
def SetPropertyValueByPath (E : FEngine) (Fields : List FProperty) (Memory : FMemory)
    (PropertyPath : String) (JsonValue : FJsonValue) : FSetResult :=
  -- Split on first dot
  match FString.Split PropertyPath with
  | none => SetPropertyValue E Fields Memory PropertyPath JsonValue
  | some (Head, Tail) =>
  -- Find the head property on the object
  match FindProperty Fields Head with
  | none => ⟨false, Memory, ""⟩
  | some HeadProp =>
  -- Head must be a struct property to traverse into
  match HeadProp.AsStructProperty with
  | none => ⟨false, Memory, ""⟩
  | some InnerStruct =>
  let InnerPtr := [HeadProp.GetName]
  -- If tail still contains dots, recurse deeper
  if FString.ContainsIgnoreCase Tail "." then
    let (NextHead, NextTail) := (FString.Split Tail).getD ("", "")
    match FindProperty InnerStruct.Fields NextHead with
    | some NextProp =>
      match NextProp.AsStructProperty with
      | some NextStruct =>
        let DeepPtr := InnerPtr ++ [NextProp.GetName]
        SetStructPropertyValue E NextStruct Memory DeepPtr NextTail JsonValue
      | none => ⟨false, Memory, ""⟩
    | none => ⟨false, Memory, ""⟩
  else
    -- Tail is the leaf property name: set it on the inner struct
    SetStructPropertyValue E InnerStruct Memory InnerPtr Tail JsonValue

end FPCGNodePropertyManager

/-- The memory of the settings object of the node with the given name. -/
def UPCGGraph.SettingsMemory (g : UPCGGraph) (NodeId : String) : Option FMemory :=
  match FPCGNodeManager.FindNodeByName g NodeId with
  | some Node => Node.Settings.map UPCGSettings.Memory
  | none => none

/-- The node of the given identity with the memory of its settings object replaced
(the effect on the document of in-place writes to that settings object). -/
def UPCGGraph.SetSettingsMemory (g : UPCGGraph) (Ptr : Nat) (Settings : UPCGSettings)
    (Memory : FMemory) : UPCGGraph :=
  g.UpdateNode Ptr (fun n => { n with Settings := some { Settings with Memory := Memory } })

namespace FPCGNodePropertyManager

/-- `FPCGNodePropertyManager::SetNodeProperty`. -/
def SetNodeProperty (E : FEngine) (Params : FJsonObject) : FOutcome :=
  match Params.TryGetStringField "graph_path" with
  | none => ⟨CreateErrorResponse "Missing 'graph_path' parameter", none⟩
  | some GraphPath =>
  match Params.TryGetStringField "node_id" with
  | none => ⟨CreateErrorResponse "Missing 'node_id' parameter", none⟩
  | some NodeId =>
  match Params.TryGetStringField "property_name" with
  | none => ⟨CreateErrorResponse "Missing 'property_name' parameter", none⟩
  | some PropertyName =>
  match Params.TryGetField "property_value" with
  | none => ⟨CreateErrorResponse "Missing 'property_value' parameter", none⟩
  | some PropertyValue =>
  match FPCGGraphCreator.LoadPCGGraph E GraphPath with
  | none => ⟨CreateErrorResponse ("Could not find PCG graph at '" ++ GraphPath ++ "'"), none⟩
  | some Graph =>
  match FPCGNodeManager.FindNodeByName Graph NodeId with
  | none =>
    ⟨CreateErrorResponse ("Could not find node '" ++ NodeId ++ "' in PCG graph"), some Graph⟩
  | some Node =>
  match Node.Settings with
  | none =>
    ⟨CreateErrorResponse ("Node '" ++ NodeId ++ "' has no settings object"), some Graph⟩
  | some Settings =>
  -- Set the property via reflection, with dot-notation path traversal if needed
  let Set := if FString.ContainsIgnoreCase PropertyName "."
    then SetPropertyValueByPath E Settings.Class.Properties Settings.Memory
      PropertyName PropertyValue
    else SetPropertyValue E Settings.Class.Properties Settings.Memory
      PropertyName PropertyValue
  let Graph1 := Graph.SetSettingsMemory Node.Ptr Settings Set.Memory
  if !Set.Success then
    let Editable := Settings.Class.Properties.filter FProperty.IsEditable
    let AvailableProperties := JoinCapped 0 (Editable.map FProperty.GetName)
    ⟨CreateErrorResponse ("Could not set property '" ++ PropertyName ++ "' on node '" ++
      NodeId ++ "' (class: " ++ Settings.Class.Name ++
      "). Available editable properties: " ++ AvailableProperties), some Graph1⟩
  else
    -- Mark as modified
    let Graph2 := ((Graph1.MarkPackageDirty).NotifyGraphChanged .Settings).MarkPackageDirty
    ⟨[ ("success", .Boolean true),
       ("node_id", .Str NodeId),
       ("property_name", .Str PropertyName),
       ("property_type", .Str Set.PropertyType) ],
     some Graph2⟩

/-- The struct names the list field discovery of `SetSpawnerEntries` recognises
(`StructName.Contains(…)` with the default search case). -/
def IsMeshEntryStructName (StructName : String) : Bool :=
  FString.ContainsIgnoreCase StructName "MeshSpawnerEntry" ||
  FString.ContainsIgnoreCase StructName "WeightedMesh" ||
  FString.ContainsIgnoreCase StructName "MeshEntry"

/-- The element struct of an array field (`CastField<FStructProperty>(It->Inner)`). -/
def ArrayInnerStruct (Property : FProperty) : Option UScriptStruct :=
  match Property.Kind with
  | .FArrayProperty Inner => Inner.AsStructProperty
  | _ => none

/-- The array fields of a class (`TFieldIterator<FArrayProperty>`). -/
def ArrayProperties (Fields : List FProperty) : List FProperty :=
  Fields.filter (fun Property => match Property.Kind with
    | .FArrayProperty _ => true
    | _ => false)

/-- The discovery loop of `SetSpawnerEntries`: the first array field whose element
struct has a recognised name, with that struct. -/
def FindMeshArrayProperty (Fields : List FProperty) : Option (FProperty × UScriptStruct) :=
  (ArrayProperties Fields).findSome? (fun Property =>
    match ArrayInnerStruct Property with
    | some Struct => if IsMeshEntryStructName Struct.GetName then some (Property, Struct) else none
    | none => none)

/-- The diagnostic loop of `SetSpawnerEntries` listing the array fields; `Count` is
the number of fields already listed. -/
def DescribeArrays (Count : Nat) : List FProperty → String
  | [] => ""
  | Property :: Rest =>
    (if Count > 0 then ", " else "") ++ Property.GetName ++
    (match ArrayInnerStruct Property with
      | some Struct => "(" ++ Struct.GetName ++ ")"
      | none => "") ++
    DescribeArrays (Count + 1) Rest

/-- The body of the loop over the fields of the entry struct: the effect of one
field on the memory of the new entry. -/
def SetEntryField (E : FEngine) (MeshPath : String) (Weight : Int) (Entry : FMemory)
    (Property : FProperty) : FMemory :=
  let PropName := Property.GetName
  -- Set the weight
  let SetWeight : FMemory :=
    if FString.ContainsIgnoreCase PropName "Weight" then
      match Property.Kind with
      | .FIntProperty => Entry.Write PropName (.Int32 Weight)
      | .FFloatProperty => Entry.Write PropName (.Float Weight)
      | _ => Entry
    else Entry
  -- Set the mesh path
  if FString.ContainsIgnoreCase PropName "Mesh" ||
      FString.ContainsIgnoreCase PropName "StaticMesh" then
    match Property.Kind with
    | .FSoftObjectProperty => Entry.Write PropName (.SoftObjectPtr MeshPath)
    | .FStructProperty Struct =>
      match Struct.Base with
      | some .FSoftObjectPath => Entry.Write PropName (.SoftObjectPath MeshPath)
      | _ => SetWeight
    | .FObjectProperty =>
      if E.LoadStaticMesh MeshPath then Entry.Write PropName (.Object MeshPath) else Entry
    | _ => SetWeight
  else SetWeight

/-- The state of the loop over the input entries: the elements of the array and
`AddedCount`. -/
structure FEntryLoop where
  Elements : List FValue
  AddedCount : Nat

/-- The body of the loop over the input entries. -/
def AddEntry (E : FEngine) (EntryStruct : UScriptStruct) (Loop : FEntryLoop)
    (EntryValue : FJsonValue) : FEntryLoop :=
  match EntryValue.TryGetObject with
  | none => Loop
  | some EntryObj =>
  match EntryObj.TryGetStringField "mesh_path" with
  | none => Loop
  | some MeshPath =>
  let Weight : Int := if EntryObj.HasField "weight"
    then CastInt32 (EntryObj.GetNumberField "weight") else 1
  -- Add a new element to the array and set each field on it
  let Entry := EntryStruct.Fields.foldl (SetEntryField E MeshPath Weight) []
  ⟨Loop.Elements ++ [.Struct Entry], Loop.AddedCount + 1⟩

/-- The array of `SetSpawnerEntries` after clearing it and running the loop over
the input entries. -/
def BuildEntries (E : FEngine) (EntryStruct : UScriptStruct)
    (EntriesArray : List FJsonValue) : FEntryLoop :=
  EntriesArray.foldl (AddEntry E EntryStruct) ⟨[], 0⟩

/-- `FPCGNodePropertyManager::SetSpawnerEntries`. -/
def SetSpawnerEntries (E : FEngine) (Params : FJsonObject) : FOutcome :=
  match Params.TryGetStringField "graph_path" with
  | none => ⟨CreateErrorResponse "Missing 'graph_path' parameter", none⟩
  | some GraphPath =>
  match Params.TryGetStringField "node_id" with
  | none => ⟨CreateErrorResponse "Missing 'node_id' parameter", none⟩
  | some NodeId =>
  match Params.TryGetArrayField "entries" with
  | none => ⟨CreateErrorResponse "Missing 'entries' array parameter", none⟩
  | some EntriesArray =>
  match FPCGGraphCreator.LoadPCGGraph E GraphPath with
  | none => ⟨CreateErrorResponse ("Could not find PCG graph at '" ++ GraphPath ++ "'"), none⟩
  | some Graph =>
  match FPCGNodeManager.FindNodeByName Graph NodeId with
  | none =>
    ⟨CreateErrorResponse ("Could not find node '" ++ NodeId ++ "' in PCG graph"), some Graph⟩
  | some Node =>
  match Node.Settings with
  | none =>
    ⟨CreateErrorResponse ("Node '" ++ NodeId ++ "' has no settings object"), some Graph⟩
  | some Settings =>
  -- Use reflection to find the mesh entries TArray property on the spawner settings
  match FindMeshArrayProperty Settings.Class.Properties with
  | none =>
    let AvailableArrays := DescribeArrays 0 (ArrayProperties Settings.Class.Properties)
    ⟨CreateErrorResponse ("Node '" ++ NodeId ++ "' (class: " ++ Settings.Class.Name ++
      ") does not appear to be a StaticMeshSpawner. Available array properties: " ++
      AvailableArrays), some Graph⟩
  | some (MeshArrayProp, EntryStruct) =>
  -- Clear existing entries, then add one element per accepted input entry
  let Loop := BuildEntries E EntryStruct EntriesArray
  let Memory1 := Settings.Memory.Write MeshArrayProp.GetName (.Array Loop.Elements)
  let Graph1 := Graph.SetSettingsMemory Node.Ptr Settings Memory1
  -- Mark as modified
  let Graph2 := ((Graph1.MarkPackageDirty).NotifyGraphChanged .Settings).MarkPackageDirty
  ⟨[ ("success", .Boolean true),
     ("node_id", .Str NodeId),
     ("entry_count", .Number Loop.AddedCount),
     ("array_property", .Str MeshArrayProp.GetName),
     ("entry_struct", .Str EntryStruct.GetName) ],
   some Graph2⟩

end FPCGNodePropertyManager

/-! ## Connecting nodes -/

namespace FPCGNodeConnector

/-- `FindPinByLabel`: the helper of `PCGNodeConnector.cpp`. -/
def FindPinByLabel (Node : UPCGNode) (PinLabel : String) (bIsInput : Bool) : Option UPCGPin :=
  let Pins := if bIsInput then Node.InputPins else Node.OutputPins
  -- Exact match first (`==` on `FString` ignores case)
  match Pins.find? (fun Pin => FString.EqualsIgnoreCase Pin.Label PinLabel) with
  | some Pin => some Pin
  | none =>
    -- Case-insensitive match
    match Pins.find? (fun Pin => FString.EqualsIgnoreCase Pin.Label PinLabel) with
    | some Pin => some Pin
    | none =>
      -- If only one pin exists, use it as default
      match Pins with
      | [Pin] => some Pin
      | _ => none

/-- The loop that lists the labels of the available pins for a diagnostic. -/
def AvailablePins (Pins : List UPCGPin) : String :=
  Pins.foldl (fun Available Pin =>
    (if Available.isEmpty then Available else Available ++ ", ") ++ Pin.Label) ""

/-- `FPCGNodeConnector::ConnectNodes`. -/
def ConnectNodes (E : FEngine) (Params : FJsonObject) : FOutcome :=
  match Params.TryGetStringField "graph_path" with
  | none => ⟨CreateErrorResponse "Missing 'graph_path' parameter", none⟩
  | some GraphPath =>
  match Params.TryGetStringField "from_node_id" with
  | none => ⟨CreateErrorResponse "Missing 'from_node_id' parameter", none⟩
  | some FromNodeId =>
  match Params.TryGetStringField "to_node_id" with
  | none => ⟨CreateErrorResponse "Missing 'to_node_id' parameter", none⟩
  | some ToNodeId =>
  -- Optional pin names with defaults
  let FromPin := (Params.TryGetStringField "from_pin").getD "Out"
  let ToPin := (Params.TryGetStringField "to_pin").getD "In"
  match FPCGGraphCreator.LoadPCGGraph E GraphPath with
  | none => ⟨CreateErrorResponse ("Could not find PCG graph at '" ++ GraphPath ++ "'"), none⟩
  | some Graph =>
  -- Find source and target nodes
  match FPCGNodeManager.FindNodeByName Graph FromNodeId with
  | none =>
    ⟨CreateErrorResponse ("Could not find source node '" ++ FromNodeId ++ "' in PCG graph"),
      some Graph⟩
  | some FromNode =>
  match FPCGNodeManager.FindNodeByName Graph ToNodeId with
  | none =>
    ⟨CreateErrorResponse ("Could not find target node '" ++ ToNodeId ++ "' in PCG graph"),
      some Graph⟩
  | some ToNode =>
  -- Find the output pin on source node
  match FindPinByLabel FromNode FromPin false with
  | none =>
    ⟨CreateErrorResponse ("Could not find output pin '" ++ FromPin ++ "' on node '" ++
      FromNodeId ++ "'. Available: " ++ AvailablePins FromNode.OutputPins), some Graph⟩
  | some OutputPin =>
  -- Find the input pin on target node
  match FindPinByLabel ToNode ToPin true with
  | none =>
    ⟨CreateErrorResponse ("Could not find input pin '" ++ ToPin ++ "' on node '" ++
      ToNodeId ++ "'. Available: " ++ AvailablePins ToNode.InputPins), some Graph⟩
  | some InputPin =>
  -- Create the edge: pin-based first, graph-based as fallback
  let Connected : Option UPCGGraph :=
    match E.AddEdgeTo Graph OutputPin InputPin with
    | some Graph1 => some Graph1
    | none => E.AddEdge Graph FromNode OutputPin.Label ToNode InputPin.Label
  match Connected with
  | none =>
    ⟨CreateErrorResponse ("Failed to create edge from '" ++ FromNodeId ++ "." ++ FromPin ++
      "' to '" ++ ToNodeId ++ "." ++ ToPin ++ "'"), some Graph⟩
  | some Graph1 =>
  let Graph2 := (Graph1.NotifyGraphChanged .Structural).MarkPackageDirty
  ⟨[ ("success", .Boolean true),
     ("from_node_id", .Str FromNodeId),
     ("from_pin", .Str OutputPin.Label),
     ("to_node_id", .Str ToNodeId),
     ("to_pin", .Str InputPin.Label) ],
   some Graph2⟩

end FPCGNodeConnector

/-! ## Graph parameters -/

/-- `FString::FromInt` and the `%lld` format: the decimal text of an integer. -/
def FromInt (i : Int) : String := toString i

namespace FPCGParameterManager

/-- `FPCGParameterManager::ResolveParamType`: the bag type and the value struct
(`OutValueStruct`), or `none` when it returns false. -/
def ResolveParamType (TypeString : String) :
    Option (EPropertyBagPropertyType × Option EBaseStructure) :=
  if FString.EqualsIgnoreCase TypeString "Bool" then some (.Bool, none)
  else if FString.EqualsIgnoreCase TypeString "Int32" ||
      FString.EqualsIgnoreCase TypeString "Int" ||
      FString.EqualsIgnoreCase TypeString "Integer" then some (.Int32, none)
  else if FString.EqualsIgnoreCase TypeString "Int64" then some (.Int64, none)
  else if FString.EqualsIgnoreCase TypeString "Float" then some (.Float, none)
  else if FString.EqualsIgnoreCase TypeString "Double" then some (.Double, none)
  else if FString.EqualsIgnoreCase TypeString "String" then some (.String, none)
  else if FString.EqualsIgnoreCase TypeString "Name" then some (.Name, none)
  else if FString.EqualsIgnoreCase TypeString "Vector" then some (.Struct, some .FVector)
  else if FString.EqualsIgnoreCase TypeString "Rotator" then some (.Struct, some .FRotator)
  else if FString.EqualsIgnoreCase TypeString "Transform"
    then some (.Struct, some .FTransform)
  else if FString.EqualsIgnoreCase TypeString "SoftObjectPath"
    then some (.Struct, some .FSoftObjectPath)
  else none

/-- `FPCGParameterManager::AddGraphParameter`. -/
def AddGraphParameter (E : FEngine) (Params : FJsonObject) : FOutcome :=
  match Params.TryGetStringField "graph_path" with
  | none => ⟨CreateErrorResponse "Missing 'graph_path' parameter", none⟩
  | some GraphPath =>
  match Params.TryGetStringField "param_name" with
  | none => ⟨CreateErrorResponse "Missing 'param_name' parameter", none⟩
  | some ParamName =>
  match Params.TryGetStringField "param_type" with
  | none => ⟨CreateErrorResponse "Missing 'param_type' parameter", none⟩
  | some ParamType =>
  match FPCGGraphCreator.LoadPCGGraph E GraphPath with
  | none => ⟨CreateErrorResponse ("Could not find PCG graph at '" ++ GraphPath ++ "'"), none⟩
  | some Graph =>
  match ResolveParamType ParamType with
  | none =>
    ⟨CreateErrorResponse ("Unknown parameter type '" ++ ParamType ++
      "'. Supported: Bool, Int32, Int64, Float, Double, String, Name, Vector, Rotator, " ++
      "Transform, SoftObjectPath"), some Graph⟩
  | some (BagType, ValueStruct) =>
  -- Build the property descriptor
  let Desc : FPropertyBagPropertyDesc := ⟨ParamName, BagType, ValueStruct⟩
  -- Add the parameter to the graph
  let Graph1 := { Graph with
    UserParameters := E.AddUserParameters Graph.UserParameters [Desc] }
  let Graph2 := (Graph1.NotifyGraphChanged .Settings).MarkPackageDirty
  ⟨[ ("success", .Boolean true),
     ("param_name", .Str ParamName),
     ("param_type", .Str ParamType) ],
   some Graph2⟩

/-- The `switch` of `SetGraphParameter`: the bag after a successful typed setter
(`none` when `bSuccess` stays false) and `ValueStr`. -/
def SetTypedValue (E : FEngine) (UserParams : FInstancedPropertyBag)
    (ValueType : EPropertyBagPropertyType) (ParamName : String) (DefaultValue : FJsonValue) :
    Option FInstancedPropertyBag × String :=
  match ValueType with
  | .Bool =>
    match DefaultValue.TryGetBool with
    | some bValue =>
      (E.SetValueBool UserParams ParamName bValue, if bValue then "true" else "false")
    | none => (none, "")
  | .Int32 =>
    match DefaultValue.TryGetNumber with
    | some NumValue =>
      (E.SetValueInt32 UserParams ParamName (CastInt32 NumValue), FromInt (CastInt32 NumValue))
    | none => (none, "")
  | .Int64 =>
    match DefaultValue.TryGetNumber with
    | some NumValue =>
      (E.SetValueInt64 UserParams ParamName (CastInt64 NumValue), FromInt (CastInt64 NumValue))
    | none => (none, "")
  | .Float =>
    match DefaultValue.TryGetNumber with
    | some NumValue =>
      (E.SetValueFloat UserParams ParamName (CastFloat NumValue),
        FString.SanitizeFloat (CastFloat NumValue) 1)
    | none => (none, "")
  | .Double =>
    match DefaultValue.TryGetNumber with
    | some NumValue =>
      (E.SetValueDouble UserParams ParamName NumValue, FString.SanitizeFloat NumValue 1)
    | none => (none, "")
  | .String =>
    match DefaultValue.TryGetString with
    | some StrValue => (E.SetValueString UserParams ParamName StrValue, StrValue)
    | none => (none, "")
  | .Name =>
    match DefaultValue.TryGetString with
    | some StrValue => (E.SetValueName UserParams ParamName StrValue, StrValue)
    | none => (none, "")
  | _ =>
    -- For struct types (Vector, Rotator, etc.): SetValueSerialize
    match DefaultValue.TryGetString with
    | some StrValue => (E.SetValueSerialize UserParams ParamName StrValue, StrValue)
    | none => (none, "")

/-- `FPCGParameterManager::SetGraphParameter`. -/
def SetGraphParameter (E : FEngine) (Params : FJsonObject) : FOutcome :=
  match Params.TryGetStringField "graph_path" with
  | none => ⟨CreateErrorResponse "Missing 'graph_path' parameter", none⟩
  | some GraphPath =>
  match Params.TryGetStringField "param_name" with
  | none => ⟨CreateErrorResponse "Missing 'param_name' parameter", none⟩
  | some ParamName =>
  match Params.TryGetField "default_value" with
  | none => ⟨CreateErrorResponse "Missing 'default_value' parameter", none⟩
  | some DefaultValue =>
  match FPCGGraphCreator.LoadPCGGraph E GraphPath with
  | none => ⟨CreateErrorResponse ("Could not find PCG graph at '" ++ GraphPath ++ "'"), none⟩
  | some Graph =>
  -- Get the user parameters property bag
  match Graph.UserParameters with
  | none => ⟨CreateErrorResponse "Graph has no user parameters struct.", some Graph⟩
  | some UserParamsConst =>
  match UserParamsConst.PropertyDescs with
  | none =>
    ⟨CreateErrorResponse
      "Graph has no user parameters defined. Use add_pcg_graph_parameter first.", some Graph⟩
  | some PropertyDescs =>
  -- Find the property descriptor for this parameter
  match PropertyDescs.find? (fun Desc => FString.EqualsIgnoreCase Desc.Name ParamName) with
  | none =>
    ⟨CreateErrorResponse ("Parameter '" ++ ParamName ++
      "' not found in graph's user parameters"), some Graph⟩
  | some FoundDesc =>
  -- Get mutable access to the user parameters
  match E.GetMutableUserParametersStruct Graph with
  | none =>
    ⟨CreateErrorResponse "Could not get mutable user parameters from graph.", some Graph⟩
  | some UserParams =>
  -- Set the value based on type
  match SetTypedValue E UserParams FoundDesc.ValueType ParamName DefaultValue with
  | (none, _) =>
    ⟨CreateErrorResponse ("Failed to set value for parameter '" ++ ParamName ++ "'"),
      some Graph⟩
  | (some UserParams1, ValueStr) =>
  let Graph1 := { Graph with UserParameters := some UserParams1 }
  let Graph2 := (Graph1.NotifyGraphChanged .Settings).MarkPackageDirty
  ⟨[ ("success", .Boolean true),
     ("param_name", .Str ParamName),
     ("new_value", .Str ValueStr) ],
   some Graph2⟩

/-- The result of `AssignPCGGraph`: the response and the component that received
the graph through `SetGraph`, if any. -/
structure FAssignOutcome where
  Response : FJsonObject
  AssignedTo : Option UPCGComponent

/-- `FPCGParameterManager::AssignPCGGraph`. -/
def AssignPCGGraph (E : FEngine) (Params : FJsonObject) : FAssignOutcome :=
  match Params.TryGetStringField "graph_path" with
  | none => ⟨CreateErrorResponse "Missing 'graph_path' parameter", none⟩
  | some GraphPath =>
  match FPCGGraphCreator.LoadPCGGraph E GraphPath with
  | none => ⟨CreateErrorResponse ("Could not find PCG graph at '" ++ GraphPath ++ "'"), none⟩
  | some _ =>
  -- Try actor_name first
  match Params.TryGetStringField "actor_name" with
  | some ActorName =>
    match E.EditorWorldActors with
    | none => ⟨CreateErrorResponse "No editor world available", none⟩
    | some Actors =>
    match Actors.find? (fun It => FString.EqualsIgnoreCase It.ActorLabel ActorName ||
        FString.EqualsIgnoreCase It.Name ActorName) with
    | none =>
      ⟨CreateErrorResponse ("Could not find actor '" ++ ActorName ++ "' in the level"), none⟩
    | some FoundActor =>
    match FoundActor.PCGComponent with
    | none =>
      ⟨CreateErrorResponse ("Actor '" ++ ActorName ++ "' does not have a PCGComponent"), none⟩
    | some PCGComp =>
      ⟨[ ("success", .Boolean true),
         ("graph_path", .Str GraphPath),
         ("assigned_to_actor", .Str ActorName) ],
       some PCGComp⟩
  | none =>
  -- Try blueprint_name
  match Params.TryGetStringField "blueprint_name" with
  | some BlueprintName =>
    match E.FindBlueprint BlueprintName with
    | none => ⟨CreateErrorResponse ("Could not find Blueprint '" ++ BlueprintName ++ "'"), none⟩
    | some Blueprint =>
    let Assigned : FJsonObject :=
      [ ("success", .Boolean true),
        ("graph_path", .Str GraphPath),
        ("assigned_to_blueprint", .Str BlueprintName) ]
    -- Find PCGComponent in the Blueprint's SimpleConstructionScript
    let FromScript : Option UPCGComponent :=
      match Blueprint.SimpleConstructionScript with
      | some AllNodes => AllNodes.findSome? (fun SCSNode => SCSNode.PCGComponentTemplate)
      | none => none
    match FromScript with
    | some PCGComp => ⟨Assigned, some PCGComp⟩
    | none =>
    -- Also check CDO
    match Blueprint.ActorCDO.bind (fun ActorCDO => ActorCDO.PCGComponent) with
    | some PCGComp => ⟨Assigned, some PCGComp⟩
    | none =>
      ⟨CreateErrorResponse ("Blueprint '" ++ BlueprintName ++
        "' does not have a PCGComponent"), none⟩
  | none =>
    ⟨CreateErrorResponse "Must provide either 'actor_name' or 'blueprint_name' parameter", none⟩

end FPCGParameterManager

/-! ## Sample documents -/

/-- A sample engine: one graph asset at `/Game/PCG/Sample`, the given classes as
its type universe, and engine calls that fail. -/
def SampleEngine (Graph : UPCGGraph) (Classes : List UClass) : FEngine where
  LoadObject := fun Path => if Path = "/Game/PCG/Sample" then some Graph else none
  AssetDataList := []
  FindObject := fun Name => Classes.find? (fun Class => FString.EqualsIgnoreCase Class.Name Name)
  Classes := Classes
  AddNodeOfType := fun _ _ => none
  AddEdgeTo := fun _ _ _ => none
  AddEdge := fun _ _ _ _ _ => none
  ImportText := fun _ _ => none
  LoadStaticMesh := fun _ => false
  AddUserParameters := fun Bag _ => Bag
  SetValueBool := fun _ _ _ => none
  SetValueInt32 := fun _ _ _ => none
  SetValueInt64 := fun _ _ _ => none
  SetValueFloat := fun _ _ _ => none
  SetValueDouble := fun _ _ _ => none
  SetValueString := fun _ _ _ => none
  SetValueName := fun _ _ _ => none
  SetValueSerialize := fun _ _ _ => none
  GetMutableUserParametersStruct := fun G => G.UserParameters
  EditorWorldActors := none
  FindBlueprint := fun _ => none

/-- A graph with no regular node and no distinguished node. -/
def EmptyGraph : UPCGGraph := ⟨[], none, none, none, [], false⟩

/-- A concrete settings class named `PCGFooSettings`. -/
def FooSettingsClass : UClass := ⟨"PCGFooSettings", true, false, []⟩

/-- A concrete settings class whose full name is `Foo`. -/
def FooClass : UClass := ⟨"Foo", true, false, []⟩

/-- A concrete settings class known to the static registrations. -/
def SurfaceSamplerClass : UClass := ⟨"PCGSurfaceSamplerSettings", true, false, []⟩

/-- A type universe in which `PCGFooSettings` is enumerated before `Foo`. -/
def FooEngine : FEngine := SampleEngine EmptyGraph [FooSettingsClass, FooClass]

/-- A type universe holding the surface sampler settings class. -/
def SamplerEngine : FEngine := SampleEngine EmptyGraph [SurfaceSamplerClass]

/-- Every class stored in the registry is a settings class. -/
def FPCGNodeManager.AllCompatible (Registry : TMap UClass) : Prop :=
  ∀ p ∈ Registry, p.2.IsChildOfPCGSettings = true

/-- The distinguished Input node of the sample graph. -/
def SampleInputNode : UPCGNode := ⟨1, "InputNode", 0, 0, none, [], [⟨11, "In", []⟩]⟩

/-- The distinguished Output node of the sample graph. -/
def SampleOutputNode : UPCGNode := ⟨2, "OutputNode", 0, 0, none, [⟨21, "Out", []⟩], []⟩

/-- A graph holding only its two distinguished nodes. -/
def InputOutputGraph : UPCGGraph :=
  ⟨[], some SampleInputNode, some SampleOutputNode, none, [], false⟩

/-- An input entry as the claim about the list entry mutator counts it: a JSON
object carrying the identifying string field `mesh_path`. -/
def CarriesMeshPath : FJsonValue → Bool
  | .Object Fields =>
    match FJsonObject.TryGetField Fields "mesh_path" with
    | some (.Str _) => true
    | _ => false
  | _ => false

/-- An input entry that has a text for `mesh_path`: a JSON object whose field
`mesh_path` is a string, a number or a boolean. -/
def HasMeshPathText : FJsonValue → Bool
  | .Object Fields =>
    match FJsonObject.TryGetField Fields "mesh_path" with
    | some (.Str _) => true
    | some (.Number _) => true
    | some (.Boolean _) => true
    | _ => false
  | _ => false

/-- The entry struct of the sample spawner: a soft mesh reference and a weight. -/
def SampleEntryStruct : UScriptStruct :=
  .mk "PCGStaticMeshSpawnerEntry" none
    [ .mk "Mesh" "TSoftObjectPtr<UStaticMesh>" true .FSoftObjectProperty,
      .mk "Weight" "int32" true .FIntProperty ]

/-- The list field `MeshEntries` of the sample spawner. -/
def SampleEntriesProperty : FProperty :=
  .mk "MeshEntries" "TArray<FPCGStaticMeshSpawnerEntry>" true
    (.FArrayProperty
      (.mk "MeshEntries" "FPCGStaticMeshSpawnerEntry" true
        (.FStructProperty SampleEntryStruct)))

/-- The settings class of the sample spawner, with the list field `MeshEntries`. -/
def SampleSpawnerClass : UClass :=
  ⟨"PCGStaticMeshSpawnerSettings", true, false,
    [ .mk "bEnabled" "bool" true .FBoolProperty, SampleEntriesProperty ]⟩

/-- The settings object of the sample spawner; its list holds one stale entry. -/
def SampleSpawnerSettings : UPCGSettings :=
  ⟨SampleSpawnerClass, [("MeshEntries", .Array [.Struct [("Weight", .Int32 7)]])]⟩

/-- The sample spawner node. -/
def SampleSpawnerNode : UPCGNode :=
  ⟨3, "StaticMeshSpawner_0", 0, 0, some SampleSpawnerSettings,
    [⟨31, "In", []⟩], [⟨32, "Out", []⟩]⟩

/-- A graph with the sample spawner node and the two distinguished nodes. -/
def SpawnerGraph : UPCGGraph :=
  ⟨[SampleSpawnerNode], some SampleInputNode, some SampleOutputNode, none, [], false⟩

/-- A request to set three entries on the sample spawner, one of which has no
`mesh_path`. -/
def SampleSpawnerRequest : FJsonObject :=
  [ ("graph_path", .Str "/Game/PCG/Sample"),
    ("node_id", .Str "StaticMeshSpawner_0"),
    ("entries", .Array
      [ .Object [("mesh_path", .Str "/Game/Meshes/Rock"), ("weight", .Number 2)],
        .Object [("weight", .Number 5)],
        .Object [("mesh_path", .Str "/Game/Meshes/Tree")] ]) ]


/-- A request to set one entry whose `mesh_path` is the number 5. -/
def NumberPathRequest : FJsonObject :=
  [ ("graph_path", .Str "/Game/PCG/Sample"),
    ("node_id", .Str "StaticMeshSpawner_0"),
    ("entries", .Array [ .Object [("mesh_path", .Number 5)] ]) ]

/-- A request to set six entries: two with a string `mesh_path`, one with a number,
one with a boolean, one with null, and one value that is no object. -/
def MixedSpawnerRequest : FJsonObject :=
  [ ("graph_path", .Str "/Game/PCG/Sample"),
    ("node_id", .Str "StaticMeshSpawner_0"),
    ("entries", .Array
      [ .Object [("mesh_path", .Str "/Game/Meshes/Rock"), ("weight", .Number 2)],
        .Object [("mesh_path", .Number 5)],
        .Object [("mesh_path", .Null)],
        .Str "/Game/Meshes/Bush",
        .Object [("mesh_path", .Boolean true)],
        .Object [("mesh_path", .Str "/Game/Meshes/Tree")] ]) ]
/-- The reflected vector struct. -/
def VectorStruct : UScriptStruct :=
  .mk "Vector" (some .FVector)
    [ .mk "X" "double" true .FDoubleProperty,
      .mk "Y" "double" true .FDoubleProperty,
      .mk "Z" "double" true .FDoubleProperty ]

/-- The reflected transform struct. -/
def TransformStruct : UScriptStruct :=
  .mk "Transform" (some .FTransform)
    [ .mk "Rotation" "FQuat" true (.FStructProperty (.mk "Quat" none [])),
      .mk "Translation" "FVector" true (.FStructProperty VectorStruct),
      .mk "Scale3D" "FVector" true (.FStructProperty VectorStruct) ]

/-- The struct field `Transform` of the sample settings class. -/
def SampleTransformProperty : FProperty :=
  .mk "Transform" "FTransform" true (.FStructProperty TransformStruct)

/-- A settings class with a struct field `Transform` of transform kind. -/
def SampleTransformClass : UClass :=
  ⟨"PCGSampleTransformSettings", true, false,
    [ .mk "Seed" "int32" true .FIntProperty, SampleTransformProperty ]⟩

/-- A settings object whose transform has rotation (10, 20, 30), location (0, 0, 0)
and scale (1, 1, 1). -/
def SampleTransformSettings : UPCGSettings :=
  ⟨SampleTransformClass,
    [ ("Seed", .Int32 42),
      ("Transform", .Struct
        [ ("Rotation", .Quat ⟨10, 20, 30⟩),
          ("Translation", FVector.ToValue ⟨0, 0, 0⟩),
          ("Scale3D", FVector.ToValue ⟨1, 1, 1⟩) ]) ]⟩

/-- A node with the sample transform settings. -/
def SampleTransformNode : UPCGNode :=
  ⟨4, "TransformPoints_0", 0, 0, some SampleTransformSettings,
    [⟨41, "In", []⟩], [⟨42, "Out", []⟩]⟩

/-- A graph with the sample transform node and the two distinguished nodes. -/
def TransformGraph : UPCGGraph :=
  ⟨[SampleTransformNode], some SampleInputNode, some SampleOutputNode, none, [], false⟩

/-- Scenario D as stated: property `Transform.location`, value `[1, 2, 3]`. -/
def TransformLocationPathRequest : FJsonObject :=
  [ ("graph_path", .Str "/Game/PCG/Sample"),
    ("node_id", .Str "TransformPoints_0"),
    ("property_name", .Str "Transform.location"),
    ("property_value", .Array [.Number 1, .Number 2, .Number 3]) ]

/-- The location-only write in object form: property `Transform`, value
`{"location": [1, 2, 3]}`. -/
def TransformLocationObjectRequest : FJsonObject :=
  [ ("graph_path", .Str "/Game/PCG/Sample"),
    ("node_id", .Str "TransformPoints_0"),
    ("property_name", .Str "Transform"),
    ("property_value", .Object [("location", .Array [.Number 1, .Number 2, .Number 3])]) ]

/-- The leaf coercion of a dot-path for the scalar field kinds, as the claim about
dot-path traversal reads the coercion table: the value stored for a JSON value of
the matching shape. -/
def ScalarLeafValue : FPropertyKind → FJsonValue → Option FValue
  | .FBoolProperty, .Boolean b => some (.Bool b)
  | .FIntProperty, .Number n => some (.Int32 (CastInt32 n))
  | .FFloatProperty, .Number n => some (.Float (CastFloat n))
  | .FDoubleProperty, .Number n => some (.Double n)
  | .FStrProperty, .Str s => some (.Str s)
  | .FNameProperty, .Str s => some (.Name s)
  | _, _ => none

/-- The innermost struct of the sample nesting: a selector with a name. -/
def SelectorStruct : UScriptStruct :=
  .mk "PCGAttributePropertySelector" none
    [ .mk "AttributeName" "FName" true .FNameProperty ]

/-- A struct holding a selector. -/
def SourceStruct : UScriptStruct :=
  .mk "PCGSampleSource" none
    [ .mk "Selector" "FPCGAttributePropertySelector" true (.FStructProperty SelectorStruct) ]

/-- A struct holding a source. -/
def InputsStruct : UScriptStruct :=
  .mk "PCGSampleInputs" none
    [ .mk "Source" "FPCGSampleSource" true (.FStructProperty SourceStruct) ]

/-- A settings class with the fields `Selector` (one struct level), `Source` (two
levels) and `Inputs` (three levels) above the leaf `AttributeName`. -/
def NestedClass : UClass :=
  ⟨"PCGSampleNestedSettings", true, false,
    [ .mk "Selector" "FPCGAttributePropertySelector" true (.FStructProperty SelectorStruct),
      .mk "Source" "FPCGSampleSource" true (.FStructProperty SourceStruct),
      .mk "Inputs" "FPCGSampleInputs" true (.FStructProperty InputsStruct) ]⟩

/-- The graph operations of the command subsystem. -/
inductive EGraphOperation where
  | AddNode
  | ConnectNodes
  | DeleteNode
  | SetNodeProperty
  | SetSpawnerEntries
  | AddGraphParameter
  | SetGraphParameter
  | AssignPCGGraph
  deriving DecidableEq, Repr

/-- The response of a graph operation to a request. -/
def RunOperation (E : FEngine) : EGraphOperation → FJsonObject → FJsonObject
  | .AddNode, Params => (FPCGNodeManager.AddNode E Params).Response
  | .ConnectNodes, Params => (FPCGNodeConnector.ConnectNodes E Params).Response
  | .DeleteNode, Params => (FPCGNodeManager.DeleteNode E Params).Response
  | .SetNodeProperty, Params => (FPCGNodePropertyManager.SetNodeProperty E Params).Response
  | .SetSpawnerEntries, Params => (FPCGNodePropertyManager.SetSpawnerEntries E Params).Response
  | .AddGraphParameter, Params => (FPCGParameterManager.AddGraphParameter E Params).Response
  | .SetGraphParameter, Params => (FPCGParameterManager.SetGraphParameter E Params).Response
  | .AssignPCGGraph, Params => (FPCGParameterManager.AssignPCGGraph E Params).Response

/-- The required parameters of each operation, in the order the operation checks them. -/
def RequiredParameters : EGraphOperation → List String
  | .AddNode => ["graph_path", "node_type"]
  | .ConnectNodes => ["graph_path", "from_node_id", "to_node_id"]
  | .DeleteNode => ["graph_path", "node_id"]
  | .SetNodeProperty => ["graph_path", "node_id", "property_name", "property_value"]
  | .SetSpawnerEntries => ["graph_path", "node_id", "entries"]
  | .AddGraphParameter => ["graph_path", "param_name", "param_type"]
  | .SetGraphParameter => ["graph_path", "param_name", "default_value"]
  | .AssignPCGGraph => ["graph_path"]

/-- The message for a missing required parameter: the `entries` array has its own
wording. -/
def MissingParameterMessage (p : String) : String :=
  if p = "entries" then "Missing 'entries' array parameter"
  else "Missing '" ++ p ++ "' parameter"

/-- A request to set spawner entries that has no `entries` parameter. -/
def NoEntriesRequest : FJsonObject :=
  [ ("graph_path", .Str "/Game/PCG/Sample"), ("node_id", .Str "StaticMeshSpawner_0") ]

/-- The graph operations that edit the graph document. -/
inductive EGraphMutation where
  | AddNode
  | ConnectNodes
  | DeleteNode
  | SetNodeProperty
  | SetSpawnerEntries
  | AddGraphParameter
  | SetGraphParameter
  deriving DecidableEq, Repr

/-- The outcome of a graph-editing operation on a request. -/
def RunMutation (E : FEngine) : EGraphMutation → FJsonObject → FOutcome
  | .AddNode, Params => FPCGNodeManager.AddNode E Params
  | .ConnectNodes, Params => FPCGNodeConnector.ConnectNodes E Params
  | .DeleteNode, Params => FPCGNodeManager.DeleteNode E Params
  | .SetNodeProperty, Params => FPCGNodePropertyManager.SetNodeProperty E Params
  | .SetSpawnerEntries, Params => FPCGNodePropertyManager.SetSpawnerEntries E Params
  | .AddGraphParameter, Params => FPCGParameterManager.AddGraphParameter E Params
  | .SetGraphParameter, Params => FPCGParameterManager.SetGraphParameter E Params

/-- The node objects of a graph: the regular nodes and the two distinguished nodes. -/
def UPCGGraph.AllNodes (g : UPCGGraph) : List UPCGNode :=
  g.Nodes ++ g.InputNode.toList ++ g.OutputNode.toList

/-- Object identity is sound: two node objects of the graph at the same address are
the same object. -/
def UPCGGraph.NodesIdentifiedByPtr (g : UPCGGraph) : Prop :=
  ∀ a ∈ g.AllNodes, ∀ b ∈ g.AllNodes, a.Ptr = b.Ptr → a = b

/-- The outcome left the document untouched: no graph was loaded, or the graph of
the outcome is the graph as `LoadPCGGraph` returned it (same nodes, edges, settings
memory and parameter bag, no further change notification, same dirty mark). -/
def DocumentUntouched (E : FEngine) (Params : FJsonObject) (Outcome : FOutcome) : Prop :=
  Outcome.Graph = none ∨
  ∃ GraphPath, FJsonObject.TryGetStringField Params "graph_path" = some GraphPath ∧
    Outcome.Graph = FPCGGraphCreator.LoadPCGGraph E GraphPath

/-- A concrete settings class whose full name is `FOO`. -/
def UpperFooClass : UClass := ⟨"FOO", true, false, []⟩

/-- A type universe in which `PCGFooSettings` (short name `Foo`) is enumerated
before the class `FOO`. -/
def CaseEngine : FEngine := SampleEngine EmptyGraph [FooSettingsClass, UpperFooClass]

/-- A node with two output pins whose labels differ only by case, and one input pin. -/
def TwoOutputsNode : UPCGNode :=
  ⟨5, "Branch_0", 0, 0, none, [⟨51, "Data", []⟩], [⟨52, "out", []⟩, ⟨53, "Out", []⟩]⟩


/-- The invariant of a `TMap` keyed by `FString`: no two keys are equal ignoring case. -/
def TMap.KeysDistinct {β : Type} (m : TMap β) : Prop :=
  m.Pairwise (fun p q => FString.EqualsIgnoreCase p.1 q.1 = false)
/-- The type vocabulary of Add Parameter as the claim lists it: each accepted name
with the bag type and the value struct it stands for. -/
def ParamTypeTable : List (String × EPropertyBagPropertyType × Option EBaseStructure) :=
  [ ("Bool", .Bool, none),
    ("Int32", .Int32, none),
    ("Int", .Int32, none),
    ("Integer", .Int32, none),
    ("Int64", .Int64, none),
    ("Float", .Float, none),
    ("Double", .Double, none),
    ("String", .String, none),
    ("Name", .Name, none),
    ("Vector", .Struct, some .FVector),
    ("Rotator", .Struct, some .FRotator),
    ("Transform", .Struct, some .FTransform),
    ("SoftObjectPath", .Struct, some .FSoftObjectPath) ]

/-- A parameter bag that declares the float parameter `Density` and the vector
parameter `Offset`. -/
def SampleBag : FInstancedPropertyBag :=
  ⟨some [⟨"Density", .Float, none⟩, ⟨"Offset", .Struct, some .FVector⟩],
   [("Density", .Float 0)]⟩

/-- A parameter bag without a layout: no parameter was declared yet. -/
def EmptyBag : FInstancedPropertyBag := ⟨none, []⟩

/-- A graph with the sample parameter bag. -/
def ParameterGraph : UPCGGraph :=
  ⟨[], some SampleInputNode, some SampleOutputNode, some SampleBag, [], false⟩

/-- A graph whose parameter bag has no layout. -/
def NoLayoutGraph : UPCGGraph :=
  ⟨[], some SampleInputNode, some SampleOutputNode, some EmptyBag, [], false⟩

/-- The seven scalar kinds of a parameter bag. -/
def IsScalarBagType : EPropertyBagPropertyType → Bool
  | .Bool => true
  | .Int32 => true
  | .Int64 => true
  | .Float => true
  | .Double => true
  | .String => true
  | .Name => true
  | _ => false

/-- Set Parameter on a scalar parameter as the claim describes it: for a JSON value
of the shape matching the declared kind, the typed setter that is called with the
coerced value, and the text reported as `new_value`. -/
def ScalarSetterCall (E : FEngine) (UserParams : FInstancedPropertyBag) (ParamName : String) :
    EPropertyBagPropertyType → FJsonValue → Option (Option FInstancedPropertyBag × String)
  | .Bool, .Boolean b =>
    some (E.SetValueBool UserParams ParamName b, if b then "true" else "false")
  | .Int32, .Number n =>
    some (E.SetValueInt32 UserParams ParamName (CastInt32 n), FromInt (CastInt32 n))
  | .Int64, .Number n =>
    some (E.SetValueInt64 UserParams ParamName (CastInt64 n), FromInt (CastInt64 n))
  | .Float, .Number n =>
    some (E.SetValueFloat UserParams ParamName (CastFloat n),
      FString.SanitizeFloat (CastFloat n) 1)
  | .Double, .Number n =>
    some (E.SetValueDouble UserParams ParamName n, FString.SanitizeFloat n 1)
  | .String, .Str s => some (E.SetValueString UserParams ParamName s, s)
  | .Name, .Str s => some (E.SetValueName UserParams ParamName s, s)
  | _, _ => none

/-- The numeric kinds among the scalar kinds of a parameter bag. -/
def IsNumberBagType : EPropertyBagPropertyType → Bool
  | .Int32 => true
  | .Int64 => true
  | .Float => true
  | .Double => true
  | _ => false

/-- The text kinds among the scalar kinds of a parameter bag: string and name. -/
def IsTextBagType : EPropertyBagPropertyType → Bool
  | .String => true
  | .Name => true
  | _ => false

/-- The reading of a JSON value as a scalar of the declared kind, as a JSON value of
the matching shape: the reading as a boolean for a boolean parameter, as a number
for the numeric kinds, as text for string and name; nothing when the value has no
such reading. -/
def ScalarReading : EPropertyBagPropertyType → FJsonValue → Option FJsonValue
  | .Bool, J => J.TryGetBool.map FJsonValue.Boolean
  | .Int32, J => J.TryGetNumber.map FJsonValue.Number
  | .Int64, J => J.TryGetNumber.map FJsonValue.Number
  | .Float, J => J.TryGetNumber.map FJsonValue.Number
  | .Double, J => J.TryGetNumber.map FJsonValue.Number
  | .String, J => J.TryGetString.map FJsonValue.Str
  | .Name, J => J.TryGetString.map FJsonValue.Str
  | _, _ => none

/-- The success response of Set Parameter. -/
def SetParameterSuccess (ParamName ValueStr : String) : FJsonObject :=
  [ ("success", .Boolean true), ("param_name", .Str ParamName), ("new_value", .Str ValueStr) ]

/-- The graph after a successful Set Parameter: the bag replaced, one settings
notification, the package marked dirty. -/
def GraphWithParameters (Graph : UPCGGraph) (UserParams : FInstancedPropertyBag) : UPCGGraph :=
  ({ Graph with UserParameters := some UserParams }.NotifyGraphChanged .Settings).MarkPackageDirty

/-- The name under which a bag declares a parameter: the name of the first descriptor
that equals the requested name ignoring case, nothing when the bag declares no such
parameter. -/
def FInstancedPropertyBag.FindName (Bag : FInstancedPropertyBag) (Name : String) :
    Option String :=
  ((Bag.PropertyDescs.getD []).find?
    (fun Desc => FString.EqualsIgnoreCase Desc.Name Name)).map FPropertyBagPropertyDesc.Name

/-- A setter of the sample bag: the value is stored in the cell of the declared
parameter; the call fails when the bag declares no parameter of that name. -/
def FInstancedPropertyBag.SetValue (Bag : FInstancedPropertyBag) (Name : String)
    (Value : FValue) : Option FInstancedPropertyBag :=
  (Bag.FindName Name).map (fun Cell => { Bag with Values := Bag.Values.Write Cell Value })

/-- The sample engine with a parameter bag that stores what its setters are given:
the typed setters store the value in the cell of the parameter, the generic setter
stores the text. -/
def ParameterEngine (Graph : UPCGGraph) : FEngine :=
  { SampleEngine Graph [] with
    AddUserParameters := fun Bag Descs =>
      match Bag with
      | some B => some { B with PropertyDescs := some ((B.PropertyDescs.getD []) ++ Descs) }
      | none => some ⟨some Descs, []⟩
    SetValueBool := fun B Name v => B.SetValue Name (.Bool v)
    SetValueInt32 := fun B Name v => B.SetValue Name (.Int32 v)
    SetValueInt64 := fun B Name v => B.SetValue Name (.Int64 v)
    SetValueFloat := fun B Name v => B.SetValue Name (.Float v)
    SetValueDouble := fun B Name v => B.SetValue Name (.Double v)
    SetValueString := fun B Name v => B.SetValue Name (.Str v)
    SetValueName := fun B Name v => B.SetValue Name (.Name v)
    SetValueSerialize := fun B Name v => B.SetValue Name (.Imported v) }

/-- Scenario C, second call: set `Density` to 0.75. -/
def SetDensityRequest : FJsonObject :=
  [ ("graph_path", .Str "/Game/PCG/Sample"), ("param_name", .Str "Density"),
    ("default_value", .Number (mkRat 3 4)) ]

/-- Set the vector parameter `Offset` to the JSON array `[1, 2, 3]`. -/
def SetOffsetArrayRequest : FJsonObject :=
  [ ("graph_path", .Str "/Game/PCG/Sample"), ("param_name", .Str "Offset"),
    ("default_value", .Array [.Number 1, .Number 2, .Number 3]) ]

/-- Set the vector parameter `Offset` to the text `(X=1,Y=2,Z=3)`. -/
def SetOffsetTextRequest : FJsonObject :=
  [ ("graph_path", .Str "/Game/PCG/Sample"), ("param_name", .Str "Offset"),
    ("default_value", .Str "(X=1,Y=2,Z=3)") ]

/-- Set the float parameter `Density` to the JSON string `"0.5"`. -/
def SetDensityTextRequest : FJsonObject :=
  [ ("graph_path", .Str "/Game/PCG/Sample"), ("param_name", .Str "Density"),
    ("default_value", .Str "0.5") ]

/-- Set the vector parameter `Offset` to the JSON number 5. -/
def SetOffsetNumberRequest : FJsonObject :=
  [ ("graph_path", .Str "/Game/PCG/Sample"), ("param_name", .Str "Offset"),
    ("default_value", .Number 5) ]

/-- Scenario C, first call: declare the float parameter `Density`. -/
def AddDensityRequest : FJsonObject :=
  [ ("graph_path", .Str "/Game/PCG/Sample"), ("param_name", .Str "Density"),
    ("param_type", .Str "Float") ]

/-- The graph after the first call of scenario C on a graph whose bag had no layout. -/
def DensityGraph : UPCGGraph :=
  ((FPCGParameterManager.AddGraphParameter (ParameterEngine NoLayoutGraph)
    AddDensityRequest).Graph).getD NoLayoutGraph

/-- The bag of `DensityGraph` with three quarters stored in the cell of `Density`. -/
def DensityBag : FInstancedPropertyBag :=
  ⟨some [⟨"Density", .Float, none⟩], [("Density", .Float (mkRat 3 4))]⟩

/-! ## Edges -/

/-- The edge object from an upstream pin to a downstream pin: its `InputPin` is the
pin it comes from, its `OutputPin` the pin it goes to. -/
def UPCGEdge.Between (Upstream Downstream : UPCGPin) : UPCGEdge :=
  ⟨Upstream.Ptr, Downstream.Ptr⟩

/-- One more edge at the end of the edge list of a pin. -/
def UPCGPin.AddEdge (Pin : UPCGPin) (Edge : UPCGEdge) : UPCGPin :=
  { Pin with Edges := Pin.Edges ++ [Edge] }

/-- The pin object at the given address receives the edge, another pin is left as it is. -/
def UPCGPin.AddEdgeAt (Ptr : Nat) (Edge : UPCGEdge) (Pin : UPCGPin) : UPCGPin :=
  if Pin.Ptr = Ptr then Pin.AddEdge Edge else Pin

/-- The edge is recorded on the upstream pin among the output pins of the node and on
the downstream pin among its input pins. -/
def UPCGNode.AddEdgeBetween (Upstream Downstream : UPCGPin) (Node : UPCGNode) : UPCGNode :=
  let Edge := UPCGEdge.Between Upstream Downstream
  { Node with
    InputPins := Node.InputPins.map (UPCGPin.AddEdgeAt Downstream.Ptr Edge),
    OutputPins := Node.OutputPins.map (UPCGPin.AddEdgeAt Upstream.Ptr Edge) }

/-- The graph with one edge created between an output pin and an input pin: the edge
is appended to the edges of both pin objects, nothing else changes. -/
def UPCGGraph.AddEdgeBetween (Graph : UPCGGraph) (Upstream Downstream : UPCGPin) : UPCGGraph :=
  { Graph with
    Nodes := Graph.Nodes.map (UPCGNode.AddEdgeBetween Upstream Downstream),
    InputNode := Graph.InputNode.map (UPCGNode.AddEdgeBetween Upstream Downstream),
    OutputNode := Graph.OutputNode.map (UPCGNode.AddEdgeBetween Upstream Downstream) }

/-- The output pins of all node objects of a graph. -/
def UPCGGraph.AllOutputPins (g : UPCGGraph) : List UPCGPin :=
  (g.AllNodes.map UPCGNode.OutputPins).flatten

/-- The input pins of all node objects of a graph. -/
def UPCGGraph.AllInputPins (g : UPCGGraph) : List UPCGPin :=
  (g.AllNodes.map UPCGNode.InputPins).flatten

/-- The number of edges of a graph; every edge is counted at its output pin. -/
def UPCGGraph.EdgeCount (g : UPCGGraph) : Nat :=
  (g.AllOutputPins.map (fun Pin => Pin.Edges.length)).sum

/-- The edges of the output pin object at the given address. -/
def UPCGGraph.OutputEdges (g : UPCGGraph) (Ptr : Nat) : Option (List UPCGEdge) :=
  (g.AllOutputPins.find? (fun Pin => Pin.Ptr == Ptr)).map UPCGPin.Edges

/-- The edges of the input pin object at the given address. -/
def UPCGGraph.InputEdges (g : UPCGGraph) (Ptr : Nat) : Option (List UPCGEdge) :=
  (g.AllInputPins.find? (fun Pin => Pin.Ptr == Ptr)).map UPCGPin.Edges

/-- Every pin object occurs once in the graph: no two output pins and no two input
pins share an address. -/
def UPCGGraph.PinsIdentifiedByPtr (g : UPCGGraph) : Prop :=
  (g.AllOutputPins.map UPCGPin.Ptr).Nodup ∧ (g.AllInputPins.map UPCGPin.Ptr).Nodup

instance UPCGGraph.decidablePinsIdentifiedByPtr (g : UPCGGraph) : Decidable g.PinsIdentifiedByPtr := by
  unfold UPCGGraph.PinsIdentifiedByPtr
  exact inferInstance

/-- A node with one input pin `Data` and one output pin `Result`, the latter with
an edge to the input pin of the Output node. -/
def FilterNode : UPCGNode :=
  ⟨6, "Filter_0", 0, 0, none, [⟨61, "Data", []⟩], [⟨62, "Result", [⟨62, 21⟩]⟩]⟩

/-- A graph of scenario B: the Input node, whose only output pin is labelled `In`,
two regular nodes, and the Output node with the edge from the first regular node. -/
def FilterGraph : UPCGGraph :=
  ⟨[FilterNode, TwoOutputsNode], some SampleInputNode,
   some { SampleOutputNode with InputPins := [⟨21, "Out", [⟨62, 21⟩]⟩] }, none, [], false⟩

/-- The pin-level call of the sample engine: it returns false when the two pins are
already connected, else it appends the edge and returns true. -/
def UPCGGraph.AddEdgeTo (G : UPCGGraph) (Upstream Downstream : UPCGPin) : Option UPCGGraph :=
  if Upstream.Edges.contains (UPCGEdge.Between Upstream Downstream) then none
  else some (G.AddEdgeBetween Upstream Downstream)

/-- The sample engine with edge creation. The pin-level call appends the edge unless
the two pins are already connected. The graph-level call returns null when a node
has no pin of the given label; else it makes the pin-level call on the first pins
that carry the labels and returns the To node, whether or not that call added an
edge. -/
def EdgeEngine (Graph : UPCGGraph) : FEngine :=
  { SampleEngine Graph [] with
    AddEdgeTo := fun G Upstream Downstream => G.AddEdgeTo Upstream Downstream
    AddEdge := fun G FromNode FromLabel ToNode ToLabel =>
      match FromNode.OutputPins.find? (fun Pin => FString.EqualsIgnoreCase Pin.Label FromLabel),
            ToNode.InputPins.find? (fun Pin => FString.EqualsIgnoreCase Pin.Label ToLabel) with
      | some Upstream, some Downstream => some ((G.AddEdgeTo Upstream Downstream).getD G)
      | _, _ => none }

/-- Scenario B: connect the Input node to the regular node, no pin given. -/
def ConnectInputRequest : FJsonObject :=
  [ ("graph_path", .Str "/Game/PCG/Sample"), ("from_node_id", .Str "InputNode"),
    ("to_node_id", .Str "Filter_0") ]

/-- Fan-out: connect the output pin of the first regular node, which has one edge,
to the input pin `Data` of the second. -/
def ConnectFanOutRequest : FJsonObject :=
  [ ("graph_path", .Str "/Game/PCG/Sample"), ("from_node_id", .Str "Filter_0"),
    ("to_node_id", .Str "Branch_0"), ("from_pin", .Str "result"), ("to_pin", .Str "data") ]


/-- Connect again two ports that are already connected: the output pin `Result` of
the first regular node to the input pin `Out` of the Output node. -/
def ConnectAgainRequest : FJsonObject :=
  [ ("graph_path", .Str "/Game/PCG/Sample"), ("from_node_id", .Str "Filter_0"),
    ("to_node_id", .Str "OutputNode"), ("from_pin", .Str "Result"), ("to_pin", .Str "Out") ]
/-! ## Struct values from JSON -/

/-- Elements 0, 1 and 2 of a JSON array, each read as a number, when the array has
at least three elements. -/
def FirstThree : List FJsonValue → Option (ℚ × ℚ × ℚ)
  | A0 :: A1 :: A2 :: _ => some (A0.AsNumber, A1.AsNumber, A2.AsNumber)
  | _ => none

/-- What a key of a JSON object gives for a component of a transform: the first three
elements of its array when the key is present with an array of at least three
elements, nothing otherwise. -/
def TransformKeyValue (ObjValue : FJsonObject) (Key : String) : Option (ℚ × ℚ × ℚ) :=
  match ObjValue.TryGetField Key with
  | some (.Array Elements) => FirstThree Elements
  | _ => none

/-- Overwrite a member of the struct value in a cell when a new value is given. -/
def OverwriteMember (Memory : FMemory) (Cell Member : String) : Option FValue → FMemory
  | some Value => Memory.WritePath [Cell] Member Value
  | none => Memory

/-- The location or scale of a transform from three numbers. -/
def VectorValue (v : ℚ × ℚ × ℚ) : FValue := FVector.ToValue ⟨v.1, v.2.1, v.2.2⟩

/-- The rotation of a transform from pitch, yaw and roll. -/
def RotationValue (v : ℚ × ℚ × ℚ) : FValue := .Quat ⟨v.1, v.2.1, v.2.2⟩

/-- A struct field `Offset` of vector kind. -/
def SampleVectorProperty : FProperty :=
  .mk "Offset" "FVector" true (.FStructProperty VectorStruct)

/-- The reflected rotator struct. -/
def RotatorStruct : UScriptStruct :=
  .mk "Rotator" (some .FRotator)
    [ .mk "Pitch" "double" true .FDoubleProperty,
      .mk "Yaw" "double" true .FDoubleProperty,
      .mk "Roll" "double" true .FDoubleProperty ]

/-- A struct field `Facing` of rotator kind. -/
def SampleRotatorProperty : FProperty :=
  .mk "Facing" "FRotator" true (.FStructProperty RotatorStruct)

/-- The memory of an object with a vector `Offset` at (7, 8, 9) and a rotator
`Facing` at pitch 10, yaw 20, roll 30. -/
def SampleStructMemory : FMemory :=
  [ ("Offset", .Struct [("X", .Double 7), ("Y", .Double 8), ("Z", .Double 9)]),
    ("Facing", .Struct [("Pitch", .Double 10), ("Yaw", .Double 20), ("Roll", .Double 30)]) ]

/-! ## Reading a graph -/

/-- `Edge->GetOtherPin(Pin)`: the address of the pin at the other end of the edge. -/
def UPCGEdge.GetOtherPin (Edge : UPCGEdge) (Pin : UPCGPin) : Nat :=
  if Pin.Ptr = Edge.InputPin then Edge.OutputPin else Edge.InputPin

/-- The pin object at an address with its owner (`Pin->GetOwner()`): the first node
object of the graph that has a pin at this address. -/
def UPCGGraph.FindPin (g : UPCGGraph) (Ptr : Nat) : Option (UPCGNode × UPCGPin) :=
  g.AllNodes.findSome? (fun Node =>
    ((Node.InputPins ++ Node.OutputPins).find? (fun Pin => Pin.Ptr == Ptr)).map
      (fun Pin => (Node, Pin)))

/-- `Pin->IsConnected()`. -/
def UPCGPin.IsConnected (Pin : UPCGPin) : Bool := !Pin.Edges.isEmpty

namespace FPCGGraphCreator

/-- The `switch` of `ReadPCGGraph` that maps a property bag type to a string. -/
def TypeStr : EPropertyBagPropertyType → String
  | .Bool => "Bool"
  | .Int32 => "Int32"
  | .Int64 => "Int64"
  | .Float => "Float"
  | .Double => "Double"
  | .String => "String"
  | .Name => "Name"
  | .Struct => "Struct"
  | _ => "Unknown"

/-- The pins of a regular node as `ReadPCGGraph` lists them. -/
def SerializePins (Pins : List UPCGPin) : List FJsonValue :=
  Pins.map (fun Pin => FJsonValue.Object
    [ ("pin_name", .Str Pin.Label), ("is_connected", .Boolean Pin.IsConnected) ])

/-- The body of the loop of `ReadPCGGraph` over the regular nodes. -/
def SerializeNode (Node : UPCGNode) : FJsonValue :=
  let SettingsClass : String :=
    match Node.Settings with
    | some Settings => Settings.Class.Name
    | none => "None"
  -- Node title: derived from the settings class name
  let NodeTitle : String :=
    match Node.Settings with
    | some S =>
      let NodeTitle0 := S.Class.Name
      let NodeTitle1 := if FString.EndsWithIgnoreCase NodeTitle0 "Settings"
        then FString.LeftChop NodeTitle0 8 else NodeTitle0
      if FString.StartsWithIgnoreCase NodeTitle1 "PCG" then FString.RightChop NodeTitle1 3
      else NodeTitle1
    | none => Node.Name
  .Object
    [ ("node_id", .Str Node.Name),
      ("pos_x", .Number Node.PositionX),
      ("pos_y", .Number Node.PositionY),
      ("settings_class", .Str SettingsClass),
      ("node_title", .Str NodeTitle),
      ("input_pins", .Array (SerializePins Node.InputPins)),
      ("output_pins", .Array (SerializePins Node.OutputPins)) ]

/-- The body of the innermost loop of the connections of `ReadPCGGraph`: the entry
for one edge of an output pin of a node, none when the other pin or its owner is
not found. -/
def SerializeEdge (Graph : UPCGGraph) (Node : UPCGNode) (OutputPin : UPCGPin)
    (Edge : UPCGEdge) : Option FJsonValue :=
  match Graph.FindPin (Edge.GetOtherPin OutputPin) with
  | none => none
  | some (Owner, OtherPin) =>
    some (.Object
      [ ("from_node_id", .Str Node.Name),
        ("from_pin", .Str OutputPin.Label),
        ("to_node_id", .Str Owner.Name),
        ("to_pin", .Str OtherPin.Label) ])

/-- The connections of `ReadPCGGraph`: for each node of `Graph->GetNodes()`, each of
its output pins and each edge of the pin, one entry. -/
def SerializeConnections (Graph : UPCGGraph) : List FJsonValue :=
  (Graph.Nodes.map (fun Node =>
    (Node.OutputPins.map (fun OutputPin =>
      OutputPin.Edges.filterMap (SerializeEdge Graph Node OutputPin))).flatten)).flatten

/-- `FPCGGraphCreator::ReadPCGGraph`. -/
def ReadPCGGraph (E : FEngine) (Params : FJsonObject) : FJsonObject :=
  match Params.TryGetStringField "graph_path" with
  | none => CreateErrorResponse "Missing 'graph_path' parameter"
  | some GraphPath =>
  match LoadPCGGraph E GraphPath with
  | none => CreateErrorResponse ("Could not find PCG graph at '" ++ GraphPath ++ "'")
  | some Graph =>
  -- Serialize nodes
  let Nodes := Graph.Nodes
  let NodesArray := Nodes.map SerializeNode
  -- Also include the special Input/Output nodes
  let InputObjs : List FJsonValue :=
    match Graph.InputNode with
    | some InputNode =>
      [ .Object [ ("node_id", .Str InputNode.Name), ("role", .Str "Input"),
                  ("output_pins", .Array (SerializePinNames InputNode.OutputPins)) ] ]
    | none => []
  let OutputObjs : List FJsonValue :=
    match Graph.OutputNode with
    | some OutputNode =>
      [ .Object [ ("node_id", .Str OutputNode.Name), ("role", .Str "Output"),
                  ("input_pins", .Array (SerializePinNames OutputNode.InputPins)) ] ]
    | none => []
  let SpecialNodesArray := InputObjs ++ OutputObjs
  -- Serialize edges/connections
  let ConnectionsArray := SerializeConnections Graph
  -- Serialize user parameters
  let ParametersArray : List FJsonValue :=
    match Graph.UserParameters.bind (fun UserParams => UserParams.PropertyDescs) with
    | some PropertyDescs =>
      PropertyDescs.map (fun Desc => FJsonValue.Object
        [ ("param_name", .Str Desc.Name), ("param_type", .Str (TypeStr Desc.ValueType)) ])
    | none => []
  [ ("success", .Boolean true),
    ("graph_path", .Str GraphPath),
    ("nodes", .Array NodesArray),
    ("special_nodes", .Array SpecialNodesArray),
    ("connections", .Array ConnectionsArray),
    ("parameters", .Array ParametersArray),
    ("node_count", .Number Nodes.length) ]

end FPCGGraphCreator

/-- A request to read the sample graph. -/
def ReadSampleRequest : FJsonObject := [("graph_path", .Str "/Game/PCG/Sample")]

/-- The entry of the `parameters` array of Read Graph for a declared parameter. -/
def ParameterEntry (Desc : FPropertyBagPropertyDesc) : FJsonValue :=
  .Object [ ("param_name", .Str Desc.Name),
            ("param_type", .Str (FPCGGraphCreator.TypeStr Desc.ValueType)) ]

/-! ## Static registrations of one friendly name -/

/-- The classes that the static registrations of a friendly name find and accept,
in list order: for each `TryRegister(FriendlyName, ClassName)` of that friendly
name, the class the lookup finds when it is a settings class. -/
def FPCGNodeManager.StaticCandidates (E : FEngine) (Registrations : List (String × String))
    (FriendlyName : String) : List UClass :=
  (Registrations.filter (fun r => r.1 == FriendlyName)).filterMap
    (fun r => (FPCGNodeManager.FindClass E r.2).filter UClass.IsChildOfPCGSettings)

/-- The settings class `PCGMergeSettings`. -/
def MergeSettingsClass : UClass := ⟨"PCGMergeSettings", true, false, []⟩

/-- The settings class `PCGUnionSettings`. -/
def UnionSettingsClass : UClass := ⟨"PCGUnionSettings", true, false, []⟩

/-- A type universe with both classes registered under `Union`. -/
def UnionEngine : FEngine := SampleEngine EmptyGraph [MergeSettingsClass, UnionSettingsClass]

/-- A type universe with only the first of the classes registered under `Union`. -/
def MergeEngine : FEngine := SampleEngine EmptyGraph [MergeSettingsClass]

/-! ## Assign Graph -/

/-- An editor world with the actor `Rock`, which has a graph component, and the
actor `Plain`, which has none, and with the blueprint `BP_Forest`, whose
construction script holds a graph component. -/
def AssignEngine : FEngine :=
  { SampleEngine EmptyGraph [] with
    EditorWorldActors := some [⟨"Rock", "Rock_1", some ⟨7⟩⟩, ⟨"Plain", "Plain_1", none⟩]
    FindBlueprint := fun Name =>
      if Name = "BP_Forest" then some ⟨some [⟨none⟩, ⟨some ⟨8⟩⟩], none⟩ else none }

/-- A request that names an actor and a blueprint. -/
def AssignBothRequest : FJsonObject :=
  [ ("graph_path", .Str "/Game/PCG/Sample"), ("actor_name", .Str "Rock"),
    ("blueprint_name", .Str "BP_Forest") ]

/-- A request that names only the actor. -/
def AssignActorRequest : FJsonObject :=
  [ ("graph_path", .Str "/Game/PCG/Sample"), ("actor_name", .Str "Rock") ]

/-- A request that names an actor that is not in the level, and a blueprint. -/
def AssignMissingActorRequest : FJsonObject :=
  [ ("graph_path", .Str "/Game/PCG/Sample"), ("actor_name", .Str "Tree"),
    ("blueprint_name", .Str "BP_Forest") ]

/-- A request that names neither an actor nor a blueprint. -/
def AssignNeitherRequest : FJsonObject := [ ("graph_path", .Str "/Game/PCG/Sample") ]

/-! ## Field lookup and list fields -/

/-- A list field qualifies for the list entry mutator: it is a list whose element type
is a struct with a recognised name. -/
def QualifiesAsMeshArray (Property : FProperty) : Bool :=
  match FPCGNodePropertyManager.ArrayInnerStruct Property with
  | some Struct => FPCGNodePropertyManager.IsMeshEntryStructName Struct.GetName
  | none => false

/-- The annotated name of a list field in the diagnostic: the field name, followed by
the element type name in brackets when the element type is a struct. -/
def AnnotatedArrayName (Property : FProperty) : String :=
  Property.GetName ++
    (match FPCGNodePropertyManager.ArrayInnerStruct Property with
      | some Struct => "(" ++ Struct.GetName ++ ")"
      | none => "")

/-- A settings class with two list fields, none of which holds mesh entries. -/
def TagsClass : UClass :=
  ⟨"PCGTagsSettings", true, false,
    [ .mk "Tags" "TArray<FName>" true (.FArrayProperty (.mk "Tags" "FName" true .FNameProperty)),
      .mk "bEnabled" "bool" true .FBoolProperty,
      .mk "Offsets" "TArray<FVector>" true
        (.FArrayProperty (.mk "Offsets" "FVector" true (.FStructProperty VectorStruct))) ]⟩

/-- A node with the settings of `TagsClass`; its list `Tags` holds one name. -/
def TagsNode : UPCGNode :=
  ⟨8, "Tags_0", 0, 0, some ⟨TagsClass, [("Tags", .Array [.Name "Rock"])]⟩,
    [⟨81, "In", []⟩], [⟨82, "Out", []⟩]⟩

/-- A graph with the node `Tags_0`. -/
def TagsGraph : UPCGGraph :=
  ⟨[TagsNode], some SampleInputNode, some SampleOutputNode, none, [], false⟩

/-- A request to set one entry on the node `Tags_0`. -/
def TagsEntriesRequest : FJsonObject :=
  [ ("graph_path", .Str "/Game/PCG/Sample"), ("node_id", .Str "Tags_0"),
    ("entries", .Array [ .Object [("mesh_path", .Str "/Game/Meshes/Rock")] ]) ]


/-- An entry struct whose type name is spelled in upper case. -/
def UpperEntryStruct : UScriptStruct :=
  .mk "PCGMESHENTRY" none
    [ .mk "Mesh" "TSoftObjectPtr<UStaticMesh>" true .FSoftObjectProperty,
      .mk "Weight" "int32" true .FIntProperty ]

/-- A settings class whose only list field has elements of the struct `PCGMESHENTRY`. -/
def UpperSpawnerClass : UClass :=
  ⟨"PCGUpperSpawnerSettings", true, false,
    [ .mk "Entries" "TArray<FPCGMESHENTRY>" true
        (.FArrayProperty (.mk "Entries" "FPCGMESHENTRY" true
          (.FStructProperty UpperEntryStruct))) ]⟩

/-- A graph with the node `Upper_0`, whose settings are of `UpperSpawnerClass`. -/
def UpperGraph : UPCGGraph :=
  ⟨[⟨9, "Upper_0", 0, 0, some ⟨UpperSpawnerClass, []⟩, [⟨91, "In", []⟩], [⟨92, "Out", []⟩]⟩],
   some SampleInputNode, some SampleOutputNode, none, [], false⟩

/-- A request to set one entry on the node `Upper_0`. -/
def UpperEntriesRequest : FJsonObject :=
  [ ("graph_path", .Str "/Game/PCG/Sample"), ("node_id", .Str "Upper_0"),
    ("entries", .Array [ .Object [("mesh_path", .Str "/Game/Meshes/Rock")] ]) ]
/-! ## Weights of list entries -/

/-- The result of a setter that either stores a value with a type tag through the
given write, or fails and leaves the memory. -/
def FSetResult.OfOutcome (Unchanged : FMemory) (Write : FValue → FMemory) :
    Option (FValue × String) → FSetResult
  | some (Value, Tag) => ⟨true, Write Value, Tag⟩
  | none => ⟨false, Unchanged, ""⟩

/-- The field kinds for which the leaf writer of dot-paths has the typed coercion of
the direct writer: bool, 32-bit int, 32-bit float, 64-bit float, string, symbol and
byte (with or without enum). -/
def IsSharedLeafKind : FPropertyKind → Bool
  | .FBoolProperty => true
  | .FIntProperty => true
  | .FFloatProperty => true
  | .FDoubleProperty => true
  | .FStrProperty => true
  | .FNameProperty => true
  | .FByteProperty _ => true
  | _ => false

/-- The field kinds for which the leaf writer of dot-paths has no typed coercion:
64-bit int, struct (vector, rotation, transform, soft path, others) and soft
reference. -/
def IsTextOnlyLeafKind : FPropertyKind → Bool
  | .FInt64Property => true
  | .FStructProperty _ => true
  | .FSoftObjectProperty => true
  | _ => false

/-- The text import of a JSON value into a field: the value imported from the text
reading of the JSON value, tagged with the C++ type of the field; nothing when the
value has no text reading or when the import fails. -/
def TextImport (E : FEngine) (Property : FProperty) (JsonValue : FJsonValue) :
    Option (FValue × String) :=
  match JsonValue.TryGetString with
  | some StrValue => (E.ImportText Property StrValue).map (fun Value => (Value, Property.GetCPPType))
  | none => none

/-- A JSON value names a symbolic value of the enum: it reads as text and the lookup
of the text in the enum finds a value. -/
def NamesEnumValue (Enum : UEnum) (JsonValue : FJsonValue) : Bool :=
  match JsonValue.TryGetString with
  | some StrValue => Enum.GetValueByNameString StrValue != INDEX_NONE
  | none => false

/-- A 64-bit int field `Count`. -/
def CountProperty : FProperty := .mk "Count" "int64" true .FInt64Property

/-- A struct with the 64-bit int field `Count` and the float field `Density`. -/
def CounterStruct : UScriptStruct :=
  .mk "Counter" none [CountProperty, .mk "Density" "float" true .FFloatProperty]

/-- A byte-backed enum with the values `Low` = 0, `High` = 2; its names are found
ignoring case. -/
def LevelEnum : UEnum :=
  ⟨"ELevel", fun Name =>
    if FString.EqualsIgnoreCase Name "Low" then 0
    else if FString.EqualsIgnoreCase Name "High" then 2
    else INDEX_NONE⟩

/-- A byte field `Level` with the enum `ELevel`. -/
def LevelProperty : FProperty :=
  .mk "Level" "TEnumAsByte<ELevel>" true (.FByteProperty (some LevelEnum))

/-- An enum field `Mode` with the enum `ELevel`, stored as a uint8. -/
def ModeProperty : FProperty :=
  .mk "Mode" "ELevel" true (.FEnumProperty (some LevelEnum) (some .UInt8))

/-- The byte field `Level` and the enum field `Mode`. -/
def EnumFields : List FProperty := [LevelProperty, ModeProperty]

/-- An engine whose text import reads a decimal integer into a 64-bit int field and
rejects every other text and field. -/
def ImportEngine : FEngine :=
  { SampleEngine EmptyGraph [] with
    ImportText := fun Property Text =>
      match Property.Kind with
      | .FInt64Property =>
        if FString.IsNumeric Text && !Text.data.contains '.'
        then some (.Int64 (TruncToInt (FString.Atod Text))) else none
      | _ => none }

/-- A struct with the vector field `Offset`. -/
def OffsetStruct : UScriptStruct := .mk "Placement" none [SampleVectorProperty]
/-! # Theorems -/

/-! ## Comparison ignoring case -/

theorem FString.EqualsIgnoreCase_iff (a b : String) :
    FString.EqualsIgnoreCase a b = true ↔ FString.ToLowerChars a = FString.ToLowerChars b := by
  unfold FString.EqualsIgnoreCase
  exact beq_iff_eq

theorem FString.EqualsIgnoreCase_self (s : String) : FString.EqualsIgnoreCase s s = true :=
  (FString.EqualsIgnoreCase_iff s s).2 rfl

theorem FString.EqualsIgnoreCase_comm (a b : String) :
    FString.EqualsIgnoreCase a b = FString.EqualsIgnoreCase b a := by
  rcases h : FString.EqualsIgnoreCase b a with _ | _
  · rcases h2 : FString.EqualsIgnoreCase a b with _ | _
    · rfl
    · rw [(FString.EqualsIgnoreCase_iff b a).2 ((FString.EqualsIgnoreCase_iff a b).1 h2).symm] at h
      cases h
  · exact (FString.EqualsIgnoreCase_iff a b).2 ((FString.EqualsIgnoreCase_iff b a).1 h).symm

/-- Comparison ignoring case depends on the lower-cased characters alone. -/
theorem FString.EqualsIgnoreCase_congr (a b c : String)
    (h : FString.EqualsIgnoreCase a b = true) :
    FString.EqualsIgnoreCase c a = FString.EqualsIgnoreCase c b := by
  unfold FString.EqualsIgnoreCase
  rw [(FString.EqualsIgnoreCase_iff a b).1 h]

theorem FString.EqualsIgnoreCase_congr_left (a b c : String)
    (h : FString.EqualsIgnoreCase a b = true) :
    FString.EqualsIgnoreCase a c = FString.EqualsIgnoreCase b c := by
  unfold FString.EqualsIgnoreCase
  rw [(FString.EqualsIgnoreCase_iff a b).1 h]

/-! ## Maps and memory -/

theorem TMap.Find_congr {β : Type} (m : TMap β) (a b : String)
    (h : FString.EqualsIgnoreCase a b = true) : TMap.Find m a = TMap.Find m b := by
  unfold TMap.Find
  have : (fun Pair : String × β => FString.EqualsIgnoreCase Pair.1 a)
      = (fun Pair : String × β => FString.EqualsIgnoreCase Pair.1 b) := by
    funext Pair
    exact FString.EqualsIgnoreCase_congr a b Pair.1 h
  rw [this]

theorem TMap.Contains_congr {β : Type} (m : TMap β) (a b : String)
    (h : FString.EqualsIgnoreCase a b = true) : TMap.Contains m a = TMap.Contains m b := by
  unfold TMap.Contains
  rw [TMap.Find_congr m a b h]

theorem TMap.Find_cons {β : Type} (k0 : String) (v0 : β) (rest : TMap β) (k : String) :
    TMap.Find ((k0, v0) :: rest) k
      = if FString.EqualsIgnoreCase k0 k = true then some v0 else TMap.Find rest k := by
  unfold TMap.Find
  rcases h : FString.EqualsIgnoreCase k0 k with _ | _
  · simp [List.find?, h]
  · simp [List.find?, h]

theorem TMap.Find_Add_self {β : Type} (m : TMap β) (k : String) (v : β) :
    TMap.Find (TMap.Add m k v) k = some v := by
  induction m with
  | nil => simp [TMap.Add, TMap.Find_cons, FString.EqualsIgnoreCase_self]
  | cons p rest ih =>
    obtain ⟨k0, v0⟩ := p
    rcases h : FString.EqualsIgnoreCase k0 k with _ | _
    · simp only [TMap.Add, h, Bool.false_eq_true, if_false, TMap.Find_cons]
      exact ih
    · simp only [TMap.Add, h, if_true, TMap.Find_cons, FString.EqualsIgnoreCase_self]

theorem TMap.Find_Add_ne {β : Type} (m : TMap β) (k k2 : String) (v : β)
    (hne : FString.EqualsIgnoreCase k k2 = false) :
    TMap.Find (TMap.Add m k v) k2 = TMap.Find m k2 := by
  induction m with
  | nil => simp [TMap.Add, TMap.Find_cons, hne, TMap.Find]
  | cons p rest ih =>
    obtain ⟨k0, v0⟩ := p
    rcases h : FString.EqualsIgnoreCase k0 k with _ | _
    · simp only [TMap.Add, h, Bool.false_eq_true, if_false, TMap.Find_cons, ih]
    · have h2 : FString.EqualsIgnoreCase k0 k2 = false := by
        rw [FString.EqualsIgnoreCase_congr_left k0 k k2 h]
        exact hne
      simp only [TMap.Add, h, if_true, TMap.Find_cons, hne, h2, Bool.false_eq_true, if_false]

/-- A value found in a map is the value of one of its pairs, whose key equals the
requested one ignoring case. -/
theorem TMap.mem_of_Find {β : Type} (m : TMap β) (k : String) (v : β)
    (h : TMap.Find m k = some v) :
    ∃ k0, (k0, v) ∈ m ∧ FString.EqualsIgnoreCase k0 k = true := by
  unfold TMap.Find at h
  rcases hf : m.find? (fun Pair => FString.EqualsIgnoreCase Pair.1 k) with _ | p
  · rw [hf] at h
    cases h
  · rw [hf] at h
    simp only [Option.map_some', Option.some.injEq] at h
    refine ⟨p.1, ?_, ?_⟩
    · have := List.mem_of_find?_eq_some hf
      rw [← h]
      exact this
    · exact List.find?_some (p := fun Pair : String × β => FString.EqualsIgnoreCase Pair.1 k) hf

theorem TMap.mem_Add {β : Type} (m : TMap β) (k : String) (v : β) (p : String × β)
    (h : p ∈ TMap.Add m k v) : p ∈ m ∨ p = (k, v) := by
  induction m with
  | nil => simpa [TMap.Add] using h
  | cons q rest ih =>
    obtain ⟨k0, v0⟩ := q
    rcases hk : FString.EqualsIgnoreCase k0 k with _ | _
    · simp only [TMap.Add, hk, Bool.false_eq_true, if_false, List.mem_cons] at h
      rcases h with h | h
      · exact Or.inl (by simp [h])
      · rcases ih h with h2 | h2
        · exact Or.inl (List.mem_cons_of_mem _ h2)
        · exact Or.inr h2
    · simp only [TMap.Add, hk, if_true, List.mem_cons] at h
      rcases h with h | h
      · exact Or.inr h
      · exact Or.inl (List.mem_cons_of_mem _ h)

theorem TMap.Contains_eq_false {β : Type} (m : TMap β) (k : String) :
    TMap.Contains m k = false ↔ TMap.Find m k = none := by
  unfold TMap.Contains
  cases TMap.Find m k <;> simp

theorem TMap.Contains_Add_self {β : Type} (m : TMap β) (k : String) (v : β) :
    TMap.Contains (TMap.Add m k v) k = true := by
  simp [TMap.Contains, TMap.Find_Add_self]

theorem FMemory.lookup_Write_self (m : FMemory) (k : String) (v : FValue) :
    (FMemory.Write m k v).lookup k = some v := by
  induction m with
  | nil => simp [FMemory.Write]
  | cons p rest ih =>
    obtain ⟨k0, v0⟩ := p
    by_cases h : k0 = k
    · simp [FMemory.Write, h]
    · have h2 : (k == k0) = false := by simpa using fun e => h e.symm
      simp [FMemory.Write, h, List.lookup, h2, ih]

theorem FMemory.lookup_Write_ne (m : FMemory) (k k2 : String) (v : FValue) (hne : k2 ≠ k) :
    (FMemory.Write m k v).lookup k2 = m.lookup k2 := by
  induction m with
  | nil =>
    have h2 : (k2 == k) = false := by simpa using hne
    simp [FMemory.Write, List.lookup, h2]
  | cons p rest ih =>
    obtain ⟨k0, v0⟩ := p
    by_cases h : k0 = k
    · subst h
      have h2 : (k2 == k0) = false := by simpa using hne
      simp [FMemory.Write, List.lookup, h2]
    · by_cases h3 : (k2 == k0) = true
      · simp [FMemory.Write, h, List.lookup, h3]
      · have h4 : (k2 == k0) = false := by simpa using h3
        simp [FMemory.Write, h, List.lookup, h4, ih]

/-! ## Type registry -/

namespace FPCGNodeManager

theorem AllCompatible_Add (Registry : TMap UClass) (k : String) (c : UClass)
    (hR : AllCompatible Registry) (hc : c.IsChildOfPCGSettings = true) :
    AllCompatible (Registry.Add k c) := by
  intro p hp
  rcases TMap.mem_Add Registry k c p hp with h | h
  · exact hR p h
  · simp [h, hc]

theorem TryRegister_compatible (E : FEngine) (Registry : TMap UClass) (f c : String)
    (hR : AllCompatible Registry) : AllCompatible (TryRegister E Registry f c) := by
  unfold TryRegister
  split
  · split
    · exact AllCompatible_Add _ _ _ hR (by assumption)
    · exact hR
  · exact hR

theorem foldl_TryRegister_compatible (E : FEngine) (l : List (String × String))
    (Registry : TMap UClass) (hR : AllCompatible Registry) :
    AllCompatible (l.foldl (fun Registry r => TryRegister E Registry r.1 r.2) Registry) := by
  induction l generalizing Registry with
  | nil => exact hR
  | cons r rest ih => exact ih _ (TryRegister_compatible E Registry r.1 r.2 hR)

theorem StaticRegistry_compatible (E : FEngine) : AllCompatible (StaticRegistry E) :=
  foldl_TryRegister_compatible E _ [] (by intro p hp; simp at hp)

theorem AddIfAbsent_compatible (Registry : TMap UClass) (n : String) (Class : UClass)
    (hR : AllCompatible Registry) (hc : Class.IsChildOfPCGSettings = true) :
    AllCompatible (AddIfAbsent Registry n Class) := by
  unfold AddIfAbsent
  split
  · exact AllCompatible_Add _ _ _ hR hc
  · exact hR

theorem DiscoverClass_compatible (Registry : TMap UClass) (Class : UClass)
    (hR : AllCompatible Registry) : AllCompatible (DiscoverClass Registry Class) := by
  unfold DiscoverClass
  split
  · rename_i h
    have hc : Class.IsChildOfPCGSettings = true := by
      simp only [Bool.and_eq_true] at h
      exact h.1
    exact AddIfAbsent_compatible _ _ _ (AddIfAbsent_compatible _ _ _ hR hc) hc
  · exact hR

theorem AutoDiscover_compatible (Classes : List UClass) (Registry : TMap UClass)
    (hR : AllCompatible Registry) : AllCompatible (AutoDiscover Registry Classes) := by
  unfold AutoDiscover
  induction Classes generalizing Registry with
  | nil => exact hR
  | cons c rest ih => exact ih _ (DiscoverClass_compatible Registry c hR)

theorem GetNodeTypeRegistry_compatible (E : FEngine) :
    AllCompatible (GetNodeTypeRegistry E) :=
  AutoDiscover_compatible _ _ (StaticRegistry_compatible E)

/-- A guarded insertion leaves every key that is already present with its value. -/
theorem AddIfAbsent_stable (Registry : TMap UClass) (n : String) (Class : UClass)
    (k : String) (c : UClass) (h : Registry.Find k = some c) :
    (AddIfAbsent Registry n Class).Find k = some c := by
  unfold AddIfAbsent
  split
  · rename_i hn
    have hnone : Registry.Find n = none := by
      have : Registry.Contains n = false := by simpa using hn
      exact (TMap.Contains_eq_false _ _).1 this
    have hne : FString.EqualsIgnoreCase n k = false := by
      rcases e : FString.EqualsIgnoreCase n k with _ | _
      · rfl
      · rw [TMap.Find_congr _ n k e, h] at hnone
        cases hnone
    rw [TMap.Find_Add_ne _ _ _ _ hne]
    exact h
  · exact h

/-- A guarded insertion of a free name maps the name to the inserted class. -/
theorem AddIfAbsent_free (Registry : TMap UClass) (n : String) (Class : UClass)
    (hfree : Registry.Contains n = false) :
    (AddIfAbsent Registry n Class).Find n = some Class := by
  unfold AddIfAbsent
  simp only [hfree, Bool.not_false, if_true]
  exact TMap.Find_Add_self _ _ _

/-- After a guarded insertion the name is a key. -/
theorem AddIfAbsent_contains (Registry : TMap UClass) (n : String) (Class : UClass) :
    (AddIfAbsent Registry n Class).Contains n = true := by
  unfold AddIfAbsent
  split
  · exact TMap.Contains_Add_self _ _ _
  · rename_i h
    simpa using h

theorem DiscoverClass_stable (Registry : TMap UClass) (Class : UClass)
    (k : String) (c : UClass) (h : Registry.Find k = some c) :
    (DiscoverClass Registry Class).Find k = some c := by
  unfold DiscoverClass
  split
  · exact AddIfAbsent_stable _ _ _ _ _ (AddIfAbsent_stable _ _ _ _ _ h)
  · exact h

theorem AutoDiscover_stable (Classes : List UClass) (Registry : TMap UClass)
    (k : String) (c : UClass) (h : Registry.Find k = some c) :
    (AutoDiscover Registry Classes).Find k = some c := by
  unfold AutoDiscover
  induction Classes generalizing Registry with
  | nil => exact h
  | cons d rest ih => exact ih _ (DiscoverClass_stable Registry d k c h)

theorem AutoDiscover_append (Registry : TMap UClass) (pre post : List UClass) :
    AutoDiscover Registry (pre ++ post) = AutoDiscover (AutoDiscover Registry pre) post := by
  simp [AutoDiscover, List.foldl_append]

/-- A name that is free when a compatible, non-abstract class is enumerated is
mapped to that class by the discovery step, be it the short or the full name. -/
theorem DiscoverClass_claims_short (Registry : TMap UClass) (Class : UClass)
    (hc : Class.IsChildOfPCGSettings = true) (ha : Class.IsAbstract = false)
    (hfree : Registry.Contains (DeriveShortName Class.Name) = false) :
    (DiscoverClass Registry Class).Find (DeriveShortName Class.Name) = some Class := by
  unfold DiscoverClass
  simp only [hc, ha, Bool.not_false, Bool.and_self, if_true]
  exact AddIfAbsent_stable _ _ _ _ _ (AddIfAbsent_free _ _ _ hfree)

theorem DiscoverClass_claims_full (Registry : TMap UClass) (Class : UClass)
    (hc : Class.IsChildOfPCGSettings = true) (ha : Class.IsAbstract = false)
    (hfree : Registry.Contains Class.Name = false) :
    (DiscoverClass Registry Class).Find Class.Name = some Class := by
  unfold DiscoverClass
  simp only [hc, ha, Bool.not_false, Bool.and_self, if_true]
  rcases hn : FString.EqualsIgnoreCase (DeriveShortName Class.Name) Class.Name with _ | _
  · apply AddIfAbsent_free
    unfold AddIfAbsent
    split
    · unfold TMap.Contains at hfree ⊢
      rw [TMap.Find_Add_ne _ _ _ _ hn]
      exact hfree
    · exact hfree
  · have hfree2 : Registry.Contains (DeriveShortName Class.Name) = false := by
      rw [TMap.Contains_congr _ _ _ hn]
      exact hfree
    have h1 := AddIfAbsent_free Registry _ Class hfree2
    rw [TMap.Find_congr _ _ _ hn] at h1
    exact AddIfAbsent_stable _ _ _ _ _ h1

theorem DiscoverClass_contains_full (Registry : TMap UClass) (Class : UClass)
    (hc : Class.IsChildOfPCGSettings = true) (ha : Class.IsAbstract = false) :
    (DiscoverClass Registry Class).Contains Class.Name = true := by
  unfold DiscoverClass
  simp only [hc, ha, Bool.not_false, Bool.and_self, if_true]
  exact AddIfAbsent_contains _ _ _

theorem AutoDiscover_contains_stable (Classes : List UClass) (Registry : TMap UClass)
    (k : String) (h : Registry.Contains k = true) :
    (AutoDiscover Registry Classes).Contains k = true := by
  unfold TMap.Contains at h ⊢
  cases hk : Registry.Find k with
  | none => rw [hk] at h; cases h
  | some c =>
    rw [AutoDiscover_stable Classes Registry k c hk]
    rfl

theorem ResolveIn_compatible (E : FEngine) (Registry : TMap UClass) (hR : AllCompatible Registry)
    (s : String) (c : UClass) (h : ResolveIn E Registry s = some c) :
    c.IsChildOfPCGSettings = true := by
  unfold ResolveIn at h
  split at h
  · rename_i Found hf
    cases h
    obtain ⟨k0, hmem, _⟩ := TMap.mem_of_Find _ _ _ hf
    exact hR _ hmem
  · split at h
    · rename_i Pair hp
      cases h
      exact hR _ (List.mem_of_find?_eq_some hp)
    · split at h
      · split at h
        · cases h
          assumption
        · cases h
      · cases h

end FPCGNodeManager

namespace FPCGNodeManager

/-- C8: for every type universe, every friendly name that the static registrations
put into the registry resolves (`ResolveNodeType`) to a class; every class stored in
the built registry is a settings class; and every class `ResolveNodeType` returns is
a settings class. -/
theorem registry_resolves_to_settings_classes (E : FEngine) :
    (∀ Name, (StaticRegistry E).Contains Name = true →
      (ResolveNodeType E Name).isSome = true) ∧
    (∀ p ∈ GetNodeTypeRegistry E, p.2.IsChildOfPCGSettings = true) ∧
    (∀ s c, ResolveNodeType E s = some c → c.IsChildOfPCGSettings = true) := by
  refine ⟨?_, GetNodeTypeRegistry_compatible E, ?_⟩
  · intro Name hName
    unfold TMap.Contains at hName
    cases hk : (StaticRegistry E).Find Name with
    | none => rw [hk] at hName; cases hName
    | some c =>
      have h := AutoDiscover_stable E.Classes (StaticRegistry E) Name c hk
      unfold ResolveNodeType ResolveIn GetNodeTypeRegistry
      rw [h]
      rfl
  · intro s c h
    exact ResolveIn_compatible E _ (GetNodeTypeRegistry_compatible E) s c h

/-- C8, on a sample universe: the statically registered name `SurfaceSampler` is in
the registry and resolves to the surface sampler settings class. -/
theorem registry_resolves_to_settings_classes_witness :
    (StaticRegistry SamplerEngine).Contains "SurfaceSampler" = true ∧
    (ResolveNodeType SamplerEngine "SurfaceSampler").isSome = true :=
  ⟨by decide,
   (registry_resolves_to_settings_classes SamplerEngine).1 "SurfaceSampler" (by decide)⟩

/-- C9: static registrations have priority over auto-discovery. Every name in the
registry when the static pass ends is mapped to the same class after auto-discovery;
a discovery step never changes the class of a name that is already a key; and a
class whose short name is free when it is enumerated keeps that short name whatever
is enumerated after it. -/
theorem static_registrations_have_priority (E : FEngine) :
    (∀ Name c, (StaticRegistry E).Find Name = some c →
      (GetNodeTypeRegistry E).Find Name = some c) ∧
    (∀ (Registry : TMap UClass) (Class : UClass) Name c, Registry.Find Name = some c →
      (DiscoverClass Registry Class).Find Name = some c) ∧
    (∀ pre T post, E.Classes = pre ++ T :: post →
      T.IsChildOfPCGSettings = true → T.IsAbstract = false →
      (AutoDiscover (StaticRegistry E) pre).Contains (DeriveShortName T.Name) = false →
      (GetNodeTypeRegistry E).Find (DeriveShortName T.Name) = some T) := by
  refine ⟨?_, ?_, ?_⟩
  · intro Name c h
    exact AutoDiscover_stable _ _ _ _ h
  · intro Registry Class Name c h
    exact DiscoverClass_stable _ _ _ _ h
  · intro pre T post hEnum hc ha hfree
    unfold GetNodeTypeRegistry
    rw [hEnum, AutoDiscover_append]
    have h1 := DiscoverClass_claims_short _ T hc ha hfree
    exact AutoDiscover_stable post _ _ _ h1

/-- C9, on a sample universe: `PCGFooSettings` is enumerated first and keeps the
short name `Foo`, which the later class `Foo` also derives. -/
theorem static_registrations_have_priority_witness :
    (GetNodeTypeRegistry FooEngine).Find (DeriveShortName FooSettingsClass.Name)
      = some FooSettingsClass :=
  (static_registrations_have_priority FooEngine).2.2 [] FooSettingsClass [FooClass]
    rfl rfl rfl (by decide)

/-- C10 as stated fails: `Foo` is a compatible, non-abstract class enumerated by
auto-discovery, yet its full name `Foo` is mapped to `PCGFooSettings`, which was
enumerated earlier and claimed `Foo` as its short name. -/
theorem full_name_alias_counterexample :
    FooClass ∈ FooEngine.Classes ∧ FooClass.IsChildOfPCGSettings = true ∧
    FooClass.IsAbstract = false ∧
    (GetNodeTypeRegistry FooEngine).Find FooClass.Name ≠ some FooClass := by
  refine ⟨by simp [FooEngine, SampleEngine], rfl, rfl, ?_⟩
  intro h
  have h2 := congrArg (Option.map UClass.Name) h
  revert h2
  decide

/-- C10 (amended): for every type universe and every compatible, non-abstract class
`T` enumerated by auto-discovery, the built registry has `T`'s full name as a key,
and the key maps to `T` itself whenever the name was not yet a key when `T` was
enumerated. -/
theorem full_name_registered (E : FEngine) (pre post : List UClass) (T : UClass)
    (hEnum : E.Classes = pre ++ T :: post)
    (hc : T.IsChildOfPCGSettings = true) (ha : T.IsAbstract = false) :
    (GetNodeTypeRegistry E).Contains T.Name = true ∧
    ((AutoDiscover (StaticRegistry E) pre).Contains T.Name = false →
      (GetNodeTypeRegistry E).Find T.Name = some T) := by
  unfold GetNodeTypeRegistry
  rw [hEnum, AutoDiscover_append]
  constructor
  · exact AutoDiscover_contains_stable post _ _ (DiscoverClass_contains_full _ T hc ha)
  · intro hfree
    exact AutoDiscover_stable post _ _ _ (DiscoverClass_claims_full _ T hc ha hfree)

/-- C10 (amended), on a sample universe: `PCGFooSettings` is enumerated first, its
full name is free, and the name maps to the class. -/
theorem full_name_registered_witness :
    FooEngine.Classes = [] ++ FooSettingsClass :: [FooClass] ∧
    FooSettingsClass.IsChildOfPCGSettings = true ∧ FooSettingsClass.IsAbstract = false ∧
    (GetNodeTypeRegistry FooEngine).Contains FooSettingsClass.Name = true ∧
    ((AutoDiscover (StaticRegistry FooEngine) []).Contains FooSettingsClass.Name = false →
      (GetNodeTypeRegistry FooEngine).Find FooSettingsClass.Name = some FooSettingsClass) :=
  ⟨rfl, rfl, rfl, full_name_registered FooEngine [] [FooClass] FooSettingsClass rfl rfl rfl⟩

end FPCGNodeManager

/-! ## Delete Node -/

namespace FPCGNodeManager

/-- C1: when the node id resolves (through `FindNodeByName`) to the graph's
distinguished Input or Output node, `DeleteNode` returns the error "Cannot delete the
built-in Input or Output nodes" and leaves the graph as it was, so the node list and
the node count are unchanged. -/
theorem DeleteNode_refuses_distinguished_nodes (E : FEngine) (Params : FJsonObject)
    (GraphPath NodeId : String) (Graph : UPCGGraph) (Node : UPCGNode)
    (hPath : Params.TryGetStringField "graph_path" = some GraphPath)
    (hId : Params.TryGetStringField "node_id" = some NodeId)
    (hLoad : FPCGGraphCreator.LoadPCGGraph E GraphPath = some Graph)
    (hFind : FindNodeByName Graph NodeId = some Node)
    (hSpecial : Graph.InputNode = some Node ∨ Graph.OutputNode = some Node) :
    (DeleteNode E Params).Response
      = CreateErrorResponse "Cannot delete the built-in Input or Output nodes" ∧
    IsErrorResponse (DeleteNode E Params).Response = true ∧
    (DeleteNode E Params).Graph = some Graph ∧
    ∀ Graph1, (DeleteNode E Params).Graph = some Graph1 →
      Graph1.Nodes = Graph.Nodes ∧ Graph1.Nodes.length = Graph.Nodes.length := by
  have hSame : (Node.IsSameObject Graph.InputNode || Node.IsSameObject Graph.OutputNode)
      = true := by
    rcases hSpecial with h | h
    · simp [h, UPCGNode.IsSameObject]
    · simp [h, UPCGNode.IsSameObject]
  have hOut : DeleteNode E Params
      = ⟨CreateErrorResponse "Cannot delete the built-in Input or Output nodes",
         some Graph⟩ := by
    simp only [DeleteNode, hPath, hId, hLoad, hFind, hSame, if_true]
  rw [hOut]
  refine ⟨rfl, rfl, rfl, ?_⟩
  intro Graph1 h
  cases h
  exact ⟨rfl, rfl⟩

/-- C1, on the sample graph: deleting `InputNode` is refused. -/
theorem DeleteNode_refuses_distinguished_nodes_witness :
    (DeleteNode (SampleEngine InputOutputGraph [])
        [("graph_path", .Str "/Game/PCG/Sample"), ("node_id", .Str "InputNode")]).Response
      = CreateErrorResponse "Cannot delete the built-in Input or Output nodes" :=
  (DeleteNode_refuses_distinguished_nodes (SampleEngine InputOutputGraph [])
    [("graph_path", .Str "/Game/PCG/Sample"), ("node_id", .Str "InputNode")]
    "/Game/PCG/Sample" "InputNode" InputOutputGraph SampleInputNode
    rfl rfl rfl rfl (Or.inl rfl)).1

end FPCGNodeManager

/-! ## Nodes of an updated graph -/

theorem find?_map_name (l : List UPCGNode) (upd : UPCGNode → UPCGNode)
    (hName : ∀ n, (upd n).Name = n.Name) (NodeName : String) :
    (l.map upd).find? (fun Node => FString.EqualsIgnoreCase Node.Name NodeName)
      = (l.find? (fun Node => FString.EqualsIgnoreCase Node.Name NodeName)).map upd := by
  induction l with
  | nil => rfl
  | cons a rest ih =>
    simp only [List.map_cons, List.find?_cons, hName]
    rcases h : FString.EqualsIgnoreCase a.Name NodeName with _ | _
    · simp only [h]
      exact ih
    · simp [h]

theorem Option_filter_map_name (o : Option UPCGNode) (upd : UPCGNode → UPCGNode)
    (hName : ∀ n, (upd n).Name = n.Name) (NodeName : String) :
    (o.map upd).filter (fun Node => FString.EqualsIgnoreCase Node.Name NodeName)
      = (o.filter (fun Node => FString.EqualsIgnoreCase Node.Name NodeName)).map upd := by
  cases o with
  | none => rfl
  | some a =>
    simp only [Option.map_some', Option.filter, hName]
    by_cases h : FString.EqualsIgnoreCase a.Name NodeName = true
    · simp [h]
    · simp [h]

/-- Looking a node up by name in a graph whose nodes were updated without renaming
finds the update of the node found before. -/
theorem FindNodeByName_map (g : UPCGGraph) (upd : UPCGNode → UPCGNode)
    (hName : ∀ n, (upd n).Name = n.Name) (NodeName : String) :
    FPCGNodeManager.FindNodeByName
        { g with Nodes := g.Nodes.map upd, InputNode := g.InputNode.map upd,
                 OutputNode := g.OutputNode.map upd } NodeName
      = (FPCGNodeManager.FindNodeByName g NodeName).map upd := by
  unfold FPCGNodeManager.FindNodeByName
  simp only [find?_map_name _ upd hName, Option_filter_map_name _ upd hName]
  cases g.Nodes.find? (fun Node => FString.EqualsIgnoreCase Node.Name NodeName) with
  | some a => rfl
  | none =>
    simp only [Option.map_none']
    cases g.InputNode.filter (fun Node => FString.EqualsIgnoreCase Node.Name NodeName) with
    | some a => rfl
    | none => rfl

theorem SettingsMemory_SetSettingsMemory (g : UPCGGraph) (NodeId : String) (Node : UPCGNode)
    (Settings : UPCGSettings) (Memory : FMemory)
    (hFind : FPCGNodeManager.FindNodeByName g NodeId = some Node) :
    (g.SetSettingsMemory Node.Ptr Settings Memory).SettingsMemory NodeId = some Memory := by
  unfold UPCGGraph.SettingsMemory UPCGGraph.SetSettingsMemory UPCGGraph.UpdateNode
  rw [FindNodeByName_map]
  · rw [hFind]
    simp
  · intro n
    dsimp only
    split <;> rfl

theorem SettingsMemory_MarkPackageDirty (g : UPCGGraph) (NodeId : String) :
    g.MarkPackageDirty.SettingsMemory NodeId = g.SettingsMemory NodeId := rfl

theorem SettingsMemory_NotifyGraphChanged (g : UPCGGraph) (c : EPCGChangeType)
    (NodeId : String) :
    (g.NotifyGraphChanged c).SettingsMemory NodeId = g.SettingsMemory NodeId := rfl

theorem FMemory.ReadArray_Write (m : FMemory) (name : String) (es : List FValue) :
    (m.Write name (.Array es)).ReadArray name = es := by
  unfold FMemory.ReadArray
  rw [FMemory.lookup_Write_self]

/-! ## List entry mutator -/

namespace FPCGNodePropertyManager

theorem HasMeshPathText_Object (Fields : List (String × FJsonValue)) :
    HasMeshPathText (.Object Fields)
      = (FJsonObject.TryGetStringField Fields "mesh_path").isSome := by
  simp only [HasMeshPathText, FJsonObject.TryGetStringField]
  rcases FJsonObject.TryGetField Fields "mesh_path" with _ | w
  · rfl
  · cases w <;> rfl

/-- `AddEntry` appends exactly when the input value has a text for `mesh_path`. -/
theorem AddEntry_counts (E : FEngine) (EntryStruct : UScriptStruct) (Loop : FEntryLoop)
    (v : FJsonValue) :
    (AddEntry E EntryStruct Loop v).Elements.length
        = Loop.Elements.length + (if HasMeshPathText v then 1 else 0) ∧
    (AddEntry E EntryStruct Loop v).AddedCount
        = Loop.AddedCount + (if HasMeshPathText v then 1 else 0) := by
  cases v with
  | Object Fields =>
    rw [HasMeshPathText_Object]
    simp only [AddEntry, FJsonValue.TryGetObject]
    rcases hS : FJsonObject.TryGetStringField Fields "mesh_path" with _ | MeshPath
    · simp
    · simp
  | _ => simp [AddEntry, FJsonValue.TryGetObject, HasMeshPathText]

theorem foldl_AddEntry_counts (E : FEngine) (EntryStruct : UScriptStruct)
    (l : List FJsonValue) (Loop : FEntryLoop) :
    (l.foldl (AddEntry E EntryStruct) Loop).Elements.length
        = Loop.Elements.length + l.countP HasMeshPathText ∧
    (l.foldl (AddEntry E EntryStruct) Loop).AddedCount
        = Loop.AddedCount + l.countP HasMeshPathText := by
  induction l generalizing Loop with
  | nil => simp
  | cons v rest ih =>
    have h := AddEntry_counts E EntryStruct Loop v
    have h2 := ih (AddEntry E EntryStruct Loop v)
    simp only [List.foldl_cons, List.countP_cons]
    constructor
    · rw [h2.1, h.1]; omega
    · rw [h2.2, h.2]; omega

theorem BuildEntries_counts (E : FEngine) (EntryStruct : UScriptStruct)
    (l : List FJsonValue) :
    (BuildEntries E EntryStruct l).Elements.length = l.countP HasMeshPathText ∧
    (BuildEntries E EntryStruct l).AddedCount = l.countP HasMeshPathText := by
  have h := foldl_AddEntry_counts E EntryStruct l ⟨[], 0⟩
  simpa [BuildEntries] using h

/-- C2 (counterexample). An input array of one value, an object whose `mesh_path`
is the number 5: no value of the array is an object carrying a string field
`mesh_path`, yet the call succeeds with `entry_count` = 1 and the list holds one
entry, whose mesh reference is the text `5`. -/
theorem number_mesh_path_counted :
    FJsonObject.TryGetArrayField NumberPathRequest "entries"
      = some [.Object [("mesh_path", .Number 5)]] ∧
    [FJsonValue.Object [("mesh_path", .Number 5)]].countP CarriesMeshPath = 0 ∧
    FJsonObject.TryGetField
      (SetSpawnerEntries (SampleEngine SpawnerGraph []) NumberPathRequest).Response
      "entry_count" = some (.Number 1) ∧
    ((SetSpawnerEntries (SampleEngine SpawnerGraph []) NumberPathRequest).Graph.bind
      (fun Graph1 => Graph1.SettingsMemory "StaticMeshSpawner_0")).map
        (fun Memory1 => Memory1.ReadArray "MeshEntries")
      = some [.Struct [("Mesh", .SoftObjectPtr "5"), ("Weight", .Int32 1)]] := by
  refine ⟨rfl, by decide, rfl, rfl⟩

/-- C2 (as the code has it): on a settings object with a recognised list field,
whatever the list held before, `SetSpawnerEntries` with an input array of which
exactly J values are objects whose field `mesh_path` is a string, a number or a
boolean succeeds, returns `entry_count` = J and leaves the list with exactly J
entries (the other values are skipped without error). -/
theorem SetSpawnerEntries_appends_identified_entries (E : FEngine) (Params : FJsonObject)
    (GraphPath NodeId : String) (EntriesArray : List FJsonValue) (Graph : UPCGGraph)
    (Node : UPCGNode) (Settings : UPCGSettings) (MeshArrayProp : FProperty)
    (EntryStruct : UScriptStruct)
    (hPath : Params.TryGetStringField "graph_path" = some GraphPath)
    (hId : Params.TryGetStringField "node_id" = some NodeId)
    (hEntries : Params.TryGetArrayField "entries" = some EntriesArray)
    (hLoad : FPCGGraphCreator.LoadPCGGraph E GraphPath = some Graph)
    (hFind : FPCGNodeManager.FindNodeByName Graph NodeId = some Node)
    (hSettings : Node.Settings = some Settings)
    (hList : FindMeshArrayProperty Settings.Class.Properties
      = some (MeshArrayProp, EntryStruct)) :
    IsErrorResponse (SetSpawnerEntries E Params).Response = false ∧
    FJsonObject.TryGetField (SetSpawnerEntries E Params).Response "entry_count"
      = some (.Number (EntriesArray.countP HasMeshPathText : Nat)) ∧
    ∃ Graph1 Memory1, (SetSpawnerEntries E Params).Graph = some Graph1 ∧
      Graph1.SettingsMemory NodeId = some Memory1 ∧
      (Memory1.ReadArray MeshArrayProp.GetName).length
        = EntriesArray.countP HasMeshPathText := by
  have hc := BuildEntries_counts E EntryStruct EntriesArray
  simp only [SetSpawnerEntries, hPath, hId, hEntries, hLoad, hFind, hSettings, hList]
  refine ⟨rfl, ?_, ?_⟩
  · rw [← hc.2]
    rfl
  · refine ⟨_, Settings.Memory.Write MeshArrayProp.GetName
      (.Array (BuildEntries E EntryStruct EntriesArray).Elements), rfl, ?_, ?_⟩
    · rw [SettingsMemory_MarkPackageDirty, SettingsMemory_NotifyGraphChanged,
        SettingsMemory_MarkPackageDirty]
      exact SettingsMemory_SetSettingsMemory _ _ _ _ _ hFind
    · rw [FMemory.ReadArray_Write]
      exact hc.1

/-- C2, on the sample spawner: of six input values four have a text for
`mesh_path` (two strings, a number and a boolean); the stale entry is dropped, four
entries are stored and `entry_count` is 4. -/
theorem SetSpawnerEntries_appends_identified_entries_witness :
    FJsonObject.TryGetField
      (SetSpawnerEntries (SampleEngine SpawnerGraph []) MixedSpawnerRequest).Response
      "entry_count" = some (.Number ((4 : Nat) : ℚ)) :=
  (SetSpawnerEntries_appends_identified_entries (SampleEngine SpawnerGraph [])
    MixedSpawnerRequest "/Game/PCG/Sample" "StaticMeshSpawner_0" _ SpawnerGraph
    SampleSpawnerNode SampleSpawnerSettings SampleEntriesProperty SampleEntryStruct
    rfl rfl rfl rfl rfl rfl rfl).2.1

end FPCGNodePropertyManager

/-! ## Property setters -/

theorem FMemory.ReadStruct_Write (m : FMemory) (name : String) (ms : FMemory) :
    (m.Write name (.Struct ms)).ReadStruct name = ms := by
  unfold FMemory.ReadStruct
  rw [FMemory.lookup_Write_self]

theorem FMemory.Read_Write_self (m : FMemory) (name : String) (v : FValue) :
    (m.Write name v).Read name = some v := by
  unfold FMemory.Read
  exact FMemory.lookup_Write_self _ _ _

theorem FMemory.Read_Write_ne (m : FMemory) (name other : String) (v : FValue)
    (hne : other ≠ name) : (m.Write name v).Read other = m.Read other := by
  unfold FMemory.Read
  exact FMemory.lookup_Write_ne _ _ _ _ hne

namespace FPCGNodePropertyManager

/-- No leaf coercion of `SetStructPropertyValue` accepts a JSON array: the call fails
and writes nothing. -/
theorem SetStructPropertyValue_array (E : FEngine) (Struct : UScriptStruct) (Root : FMemory)
    (StructPtr : List String) (PropertyName : String) (A : List FJsonValue) :
    SetStructPropertyValue E Struct Root StructPtr PropertyName (.Array A)
      = ⟨false, Root, ""⟩ := by
  unfold SetStructPropertyValue
  simp only [FJsonValue.TryGetString, FJsonValue.TryGetBool, FJsonValue.TryGetNumber]
  split
  · rfl
  · split <;> rfl

/-- A failing `SetStructPropertyValue` leaves the memory as it was. -/
theorem SetStructPropertyValue_failure (E : FEngine) (Struct : UScriptStruct) (Root : FMemory)
    (StructPtr : List String) (PropertyName : String) (JsonValue : FJsonValue) :
    (SetStructPropertyValue E Struct Root StructPtr PropertyName JsonValue).Success = true ∨
    SetStructPropertyValue E Struct Root StructPtr PropertyName JsonValue
      = ⟨false, Root, ""⟩ := by
  simp only [SetStructPropertyValue]
  repeat' split
  all_goals first
    | exact Or.inr rfl
    | exact Or.inl rfl

/-- A failing `SetPropertyValue` leaves the memory as it was. -/
theorem SetPropertyValue_failure (E : FEngine) (Fields : List FProperty) (Memory : FMemory)
    (PropertyName : String) (JsonValue : FJsonValue) :
    (SetPropertyValue E Fields Memory PropertyName JsonValue).Success = true ∨
    SetPropertyValue E Fields Memory PropertyName JsonValue = ⟨false, Memory, ""⟩ := by
  simp only [SetPropertyValue]
  repeat' split
  all_goals first
    | exact Or.inr rfl
    | exact Or.inl rfl

/-- A failing `SetPropertyValueByPath` leaves the memory as it was. -/
theorem SetPropertyValueByPath_failure (E : FEngine) (Fields : List FProperty)
    (Memory : FMemory) (PropertyPath : String) (JsonValue : FJsonValue) :
    (SetPropertyValueByPath E Fields Memory PropertyPath JsonValue).Success = true ∨
    SetPropertyValueByPath E Fields Memory PropertyPath JsonValue = ⟨false, Memory, ""⟩ := by
  unfold SetPropertyValueByPath
  split
  · exact SetPropertyValue_failure _ _ _ _ _
  · split
    · exact Or.inr rfl
    · split
      · exact Or.inr rfl
      · split
        · dsimp only
          split
          · split
            · exact SetStructPropertyValue_failure _ _ _ _ _ _
            · exact Or.inr rfl
          · exact Or.inr rfl
        · exact SetStructPropertyValue_failure _ _ _ _ _ _

end FPCGNodePropertyManager

/-! ## Scenario D: writing the location of a transform -/

namespace FPCGNodePropertyManager

/-- C3 as stated fails: on the sample node, whose settings have the struct field
`Transform` of transform kind, Set Node Property with `Transform.location` and
`[1, 2, 3]` returns an error and the location keeps its prior value (0, 0, 0). -/
theorem transform_location_path_counterexample :
    IsErrorResponse
      (SetNodeProperty (SampleEngine TransformGraph []) TransformLocationPathRequest).Response
      = true ∧
    ((SetNodeProperty (SampleEngine TransformGraph []) TransformLocationPathRequest).Graph.bind
        (fun Graph1 => Graph1.SettingsMemory "TransformPoints_0")).map
      (fun Memory1 => (Memory1.ReadStruct "Transform").Read "Translation")
      = some (some (FVector.ToValue ⟨0, 0, 0⟩)) := by
  constructor
  · rfl
  · rfl

/-- C3 (amended): for a node whose settings object has a struct field `Transform` of
transform kind, Set Node Property with property `Transform` and value
`{"location": [1, 2, 3]}` succeeds with type tag `Transform` and sets the transform's
location to (1, 2, 3) while rotation and scale keep their prior values; with
property `Transform.location` and value `[1, 2, 3]` the call returns an error and
the settings memory is unchanged. -/
theorem SetNodeProperty_transform_location (E : FEngine) (ParamsObject ParamsPath : FJsonObject)
    (GraphPath NodeId : String) (Graph : UPCGGraph) (Node : UPCGNode)
    (Settings : UPCGSettings) (Property : FProperty) (Struct : UScriptStruct)
    (hPathO : ParamsObject.TryGetStringField "graph_path" = some GraphPath)
    (hIdO : ParamsObject.TryGetStringField "node_id" = some NodeId)
    (hNameO : ParamsObject.TryGetStringField "property_name" = some "Transform")
    (hValueO : ParamsObject.TryGetField "property_value"
      = some (.Object [("location", .Array [.Number 1, .Number 2, .Number 3])]))
    (hPathP : ParamsPath.TryGetStringField "graph_path" = some GraphPath)
    (hIdP : ParamsPath.TryGetStringField "node_id" = some NodeId)
    (hNameP : ParamsPath.TryGetStringField "property_name" = some "Transform.location")
    (hValueP : ParamsPath.TryGetField "property_value"
      = some (.Array [.Number 1, .Number 2, .Number 3]))
    (hLoad : FPCGGraphCreator.LoadPCGGraph E GraphPath = some Graph)
    (hFind : FPCGNodeManager.FindNodeByName Graph NodeId = some Node)
    (hSettings : Node.Settings = some Settings)
    (hField : FindPropertyByName Settings.Class.Properties "Transform" = some Property)
    (hKind : Property.Kind = .FStructProperty Struct)
    (hBase : Struct.Base = some .FTransform) :
    (IsErrorResponse (SetNodeProperty E ParamsObject).Response = false ∧
      FJsonObject.TryGetField (SetNodeProperty E ParamsObject).Response "property_type"
        = some (.Str "Transform") ∧
      ∃ Graph1 Memory1, (SetNodeProperty E ParamsObject).Graph = some Graph1 ∧
        Graph1.SettingsMemory NodeId = some Memory1 ∧
        (Memory1.ReadStruct Property.GetName).Read "Translation"
          = some (FVector.ToValue ⟨1, 2, 3⟩) ∧
        (Memory1.ReadStruct Property.GetName).Read "Rotation"
          = (Settings.Memory.ReadStruct Property.GetName).Read "Rotation" ∧
        (Memory1.ReadStruct Property.GetName).Read "Scale3D"
          = (Settings.Memory.ReadStruct Property.GetName).Read "Scale3D") ∧
    (IsErrorResponse (SetNodeProperty E ParamsPath).Response = true ∧
      ∃ Graph1, (SetNodeProperty E ParamsPath).Graph = some Graph1 ∧
        Graph1.SettingsMemory NodeId = some Settings.Memory) := by
  have hFindP : FindProperty Settings.Class.Properties "Transform" = some Property := by
    simp only [FindProperty, hField]
  have hStruct : Property.AsStructProperty = some Struct := by
    simp only [FProperty.AsStructProperty, hKind]
  have hNoDot : FString.ContainsIgnoreCase "Transform" "." = false := by decide
  have hDot : FString.ContainsIgnoreCase "Transform.location" "." = true := by decide
  have hSplit : FString.Split "Transform.location" = some ("Transform", "location") := by
    decide
  have hLeaf : FString.ContainsIgnoreCase "location" "." = false := by decide
  constructor
  · -- the object form
    have hSet : SetPropertyValue E Settings.Class.Properties Settings.Memory "Transform"
        (.Object [("location", .Array [.Number 1, .Number 2, .Number 3])])
        = ⟨true, Settings.Memory.Write Property.GetName
            (.Struct ((Settings.Memory.ReadStruct Property.GetName).Write "Translation"
              (FVector.ToValue ⟨1, 2, 3⟩))), "Transform"⟩ := by
      simp only [SetPropertyValue, hFindP, hKind, hBase, FJsonValue.TryGetObject]
      rfl
    simp only [SetNodeProperty, hPathO, hIdO, hNameO, hValueO, hLoad, hFind, hSettings,
      hNoDot, hSet, Bool.false_eq_true, if_false, Bool.not_true]
    refine ⟨rfl, rfl, _, Settings.Memory.Write Property.GetName
      (.Struct ((Settings.Memory.ReadStruct Property.GetName).Write "Translation"
        (FVector.ToValue ⟨1, 2, 3⟩))), rfl, ?_, ?_, ?_, ?_⟩
    · rw [SettingsMemory_MarkPackageDirty, SettingsMemory_NotifyGraphChanged,
        SettingsMemory_MarkPackageDirty]
      exact SettingsMemory_SetSettingsMemory _ _ _ _ _ hFind
    · rw [FMemory.ReadStruct_Write]
      exact FMemory.Read_Write_self _ _ _
    · rw [FMemory.ReadStruct_Write]
      exact FMemory.Read_Write_ne _ _ _ _ (by decide)
    · rw [FMemory.ReadStruct_Write]
      exact FMemory.Read_Write_ne _ _ _ _ (by decide)
  · -- the dot-path form
    have hSet : SetPropertyValueByPath E Settings.Class.Properties Settings.Memory
        "Transform.location" (.Array [.Number 1, .Number 2, .Number 3])
        = ⟨false, Settings.Memory, ""⟩ := by
      simp only [SetPropertyValueByPath, hSplit, hFindP, hStruct, hLeaf,
        SetStructPropertyValue_array]
      rfl
    simp only [SetNodeProperty, hPathP, hIdP, hNameP, hValueP, hLoad, hFind, hSettings,
      hDot, hSet, if_true, Bool.not_false]
    refine ⟨rfl, _, rfl, ?_⟩
    exact SettingsMemory_SetSettingsMemory _ _ _ _ _ hFind

/-- C3 (amended), on the sample node: the object form succeeds and the dot-path
form is an error. -/
theorem SetNodeProperty_transform_location_witness :
    IsErrorResponse
      (SetNodeProperty (SampleEngine TransformGraph []) TransformLocationObjectRequest).Response
      = false ∧
    IsErrorResponse
      (SetNodeProperty (SampleEngine TransformGraph []) TransformLocationPathRequest).Response
      = true :=
  have h := SetNodeProperty_transform_location (SampleEngine TransformGraph [])
    TransformLocationObjectRequest TransformLocationPathRequest
    "/Game/PCG/Sample" "TransformPoints_0" TransformGraph SampleTransformNode
    SampleTransformSettings SampleTransformProperty TransformStruct
    rfl rfl rfl rfl rfl rfl rfl rfl rfl rfl rfl rfl rfl rfl
  ⟨h.1.1, h.2.1⟩

end FPCGNodePropertyManager

/-! ## Dot-paths -/

theorem FString.SplitChars_append (l1 l2 : List Char) (h : '.' ∉ l1) :
    FString.SplitChars '.' (l1 ++ '.' :: l2) = some (l1, l2) := by
  induction l1 with
  | nil => simp [FString.SplitChars]
  | cons c rest ih =>
    have hc : c ≠ '.' := fun e => h (by simp [e])
    have hr : '.' ∉ rest := fun e => h (List.mem_cons_of_mem _ e)
    simp [FString.SplitChars, hc, ih hr]

/-- A path whose head segment has no dot splits into the head and the rest. -/
theorem FString.Split_append (A Tail : String) (h : '.' ∉ A.data) :
    FString.Split (A ++ "." ++ Tail) = some (A, Tail) := by
  unfold FString.Split
  have hd : (A ++ "." ++ Tail).data = A.data ++ '.' :: Tail.data := by
    simp [String.data_append]
  rw [hd, FString.SplitChars_append _ _ h]

theorem FString.ContainsChars_append (l1 l2 : List Char) :
    FString.ContainsChars ['.'] (l1 ++ '.' :: l2) = true := by
  induction l1 with
  | nil => simp [FString.ContainsChars, List.isPrefixOf]
  | cons c rest ih => simp [FString.ContainsChars, ih]

/-- A path with a dot in it contains the separator. -/
theorem FString.Contains_append (B C : String) :
    FString.Contains (B ++ "." ++ C) "." = true := by
  unfold FString.Contains
  have hd : (B ++ "." ++ C).data = B.data ++ '.' :: C.data := by
    simp [String.data_append]
  rw [hd]
  exact FString.ContainsChars_append _ _

theorem FString.ContainsChars_of_not_mem (l : List Char) (h : '.' ∉ l) :
    FString.ContainsChars ['.'] l = false := by
  induction l with
  | nil => rfl
  | cons c rest ih =>
    have hc : c ≠ '.' := fun e => h (by simp [e])
    have hc2 : ('.' == c) = false := by simpa using fun e => hc e.symm
    have hr : '.' ∉ rest := fun e => h (List.mem_cons_of_mem _ e)
    simp [FString.ContainsChars, List.isPrefixOf, hc2, ih hr]

/-- A segment without a dot does not contain the separator. -/
theorem FString.Contains_of_not_mem (L : String) (h : '.' ∉ L.data) :
    FString.Contains L "." = false :=
  FString.ContainsChars_of_not_mem _ h

theorem Char.toLower_eq_dot (c : Char) : (c.toLower = '.') ↔ (c = '.') := by
  unfold Char.toLower
  dsimp only
  by_cases h : c.toNat ≥ 65 ∧ c.toNat ≤ 90
  · rw [if_pos h]
    constructor
    · intro e
      exfalso
      have e2 := congrArg Char.toNat e
      have hv : (c.toNat + 32).isValidChar := Or.inl (by omega)
      have h3 : (Char.ofNat (c.toNat + 32)).toNat = c.toNat + 32 := by
        unfold Char.ofNat
        rw [dif_pos hv]
        rfl
      rw [h3] at e2
      have : ('.' : Char).toNat = 46 := rfl
      omega
    · intro e
      subst e
      exact absurd h (by decide)
  · rw [if_neg h]

theorem FString.ContainsChars_map_toLower (l : List Char) :
    FString.ContainsChars ['.'] (l.map Char.toLower) = FString.ContainsChars ['.'] l := by
  induction l with
  | nil => rfl
  | cons c rest ih =>
    have hc : ('.' == c.toLower) = ('.' == c) := by
      by_cases e : c = '.'
      · subst e
        rfl
      · have e2 : ¬ c.toLower = '.' := fun h => e ((Char.toLower_eq_dot c).1 h)
        have e3 : ('.' == c) = false := by simpa using fun h => e h.symm
        have e4 : ('.' == c.toLower) = false := by simpa using fun h => e2 h.symm
        rw [e3, e4]
    simp only [List.map_cons, FString.ContainsChars, List.isPrefixOf, hc, ih]

/-- For the separator the search case makes no difference. -/
theorem FString.ContainsIgnoreCase_dot (s : String) :
    FString.ContainsIgnoreCase s "." = FString.Contains s "." := by
  unfold FString.ContainsIgnoreCase FString.Contains FString.ToLowerChars
  exact FString.ContainsChars_map_toLower _

namespace FPCGNodePropertyManager

/-- C4: a dot-path fails at its first bad hop. For a path `A.B.C` in which `A`
resolves to a struct field while `B` is missing from, or is not a struct-typed field
of, `A`'s struct, `SetPropertyValueByPath` returns failure whatever `C` and the JSON
value are, and the memory of the object is unchanged. The same holds for every path
whose head segment is missing or is not a struct field. -/
theorem dot_path_fails_at_first_bad_hop (E : FEngine) (Fields : List FProperty)
    (Memory : FMemory) (JsonValue : FJsonValue) (A B : String)
    (hA : '.' ∉ A.data) (hB : '.' ∉ B.data) :
    (∀ (C : String) (HeadProp : FProperty) (InnerStruct : UScriptStruct),
      FindProperty Fields A = some HeadProp →
      HeadProp.AsStructProperty = some InnerStruct →
      (∀ NextProp, FindProperty InnerStruct.Fields B = some NextProp →
        NextProp.AsStructProperty = none) →
      SetPropertyValueByPath E Fields Memory (A ++ "." ++ (B ++ "." ++ C)) JsonValue
        = ⟨false, Memory, ""⟩) ∧
    (∀ (Tail : String),
      (∀ HeadProp, FindProperty Fields A = some HeadProp →
        HeadProp.AsStructProperty = none) →
      SetPropertyValueByPath E Fields Memory (A ++ "." ++ Tail) JsonValue
        = ⟨false, Memory, ""⟩) := by
  constructor
  · intro C HeadProp InnerStruct hHead hStruct hBad
    simp only [SetPropertyValueByPath, FString.Split_append A _ hA, hHead, hStruct,
      FString.ContainsIgnoreCase_dot, FString.Contains_append, FString.Split_append B C hB,
      if_true, Option.getD_some]
    rcases hN : FindProperty InnerStruct.Fields B with _ | NextProp
    · rfl
    · simp only [hBad NextProp hN]
  · intro Tail hBad
    simp only [SetPropertyValueByPath, FString.Split_append A _ hA]
    rcases hH : FindProperty Fields A with _ | HeadProp
    · rfl
    · simp only [hBad HeadProp hH]

/-- C4, on the sample transform settings: `Transform.Missing.X` stops at `Missing`,
a name the transform struct does not have, and nothing is written. -/
theorem dot_path_fails_at_first_bad_hop_witness :
    SetPropertyValueByPath (SampleEngine TransformGraph []) SampleTransformClass.Properties
        SampleTransformSettings.Memory "Transform.Missing.X" (.Number 1)
      = ⟨false, SampleTransformSettings.Memory, ""⟩ :=
  (dot_path_fails_at_first_bad_hop (SampleEngine TransformGraph [])
    SampleTransformClass.Properties SampleTransformSettings.Memory (.Number 1)
    "Transform" "Missing" (by decide) (by decide)).1 "X"
    SampleTransformProperty TransformStruct rfl rfl (fun _ h => by cases h)

end FPCGNodePropertyManager

theorem FMemory.ReadPath_WritePath (m : FMemory) (path : List String) (name : String)
    (v : FValue) : ((m.WritePath path name v).ReadPath path).Read name = some v := by
  induction path generalizing m with
  | nil => exact FMemory.Read_Write_self _ _ _
  | cons h t ih =>
    simp only [FMemory.WritePath, FMemory.ReadPath, FMemory.ReadStruct_Write]
    exact ih _

/-- A name with a dot in it is not the name of a field when no field name has a dot. -/
theorem FindProperty_dotted (Fields : List FProperty) (Name : String)
    (hDot : '.' ∈ Name.data) (hFields : ∀ P ∈ Fields, '.' ∉ P.GetName.data) :
    FindProperty Fields Name = none := by
  have hNone : Fields.find? (fun p => FString.EqualsIgnoreCase p.GetName Name) = none := by
    rw [List.find?_eq_none]
    intro P hP hEq
    have hLow := (FString.EqualsIgnoreCase_iff _ _).1 hEq
    unfold FString.ToLowerChars at hLow
    have hIn : '.' ∈ Name.data.map Char.toLower :=
      List.mem_map.2 ⟨'.', hDot, rfl⟩
    rw [← hLow] at hIn
    obtain ⟨c, hc, hcl⟩ := List.mem_map.1 hIn
    rw [(Char.toLower_eq_dot c).1 hcl] at hc
    exact hFields P hP hc
  simp only [FindProperty, FindPropertyByName, FindPropertyIgnoreCase, hNone]

namespace FPCGNodePropertyManager

/-- On a scalar leaf with a JSON value of the matching shape `SetStructPropertyValue`
succeeds and writes the coerced value to the leaf. -/
theorem SetStructPropertyValue_scalar (E : FEngine) (Struct : UScriptStruct) (Root : FMemory)
    (StructPtr : List String) (PropertyName : String) (JsonValue : FJsonValue)
    (Leaf : FProperty) (Value : FValue)
    (hLeaf : FindProperty Struct.Fields PropertyName = some Leaf)
    (hValue : ScalarLeafValue Leaf.Kind JsonValue = some Value) :
    (SetStructPropertyValue E Struct Root StructPtr PropertyName JsonValue).Success = true ∧
    (SetStructPropertyValue E Struct Root StructPtr PropertyName JsonValue).Memory
      = Root.WritePath StructPtr Leaf.GetName Value := by
  simp only [SetStructPropertyValue, hLeaf]
  generalize Leaf.Kind = k at hValue ⊢
  cases k <;> cases JsonValue <;> simp only [ScalarLeafValue] at hValue <;>
    first
    | (cases hValue; exact ⟨rfl, rfl⟩)
    | cases hValue

/-- `SetStructPropertyValue` on a field it finds either writes one value to that
field and succeeds, or fails and leaves the memory as it was. -/
theorem SetStructPropertyValue_cases (E : FEngine) (Struct : UScriptStruct) (Root : FMemory)
    (StructPtr : List String) (PropertyName : String) (JsonValue : FJsonValue)
    (Leaf : FProperty)
    (hLeaf : FindProperty Struct.Fields PropertyName = some Leaf) :
    (∃ Value Tag, SetStructPropertyValue E Struct Root StructPtr PropertyName JsonValue
      = ⟨true, Root.WritePath StructPtr Leaf.GetName Value, Tag⟩) ∨
    SetStructPropertyValue E Struct Root StructPtr PropertyName JsonValue
      = ⟨false, Root, ""⟩ := by
  simp only [SetStructPropertyValue, hLeaf]
  repeat' split
  all_goals first
    | exact Or.inr rfl
    | exact Or.inl ⟨_, _, rfl⟩

/-- A successful `SetStructPropertyValue` wrote one value to the leaf field it found. -/
theorem SetStructPropertyValue_success (E : FEngine) (Struct : UScriptStruct) (Root : FMemory)
    (StructPtr : List String) (PropertyName : String) (JsonValue : FJsonValue)
    (Leaf : FProperty)
    (hLeaf : FindProperty Struct.Fields PropertyName = some Leaf)
    (hOk : (SetStructPropertyValue E Struct Root StructPtr PropertyName JsonValue).Success
      = true) :
    ∃ Value, (SetStructPropertyValue E Struct Root StructPtr PropertyName JsonValue).Memory
      = Root.WritePath StructPtr Leaf.GetName Value := by
  rcases SetStructPropertyValue_cases E Struct Root StructPtr PropertyName JsonValue Leaf hLeaf
    with ⟨Value, Tag, h⟩ | h
  · exact ⟨Value, by rw [h]⟩
  · rw [h] at hOk
    cases hOk

/-- C5 as stated fails at N = 4: in `Inputs.Source.Selector.AttributeName` each of
the first three segments resolves to a struct field of the struct reached so far and
the last names a symbol field, which accepts the JSON string (the leaf writer
succeeds on it, and so does the path of three segments that ends in it), yet the
call with the path of four segments fails and writes nothing. -/
theorem dot_path_depth_four_counterexample :
    (FindProperty NestedClass.Properties "Inputs").bind FProperty.AsStructProperty
      = some InputsStruct ∧
    (FindProperty InputsStruct.Fields "Source").bind FProperty.AsStructProperty
      = some SourceStruct ∧
    (FindProperty SourceStruct.Fields "Selector").bind FProperty.AsStructProperty
      = some SelectorStruct ∧
    (SetStructPropertyValue (SampleEngine EmptyGraph []) SelectorStruct [] []
      "AttributeName" (.Str "Density")).Success = true ∧
    (SetPropertyValueByPath (SampleEngine EmptyGraph []) NestedClass.Properties []
      "Source.Selector.AttributeName" (.Str "Density")).Success = true ∧
    SetPropertyValueByPath (SampleEngine EmptyGraph []) NestedClass.Properties []
      "Inputs.Source.Selector.AttributeName" (.Str "Density") = ⟨false, [], ""⟩ := by
  refine ⟨rfl, rfl, rfl, rfl, rfl, rfl⟩

/-- C5 (as the code has it): dot-path traversal through one or two struct levels.
For a path of N = 2 or N = 3 segments in which each of the first N-1 segments
resolves to a struct-typed field of the struct reached so far, `SetPropertyValueByPath`
is the leaf writer applied to the last segment on the struct reached; so when the
last segment names a leaf field that accepts the JSON value (the leaf writer
succeeds on it) the call succeeds and writes one value to that leaf field, and for a
leaf of kind bool, int32, float, double, string or symbol with a JSON value of the
matching shape it succeeds and that value is the coerced one. For a path of four or
more segments `A.B.C.Rest` whose first two segments resolve to struct-typed fields no
third struct level is entered: the call is the leaf writer applied to the whole
remainder `C.Rest` as one field name of the second struct, and it fails without
writing when that struct has no field of that dotted name, as when no field name of
it has a dot. -/
theorem dot_path_writes_leaf (E : FEngine) (Fields : List FProperty) (Memory : FMemory)
    (JsonValue : FJsonValue) (A B L : String)
    (hA : '.' ∉ A.data) (hB : '.' ∉ B.data) (hL : '.' ∉ L.data) :
    (∀ (HeadProp : FProperty) (InnerStruct : UScriptStruct),
      FindProperty Fields A = some HeadProp →
      HeadProp.AsStructProperty = some InnerStruct →
      SetPropertyValueByPath E Fields Memory (A ++ "." ++ L) JsonValue
        = SetStructPropertyValue E InnerStruct Memory [HeadProp.GetName] L JsonValue ∧
      (∀ Leaf, FindProperty InnerStruct.Fields L = some Leaf →
        (SetStructPropertyValue E InnerStruct Memory [HeadProp.GetName] L JsonValue).Success
          = true →
        (SetPropertyValueByPath E Fields Memory (A ++ "." ++ L) JsonValue).Success = true ∧
        ∃ Value,
          (SetPropertyValueByPath E Fields Memory (A ++ "." ++ L) JsonValue).Memory
            = Memory.WritePath [HeadProp.GetName] Leaf.GetName Value ∧
          (((SetPropertyValueByPath E Fields Memory (A ++ "." ++ L) JsonValue).Memory.ReadPath
            [HeadProp.GetName]).Read Leaf.GetName = some Value)) ∧
      (∀ Leaf Value, FindProperty InnerStruct.Fields L = some Leaf →
        ScalarLeafValue Leaf.Kind JsonValue = some Value →
        (SetPropertyValueByPath E Fields Memory (A ++ "." ++ L) JsonValue).Success = true ∧
        (((SetPropertyValueByPath E Fields Memory (A ++ "." ++ L) JsonValue).Memory.ReadPath
          [HeadProp.GetName]).Read Leaf.GetName = some Value))) ∧
    (∀ (HeadProp NextProp : FProperty) (InnerStruct NextStruct : UScriptStruct),
      FindProperty Fields A = some HeadProp →
      HeadProp.AsStructProperty = some InnerStruct →
      FindProperty InnerStruct.Fields B = some NextProp →
      NextProp.AsStructProperty = some NextStruct →
      SetPropertyValueByPath E Fields Memory (A ++ "." ++ (B ++ "." ++ L)) JsonValue
        = SetStructPropertyValue E NextStruct Memory [HeadProp.GetName, NextProp.GetName] L
            JsonValue ∧
      (∀ Leaf, FindProperty NextStruct.Fields L = some Leaf →
        (SetStructPropertyValue E NextStruct Memory [HeadProp.GetName, NextProp.GetName] L
          JsonValue).Success = true →
        (SetPropertyValueByPath E Fields Memory (A ++ "." ++ (B ++ "." ++ L)) JsonValue).Success
          = true ∧
        ∃ Value,
          (SetPropertyValueByPath E Fields Memory (A ++ "." ++ (B ++ "." ++ L))
            JsonValue).Memory
            = Memory.WritePath [HeadProp.GetName, NextProp.GetName] Leaf.GetName Value ∧
          (((SetPropertyValueByPath E Fields Memory (A ++ "." ++ (B ++ "." ++ L))
            JsonValue).Memory.ReadPath [HeadProp.GetName, NextProp.GetName]).Read Leaf.GetName
            = some Value)) ∧
      (∀ Leaf Value, FindProperty NextStruct.Fields L = some Leaf →
        ScalarLeafValue Leaf.Kind JsonValue = some Value →
        (SetPropertyValueByPath E Fields Memory (A ++ "." ++ (B ++ "." ++ L)) JsonValue).Success
          = true ∧
        (((SetPropertyValueByPath E Fields Memory (A ++ "." ++ (B ++ "." ++ L))
          JsonValue).Memory.ReadPath [HeadProp.GetName, NextProp.GetName]).Read Leaf.GetName
          = some Value))) ∧
    (∀ (C Rest : String) (HeadProp NextProp : FProperty) (InnerStruct NextStruct : UScriptStruct),
      FindProperty Fields A = some HeadProp →
      HeadProp.AsStructProperty = some InnerStruct →
      FindProperty InnerStruct.Fields B = some NextProp →
      NextProp.AsStructProperty = some NextStruct →
      SetPropertyValueByPath E Fields Memory
          (A ++ "." ++ (B ++ "." ++ (C ++ "." ++ Rest))) JsonValue
        = SetStructPropertyValue E NextStruct Memory [HeadProp.GetName, NextProp.GetName]
            (C ++ "." ++ Rest) JsonValue ∧
      (FindProperty NextStruct.Fields (C ++ "." ++ Rest) = none →
        SetPropertyValueByPath E Fields Memory
            (A ++ "." ++ (B ++ "." ++ (C ++ "." ++ Rest))) JsonValue
          = ⟨false, Memory, ""⟩) ∧
      ((∀ P ∈ NextStruct.Fields, '.' ∉ P.GetName.data) →
        SetPropertyValueByPath E Fields Memory
            (A ++ "." ++ (B ++ "." ++ (C ++ "." ++ Rest))) JsonValue
          = ⟨false, Memory, ""⟩)) := by
  refine ⟨?_, ?_, ?_⟩
  · intro HeadProp InnerStruct hHead hStruct
    have hEq : SetPropertyValueByPath E Fields Memory (A ++ "." ++ L) JsonValue
        = SetStructPropertyValue E InnerStruct Memory [HeadProp.GetName] L JsonValue := by
      simp only [SetPropertyValueByPath, FString.Split_append A _ hA, hHead, hStruct,
        FString.ContainsIgnoreCase_dot, FString.Contains_of_not_mem L hL, Bool.false_eq_true,
        if_false]
    refine ⟨hEq, ?_, ?_⟩
    · intro Leaf hLeaf hOk
      obtain ⟨Value, hValue⟩ := SetStructPropertyValue_success E InnerStruct Memory
        [HeadProp.GetName] L JsonValue Leaf hLeaf hOk
      rw [hEq]
      refine ⟨hOk, Value, hValue, ?_⟩
      rw [hValue]
      exact FMemory.ReadPath_WritePath _ _ _ _
    · intro Leaf Value hLeaf hValue
      have h := SetStructPropertyValue_scalar E InnerStruct Memory [HeadProp.GetName] L
        JsonValue Leaf Value hLeaf hValue
      rw [hEq]
      refine ⟨h.1, ?_⟩
      rw [h.2]
      exact FMemory.ReadPath_WritePath _ _ _ _
  · intro HeadProp NextProp InnerStruct NextStruct hHead hStruct hNext hNextStruct
    have hEq : SetPropertyValueByPath E Fields Memory (A ++ "." ++ (B ++ "." ++ L)) JsonValue
        = SetStructPropertyValue E NextStruct Memory [HeadProp.GetName, NextProp.GetName] L
            JsonValue := by
      simp only [SetPropertyValueByPath, FString.Split_append A _ hA, hHead, hStruct,
        FString.ContainsIgnoreCase_dot, FString.Contains_append, FString.Split_append B L hB,
        if_true, Option.getD_some, hNext, hNextStruct]
      rfl
    refine ⟨hEq, ?_, ?_⟩
    · intro Leaf hLeaf hOk
      obtain ⟨Value, hValue⟩ := SetStructPropertyValue_success E NextStruct Memory
        [HeadProp.GetName, NextProp.GetName] L JsonValue Leaf hLeaf hOk
      rw [hEq]
      refine ⟨hOk, Value, hValue, ?_⟩
      rw [hValue]
      exact FMemory.ReadPath_WritePath _ _ _ _
    · intro Leaf Value hLeaf hValue
      have h := SetStructPropertyValue_scalar E NextStruct Memory
        [HeadProp.GetName, NextProp.GetName] L JsonValue Leaf Value hLeaf hValue
      rw [hEq]
      refine ⟨h.1, ?_⟩
      rw [h.2]
      exact FMemory.ReadPath_WritePath _ _ _ _
  · intro C Rest HeadProp NextProp InnerStruct NextStruct hHead hStruct hNext hNextStruct
    have hEq : SetPropertyValueByPath E Fields Memory
          (A ++ "." ++ (B ++ "." ++ (C ++ "." ++ Rest))) JsonValue
        = SetStructPropertyValue E NextStruct Memory [HeadProp.GetName, NextProp.GetName]
            (C ++ "." ++ Rest) JsonValue := by
      simp only [SetPropertyValueByPath, FString.Split_append A _ hA, hHead, hStruct,
        FString.ContainsIgnoreCase_dot, FString.Contains_append,
        FString.Split_append B _ hB, if_true, Option.getD_some, hNext, hNextStruct]
      rfl
    have hNone : FindProperty NextStruct.Fields (C ++ "." ++ Rest) = none →
        SetPropertyValueByPath E Fields Memory
            (A ++ "." ++ (B ++ "." ++ (C ++ "." ++ Rest))) JsonValue
          = ⟨false, Memory, ""⟩ := by
      intro hMissing
      rw [hEq]
      simp only [SetStructPropertyValue, hMissing]
    refine ⟨hEq, hNone, ?_⟩
    intro hFields
    apply hNone
    apply FindProperty_dotted _ _ _ hFields
    simp [String.data_append]

/-- C5 (as the code has it), on the sample nesting: `Source.Selector.AttributeName`
(N = 3) succeeds and stores the symbol; `Inputs.Source.Selector.AttributeName`
(N = 4) fails without writing. -/
theorem dot_path_writes_leaf_witness :
    ((SetPropertyValueByPath (SampleEngine EmptyGraph []) NestedClass.Properties []
        "Source.Selector.AttributeName" (.Str "Density")).Success = true ∧
      ((SetPropertyValueByPath (SampleEngine EmptyGraph []) NestedClass.Properties []
        "Source.Selector.AttributeName" (.Str "Density")).Memory.ReadPath
          ["Source", "Selector"]).Read "AttributeName" = some (.Name "Density")) ∧
    SetPropertyValueByPath (SampleEngine EmptyGraph []) NestedClass.Properties []
      "Inputs.Source.Selector.AttributeName" (.Str "Density") = ⟨false, [], ""⟩ :=
  ⟨((dot_path_writes_leaf (SampleEngine EmptyGraph []) NestedClass.Properties []
      (.Str "Density") "Source" "Selector" "AttributeName"
      (by decide) (by decide) (by decide)).2.1
      (.mk "Source" "FPCGSampleSource" true (.FStructProperty SourceStruct))
      (.mk "Selector" "FPCGAttributePropertySelector" true (.FStructProperty SelectorStruct))
      SourceStruct SelectorStruct rfl rfl rfl rfl).2.2
      (.mk "AttributeName" "FName" true .FNameProperty) (.Name "Density") rfl rfl,
   ((dot_path_writes_leaf (SampleEngine EmptyGraph []) NestedClass.Properties []
      (.Str "Density") "Inputs" "Source" "AttributeName"
      (by decide) (by decide) (by decide)).2.2 "Selector" "AttributeName"
      (.mk "Inputs" "FPCGSampleInputs" true (.FStructProperty InputsStruct))
      (.mk "Source" "FPCGSampleSource" true (.FStructProperty SourceStruct))
      InputsStruct SourceStruct rfl rfl rfl rfl).2.2 (by decide)⟩

end FPCGNodePropertyManager

/-! ## Missing parameters -/

theorem FJsonObject.TryGetField_of_not_HasField (Params : FJsonObject) (p : String)
    (h : FJsonObject.HasField Params p = false) : FJsonObject.TryGetField Params p = none := by
  unfold FJsonObject.HasField at h
  cases hF : FJsonObject.TryGetField Params p with
  | none => rfl
  | some v => rw [hF] at h; cases h

/-- C6 as stated fails for the `entries` parameter: a set-spawner-entries request
that omits `entries` gets the message "Missing 'entries' array parameter", which
does not begin with "Missing 'entries' parameter". -/
theorem missing_entries_message_counterexample :
    FJsonObject.HasField NoEntriesRequest "entries" = false ∧
    ErrorMessage (RunOperation (SampleEngine SpawnerGraph []) .SetSpawnerEntries
      NoEntriesRequest) = some "Missing 'entries' array parameter" ∧
    FString.StartsWith "Missing 'entries' array parameter" "Missing 'entries' parameter"
      = false := by
  refine ⟨rfl, rfl, by decide⟩

/-- C6 (amended): for every graph operation and every one of its required
parameters p, a request that supplies the required parameters checked before p and
omits p returns the error "Missing '<p>' parameter"; only for the `entries`
parameter of set spawner entries the message is "Missing 'entries' array parameter". -/
theorem missing_parameter_message (E : FEngine) (op : EGraphOperation) (Params : FJsonObject)
    (p : String) (hReq : p ∈ RequiredParameters op)
    (hEarlier : ∀ q ∈ (RequiredParameters op).takeWhile (fun q => q != p),
      (FJsonObject.TryGetStringField Params q).isSome = true)
    (hOmit : FJsonObject.HasField Params p = false) :
    RunOperation E op Params = CreateErrorResponse (MissingParameterMessage p) := by
  have hF := FJsonObject.TryGetField_of_not_HasField Params p hOmit
  have hS : FJsonObject.TryGetStringField Params p = none := by
    simp [FJsonObject.TryGetStringField, hF]
  have hA : FJsonObject.TryGetArrayField Params p = none := by
    simp [FJsonObject.TryGetArrayField, hF]
  cases op <;>
    simp only [RequiredParameters, List.mem_cons, List.mem_singleton, List.not_mem_nil,
      or_false] at hReq <;>
    rcases hReq with rfl | rfl | rfl | rfl <;>
    simp [RequiredParameters, List.takeWhile] at hEarlier <;>
    simp [RunOperation, FPCGNodeManager.AddNode, FPCGNodeManager.DeleteNode,
      FPCGNodeConnector.ConnectNodes, FPCGNodePropertyManager.SetNodeProperty,
      FPCGNodePropertyManager.SetSpawnerEntries, FPCGParameterManager.AddGraphParameter,
      FPCGParameterManager.SetGraphParameter, FPCGParameterManager.AssignPCGGraph,
      MissingParameterMessage, hF, hS, hA] <;>
    (repeat' split) <;>
    simp_all

/-- C6 (amended), on a sample request: set node property without `property_value`. -/
theorem missing_parameter_message_witness :
    RunOperation (SampleEngine TransformGraph []) .SetNodeProperty
        [ ("graph_path", .Str "/Game/PCG/Sample"), ("node_id", .Str "TransformPoints_0"),
          ("property_name", .Str "Seed") ]
      = CreateErrorResponse "Missing 'property_value' parameter" :=
  missing_parameter_message (SampleEngine TransformGraph []) .SetNodeProperty
    [ ("graph_path", .Str "/Game/PCG/Sample"), ("node_id", .Str "TransformPoints_0"),
      ("property_name", .Str "Seed") ]
    "property_value" (by decide) (by decide) rfl

/-! ## Failure atomicity -/

theorem FindNodeByName_mem (g : UPCGGraph) (NodeName : String) (Node : UPCGNode)
    (h : FPCGNodeManager.FindNodeByName g NodeName = some Node) : Node ∈ g.AllNodes := by
  unfold FPCGNodeManager.FindNodeByName at h
  unfold UPCGGraph.AllNodes
  split at h
  · rename_i n hn
    cases h
    have := List.mem_of_find?_eq_some hn
    simp [this]
  · split at h
    · rename_i n hn
      cases h
      cases hI : g.InputNode with
      | none => rw [hI] at hn; cases hn
      | some i =>
        rw [hI] at hn
        simp only [Option.filter] at hn
        split at hn
        · cases hn; simp
        · cases hn
    · cases hO : g.OutputNode with
      | none => rw [hO] at h; cases h
      | some o =>
        rw [hO] at h
        simp only [Option.filter] at h
        split at h
        · cases h; simp
        · cases h

/-- Writing back the memory a settings object already has changes nothing, when
node objects are identified by their address. -/
theorem SetSettingsMemory_same (g : UPCGGraph) (Node : UPCGNode) (Settings : UPCGSettings)
    (hWF : g.NodesIdentifiedByPtr) (hMem : Node ∈ g.AllNodes)
    (hSettings : Node.Settings = some Settings) :
    g.SetSettingsMemory Node.Ptr Settings Settings.Memory = g := by
  have hupd : ∀ n ∈ g.AllNodes,
      (if n.Ptr = Node.Ptr
        then { n with Settings := some { Settings with Memory := Settings.Memory } }
        else n) = n := by
    intro n hn
    split
    · rename_i hp
      have hEq := hWF n hn Node hMem hp
      subst hEq
      cases n
      simp only at hSettings
      subst hSettings
      rfl
    · rfl
  unfold UPCGGraph.SetSettingsMemory UPCGGraph.UpdateNode
  have hN : g.Nodes.map (fun n => if n.Ptr = Node.Ptr
      then { n with Settings := some { Settings with Memory := Settings.Memory } }
      else n) = g.Nodes := by
    conv_rhs => rw [← List.map_id g.Nodes]
    apply List.map_congr_left
    intro n hn
    exact hupd n (by simp [UPCGGraph.AllNodes, hn])
  have hI : g.InputNode.map (fun n => if n.Ptr = Node.Ptr
      then { n with Settings := some { Settings with Memory := Settings.Memory } }
      else n) = g.InputNode := by
    cases hi : g.InputNode with
    | none => rfl
    | some i =>
      simp only [Option.map_some']
      rw [hupd i (by simp [UPCGGraph.AllNodes, hi])]
  have hO : g.OutputNode.map (fun n => if n.Ptr = Node.Ptr
      then { n with Settings := some { Settings with Memory := Settings.Memory } }
      else n) = g.OutputNode := by
    cases ho : g.OutputNode with
    | none => rfl
    | some o =>
      simp only [Option.map_some']
      rw [hupd o (by simp [UPCGGraph.AllNodes, ho])]
  simp only [hN, hI, hO]

theorem AddNode_failure (E : FEngine) (Params : FJsonObject)
    (hErr : IsErrorResponse (FPCGNodeManager.AddNode E Params).Response = true) :
    DocumentUntouched E Params (FPCGNodeManager.AddNode E Params) := by
  revert hErr
  simp only [FPCGNodeManager.AddNode]
  repeat' split
  all_goals intro hErr
  all_goals unfold DocumentUntouched
  all_goals dsimp only
  all_goals first
    | exact Or.inl rfl
    | (refine Or.inr ⟨?_, ?_, ?_⟩
       rotate_left
       · assumption
       · symm; assumption)
    | (exfalso
       revert hErr
       simp [IsErrorResponse, FJsonObject.TryGetField, List.lookup])

theorem DeleteNode_failure (E : FEngine) (Params : FJsonObject)
    (hErr : IsErrorResponse (FPCGNodeManager.DeleteNode E Params).Response = true) :
    DocumentUntouched E Params (FPCGNodeManager.DeleteNode E Params) := by
  revert hErr
  simp only [FPCGNodeManager.DeleteNode]
  repeat' split
  all_goals intro hErr
  all_goals unfold DocumentUntouched
  all_goals dsimp only
  all_goals first
    | exact Or.inl rfl
    | (refine Or.inr ⟨?_, ?_, ?_⟩
       rotate_left
       · assumption
       · symm; assumption)
    | (exfalso
       revert hErr
       simp [IsErrorResponse, FJsonObject.TryGetField, List.lookup])

theorem ConnectNodes_failure (E : FEngine) (Params : FJsonObject)
    (hErr : IsErrorResponse (FPCGNodeConnector.ConnectNodes E Params).Response = true) :
    DocumentUntouched E Params (FPCGNodeConnector.ConnectNodes E Params) := by
  revert hErr
  simp only [FPCGNodeConnector.ConnectNodes]
  repeat' split
  all_goals intro hErr
  all_goals unfold DocumentUntouched
  all_goals dsimp only
  all_goals first
    | exact Or.inl rfl
    | (refine Or.inr ⟨?_, ?_, ?_⟩
       rotate_left
       · assumption
       · symm; assumption)
    | (exfalso
       revert hErr
       simp [IsErrorResponse, FJsonObject.TryGetField, List.lookup])

theorem SetSpawnerEntries_failure (E : FEngine) (Params : FJsonObject)
    (hErr : IsErrorResponse (FPCGNodePropertyManager.SetSpawnerEntries E Params).Response = true) :
    DocumentUntouched E Params (FPCGNodePropertyManager.SetSpawnerEntries E Params) := by
  revert hErr
  simp only [FPCGNodePropertyManager.SetSpawnerEntries]
  repeat' split
  all_goals intro hErr
  all_goals unfold DocumentUntouched
  all_goals dsimp only
  all_goals first
    | exact Or.inl rfl
    | (refine Or.inr ⟨?_, ?_, ?_⟩
       rotate_left
       · assumption
       · symm; assumption)
    | (exfalso
       revert hErr
       simp [IsErrorResponse, FJsonObject.TryGetField, List.lookup])

theorem AddGraphParameter_failure (E : FEngine) (Params : FJsonObject)
    (hErr : IsErrorResponse (FPCGParameterManager.AddGraphParameter E Params).Response = true) :
    DocumentUntouched E Params (FPCGParameterManager.AddGraphParameter E Params) := by
  revert hErr
  simp only [FPCGParameterManager.AddGraphParameter]
  repeat' split
  all_goals intro hErr
  all_goals unfold DocumentUntouched
  all_goals dsimp only
  all_goals first
    | exact Or.inl rfl
    | (refine Or.inr ⟨?_, ?_, ?_⟩
       rotate_left
       · assumption
       · symm; assumption)
    | (exfalso
       revert hErr
       simp [IsErrorResponse, FJsonObject.TryGetField, List.lookup])

theorem SetGraphParameter_failure (E : FEngine) (Params : FJsonObject)
    (hErr : IsErrorResponse (FPCGParameterManager.SetGraphParameter E Params).Response = true) :
    DocumentUntouched E Params (FPCGParameterManager.SetGraphParameter E Params) := by
  revert hErr
  simp only [FPCGParameterManager.SetGraphParameter]
  repeat' split
  all_goals intro hErr
  all_goals unfold DocumentUntouched
  all_goals dsimp only
  all_goals first
    | exact Or.inl rfl
    | (refine Or.inr ⟨?_, ?_, ?_⟩
       rotate_left
       · assumption
       · symm; assumption)
    | (exfalso
       revert hErr
       simp [IsErrorResponse, FJsonObject.TryGetField, List.lookup])

/-- A failing Set Node Property leaves the document as it was: the setters write
nothing before they return false. -/
theorem SetNodeProperty_failure (E : FEngine) (Params : FJsonObject)
    (hWF : ∀ GraphPath Graph, FPCGGraphCreator.LoadPCGGraph E GraphPath = some Graph →
      Graph.NodesIdentifiedByPtr)
    (hErr : IsErrorResponse (FPCGNodePropertyManager.SetNodeProperty E Params).Response
      = true) :
    DocumentUntouched E Params (FPCGNodePropertyManager.SetNodeProperty E Params) := by
  revert hErr
  unfold DocumentUntouched
  rcases h1 : FJsonObject.TryGetStringField Params "graph_path" with _ | GraphPath
  · intro _
    exact Or.inl (by simp only [FPCGNodePropertyManager.SetNodeProperty, h1])
  rcases h2 : FJsonObject.TryGetStringField Params "node_id" with _ | NodeId
  · intro _
    exact Or.inl (by simp only [FPCGNodePropertyManager.SetNodeProperty, h1, h2])
  rcases h3 : FJsonObject.TryGetStringField Params "property_name" with _ | PropertyName
  · intro _
    exact Or.inl (by simp only [FPCGNodePropertyManager.SetNodeProperty, h1, h2, h3])
  rcases h4 : FJsonObject.TryGetField Params "property_value" with _ | PropertyValue
  · intro _
    exact Or.inl (by simp only [FPCGNodePropertyManager.SetNodeProperty, h1, h2, h3, h4])
  rcases h5 : FPCGGraphCreator.LoadPCGGraph E GraphPath with _ | Graph
  · intro _
    exact Or.inl (by simp only [FPCGNodePropertyManager.SetNodeProperty, h1, h2, h3, h4, h5])
  rcases h6 : FPCGNodeManager.FindNodeByName Graph NodeId with _ | Node
  · intro _
    exact Or.inr ⟨GraphPath, rfl,
      by simp only [FPCGNodePropertyManager.SetNodeProperty, h1, h2, h3, h4, h5, h6]⟩
  rcases h7 : Node.Settings with _ | Settings
  · intro _
    exact Or.inr ⟨GraphPath, rfl,
      by simp only [FPCGNodePropertyManager.SetNodeProperty, h1, h2, h3, h4, h5, h6, h7]⟩
  simp only [FPCGNodePropertyManager.SetNodeProperty, h1, h2, h3, h4, h5, h6, h7]
  generalize hSet : (if FString.ContainsIgnoreCase PropertyName "." = true
    then FPCGNodePropertyManager.SetPropertyValueByPath E Settings.Class.Properties
      Settings.Memory PropertyName PropertyValue
    else FPCGNodePropertyManager.SetPropertyValue E Settings.Class.Properties
      Settings.Memory PropertyName PropertyValue) = Set
  have hFail : Set.Success = true ∨ Set = ⟨false, Settings.Memory, ""⟩ := by
    rw [← hSet]
    split
    · exact FPCGNodePropertyManager.SetPropertyValueByPath_failure _ _ _ _ _
    · exact FPCGNodePropertyManager.SetPropertyValue_failure _ _ _ _ _
  rcases hFail with hs | hf
  · intro hErr
    exfalso
    revert hErr
    simp [hs, IsErrorResponse, FJsonObject.TryGetField, List.lookup]
  · subst hf
    intro _
    refine Or.inr ⟨GraphPath, rfl, ?_⟩
    simp only [Bool.not_false, if_true]
    rw [SetSettingsMemory_same Graph Node Settings (hWF GraphPath Graph h5)
      (FindNodeByName_mem Graph NodeId Node h6) h7]
    exact h5.symm

theorem SampleEngine_load (Graph : UPCGGraph) (Classes : List UClass) (GraphPath : String)
    (Loaded : UPCGGraph)
    (h : FPCGGraphCreator.LoadPCGGraph (SampleEngine Graph Classes) GraphPath = some Loaded) :
    Loaded = Graph := by
  simp only [FPCGGraphCreator.LoadPCGGraph, SampleEngine] at h
  split at h
  · rename_i heq
    cases h
    split at heq
    · cases heq; rfl
    · cases heq
  · split at h
    · rename_i heq
      cases h
      split at heq
      · cases heq; rfl
      · cases heq
    · split at h
      · rename_i heq
        simp only [List.find?_nil] at heq
        cases heq
      · cases h

theorem TransformGraph_identified : TransformGraph.NodesIdentifiedByPtr := by
  intro a ha b hb hp
  simp only [UPCGGraph.AllNodes, TransformGraph, List.cons_append, List.nil_append,
    Option.toList, List.mem_cons, List.mem_singleton, List.not_mem_nil, or_false] at ha hb
  rcases ha with rfl | rfl | rfl <;> rcases hb with rfl | rfl | rfl <;>
    first
    | rfl
    | exact absurd hp (by decide)

/-- C7: failure atomicity. For every graph-editing operation (add node, connect
nodes, delete node, set node property, set spawner entries, add parameter, set
parameter) and every request, if the operation returns an error then the document
is untouched: either no graph was loaded, or the graph after the call is the graph
as it was loaded, with the same nodes, edges, settings memory and parameter bag, no
further change notification and the same dirty mark. Node objects are identified by
their address, and a failing engine call has no effect (see `FEngine`). -/
theorem failure_leaves_document_untouched (E : FEngine)
    (hWF : ∀ GraphPath Graph, FPCGGraphCreator.LoadPCGGraph E GraphPath = some Graph →
      Graph.NodesIdentifiedByPtr)
    (op : EGraphMutation) (Params : FJsonObject)
    (hErr : IsErrorResponse (RunMutation E op Params).Response = true) :
    DocumentUntouched E Params (RunMutation E op Params) := by
  cases op
  · exact AddNode_failure E Params hErr
  · exact ConnectNodes_failure E Params hErr
  · exact DeleteNode_failure E Params hErr
  · exact SetNodeProperty_failure E Params hWF hErr
  · exact SetSpawnerEntries_failure E Params hErr
  · exact AddGraphParameter_failure E Params hErr
  · exact SetGraphParameter_failure E Params hErr

/-- C7, on the sample transform node: the failing dot-path write of scenario D
leaves the loaded graph as it was. -/
theorem failure_leaves_document_untouched_witness :
    IsErrorResponse (RunMutation (SampleEngine TransformGraph []) .SetNodeProperty
      TransformLocationPathRequest).Response = true ∧
    DocumentUntouched (SampleEngine TransformGraph []) TransformLocationPathRequest
      (RunMutation (SampleEngine TransformGraph []) .SetNodeProperty
        TransformLocationPathRequest) :=
  ⟨rfl, failure_leaves_document_untouched (SampleEngine TransformGraph [])
    (fun GraphPath Graph h => by
      rw [SampleEngine_load TransformGraph [] GraphPath Graph h]
      exact TransformGraph_identified)
    .SetNodeProperty TransformLocationPathRequest rfl⟩

/-! ## Resolution order -/

/-- Adding to a map keeps its keys distinct ignoring case. -/
theorem TMap.KeysDistinct_Add {β : Type} (m : TMap β) (k : String) (v : β)
    (h : TMap.KeysDistinct m) : TMap.KeysDistinct (TMap.Add m k v) := by
  induction m with
  | nil => simp [TMap.Add, TMap.KeysDistinct]
  | cons p rest ih =>
    obtain ⟨k0, v0⟩ := p
    unfold TMap.KeysDistinct at h ih ⊢
    rw [List.pairwise_cons] at h
    rcases hk : FString.EqualsIgnoreCase k0 k with _ | _
    · simp only [TMap.Add, hk, Bool.false_eq_true, if_false]
      rw [List.pairwise_cons]
      refine ⟨?_, ih h.2⟩
      intro q hq
      rcases TMap.mem_Add rest k v q hq with h2 | h2
      · exact h.1 q h2
      · rw [h2]
        exact hk
    · simp only [TMap.Add, hk, if_true]
      rw [List.pairwise_cons]
      refine ⟨?_, h.2⟩
      intro q hq
      rw [← FString.EqualsIgnoreCase_congr_left k0 k q.1 hk]
      exact h.1 q hq

/-- In a map without two keys equal ignoring case, a key equal to the requested one
ignoring case is the key `Find` stops at. -/
theorem TMap.Find_of_mem {β : Type} (m : TMap β) (k s : String) (v : β)
    (h : TMap.KeysDistinct m) (hMem : (k, v) ∈ m)
    (hCI : FString.EqualsIgnoreCase k s = true) : TMap.Find m s = some v := by
  induction m with
  | nil => cases hMem
  | cons p rest ih =>
    obtain ⟨k0, v0⟩ := p
    unfold TMap.KeysDistinct at h ih
    rw [List.pairwise_cons] at h
    rw [TMap.Find_cons]
    rcases List.mem_cons.1 hMem with hHead | hRest
    · cases hHead
      rw [if_pos hCI]
    · have hne : FString.EqualsIgnoreCase k0 k = false := h.1 (k, v) hRest
      have hs : FString.EqualsIgnoreCase k0 s = false := by
        rw [← FString.EqualsIgnoreCase_congr k s k0 hCI]
        exact hne
      rw [hs]
      simp only [Bool.false_eq_true, if_false]
      exact ih h.2 hRest

theorem TMap.mem_unique {β : Type} (m : TMap β) (h : TMap.KeysDistinct m)
    (p q : String × β) (hp : p ∈ m) (hq : q ∈ m)
    (hCI : FString.EqualsIgnoreCase p.1 q.1 = true) : p = q := by
  induction m with
  | nil => cases hp
  | cons a rest ih =>
    unfold TMap.KeysDistinct at h ih
    rw [List.pairwise_cons] at h
    rcases List.mem_cons.1 hp with hp1 | hp2
    · rcases List.mem_cons.1 hq with hq1 | hq2
      · rw [hp1, hq1]
      · have := h.1 q hq2
        rw [← hp1, hCI] at this
        cases this
    · rcases List.mem_cons.1 hq with hq1 | hq2
      · have := h.1 p hp2
        rw [← hq1, FString.EqualsIgnoreCase_comm, hCI] at this
        cases this
      · exact ih h.2 hp2 hq2

theorem TMap.Find_eq_none {β : Type} (m : TMap β) (s : String)
    (h : ∀ p ∈ m, FString.EqualsIgnoreCase p.1 s = false) : TMap.Find m s = none := by
  unfold TMap.Find
  have : m.find? (fun Pair => FString.EqualsIgnoreCase Pair.1 s) = none := by
    apply List.find?_eq_none.2
    intro p hp
    simp [h p hp]
  rw [this]
  rfl

namespace FPCGNodeManager

theorem TryRegister_KeysDistinct (E : FEngine) (Registry : TMap UClass) (f c : String)
    (h : TMap.KeysDistinct Registry) : TMap.KeysDistinct (TryRegister E Registry f c) := by
  unfold TryRegister
  split
  · split
    · exact TMap.KeysDistinct_Add _ _ _ h
    · exact h
  · exact h

theorem foldl_TryRegister_KeysDistinct (E : FEngine) (l : List (String × String))
    (Registry : TMap UClass) (h : TMap.KeysDistinct Registry) :
    TMap.KeysDistinct (l.foldl (fun Registry r => TryRegister E Registry r.1 r.2) Registry) := by
  induction l generalizing Registry with
  | nil => exact h
  | cons r rest ih => exact ih _ (TryRegister_KeysDistinct E Registry r.1 r.2 h)

theorem AddIfAbsent_KeysDistinct (Registry : TMap UClass) (n : String) (Class : UClass)
    (h : TMap.KeysDistinct Registry) : TMap.KeysDistinct (AddIfAbsent Registry n Class) := by
  unfold AddIfAbsent
  split
  · exact TMap.KeysDistinct_Add _ _ _ h
  · exact h

theorem DiscoverClass_KeysDistinct (Registry : TMap UClass) (Class : UClass)
    (h : TMap.KeysDistinct Registry) : TMap.KeysDistinct (DiscoverClass Registry Class) := by
  unfold DiscoverClass
  split
  · exact AddIfAbsent_KeysDistinct _ _ _ (AddIfAbsent_KeysDistinct _ _ _ h)
  · exact h

theorem AutoDiscover_KeysDistinct (Classes : List UClass) (Registry : TMap UClass)
    (h : TMap.KeysDistinct Registry) : TMap.KeysDistinct (AutoDiscover Registry Classes) := by
  unfold AutoDiscover
  induction Classes generalizing Registry with
  | nil => exact h
  | cons c rest ih => exact ih _ (DiscoverClass_KeysDistinct Registry c h)

theorem GetNodeTypeRegistry_KeysDistinct (E : FEngine) :
    TMap.KeysDistinct (GetNodeTypeRegistry E) :=
  AutoDiscover_KeysDistinct _ _ (foldl_TryRegister_KeysDistinct E _ [] List.Pairwise.nil)

/-- C11: the resolution order of `ResolveNodeType`. The class stored under the key
exactly equal to the name wins; no other key of the registry equals the name ignoring
case, because the map compares its keys ignoring case and so never holds two keys
that differ only in case. Without a key exactly equal to the name, the class of the
key equal to the name ignoring case; without one, the class found by the direct
lookup (bare name, then the name under `/Script/PCG.`) when it is a settings class;
otherwise nothing. -/
theorem ResolveNodeType_order (E : FEngine) (s : String) :
    (∀ c, (s, c) ∈ GetNodeTypeRegistry E → ResolveNodeType E s = some c) ∧
    (∀ k c, (k, c) ∈ GetNodeTypeRegistry E → FString.EqualsIgnoreCase k s = true →
      ResolveNodeType E s = some c) ∧
    ((∀ p ∈ GetNodeTypeRegistry E, FString.EqualsIgnoreCase p.1 s = false) →
      ResolveNodeType E s
        = (FindClass E s).filter (fun DirectClass => DirectClass.IsChildOfPCGSettings)) ∧
    (FindClass E s = match E.FindObject s with
      | some DirectClass => some DirectClass
      | none => E.FindObject ("/Script/PCG." ++ s)) ∧
    (∀ p ∈ GetNodeTypeRegistry E, ∀ q ∈ GetNodeTypeRegistry E,
      FString.EqualsIgnoreCase p.1 q.1 = true → p = q) := by
  have hD := GetNodeTypeRegistry_KeysDistinct E
  have hCI : ∀ k c, (k, c) ∈ GetNodeTypeRegistry E → FString.EqualsIgnoreCase k s = true →
      ResolveNodeType E s = some c := by
    intro k c hMem hEq
    simp only [ResolveNodeType, ResolveIn, TMap.Find_of_mem _ k s c hD hMem hEq]
  refine ⟨?_, hCI, ?_, rfl, ?_⟩
  · intro c hMem
    exact hCI s c hMem (FString.EqualsIgnoreCase_self s)
  · intro hNoCI
    have hq : (GetNodeTypeRegistry E).find?
        (fun Pair => FString.EqualsIgnoreCase Pair.1 s) = none := by
      apply List.find?_eq_none.2
      intro p hp
      simp [hNoCI p hp]
    simp only [ResolveNodeType, ResolveIn, TMap.Find_eq_none _ s hNoCI, hq]
    rcases FindClass E s with _ | DirectClass
    · rfl
    · simp only [Option.filter]
  · intro p hp q hq hEq
    exact TMap.mem_unique _ hD p q hp hq hEq

/-- C11, on a sample universe in which `PCGFooSettings` (short name `Foo`) is
enumerated before the class `FOO`: the registry holds the keys `Foo` and
`PCGFooSettings` only, the names `Foo`, `FOO` and `foo` all resolve to the class
stored under `Foo`, and a name that matches no key falls through to the direct
lookup, which finds nothing. -/
theorem ResolveNodeType_order_witness :
    (GetNodeTypeRegistry CaseEngine).map Prod.fst = ["Foo", "PCGFooSettings"] ∧
    ResolveNodeType CaseEngine "Foo" = some FooSettingsClass ∧
    ResolveNodeType CaseEngine "FOO" = some FooSettingsClass ∧
    ResolveNodeType CaseEngine "foo" = some FooSettingsClass ∧
    ResolveNodeType CaseEngine "Bar" = none :=
  ⟨rfl,
   (ResolveNodeType_order CaseEngine "Foo").1 FooSettingsClass (List.Mem.head _),
   (ResolveNodeType_order CaseEngine "FOO").2.1 "Foo" FooSettingsClass (List.Mem.head _) rfl,
   (ResolveNodeType_order CaseEngine "foo").2.1 "Foo" FooSettingsClass (List.Mem.head _) rfl,
   ((ResolveNodeType_order CaseEngine "Bar").2.2.1 (by
      intro p hp
      rcases hp with _ | ⟨_, hp⟩
      · rfl
      · rcases hp with _ | ⟨_, hp⟩
        · rfl
        · cases hp)).trans rfl⟩

end FPCGNodeManager


/-! ## Pin resolver -/

namespace FPCGNodeConnector

end FPCGNodeConnector

/-! ## Substrings -/

theorem FString.ContainsChars_of_isPrefixOf (sub l : List Char)
    (h : sub.isPrefixOf l = true) : FString.ContainsChars sub l = true := by
  cases l with
  | nil =>
    cases sub with
    | nil => rfl
    | cons c cs => simp [List.isPrefixOf] at h
  | cons c cs => simp [FString.ContainsChars, h]

theorem FString.ContainsChars_append_left (sub l1 l : List Char)
    (h : FString.ContainsChars sub l = true) : FString.ContainsChars sub (l1 ++ l) = true := by
  induction l1 with
  | nil => exact h
  | cons c cs ih => simp [FString.ContainsChars, ih]

/-- A text contains every piece it was concatenated from. -/
theorem FString.Contains_middle (pre sub post : String) :
    FString.Contains (pre ++ sub ++ post) sub = true := by
  unfold FString.Contains
  have hd : (pre ++ sub ++ post).data = pre.data ++ (sub.data ++ post.data) := by
    simp [String.data_append]
  rw [hd]
  apply FString.ContainsChars_append_left
  apply FString.ContainsChars_of_isPrefixOf
  exact List.isPrefixOf_iff_prefix.2 (List.prefix_append _ _)

/-- A text keeps its beginning when more text is appended. -/
theorem FString.StartsWith_append (s post pre : String)
    (h : FString.StartsWith s pre = true) : FString.StartsWith (s ++ post) pre = true := by
  unfold FString.StartsWith at h ⊢
  rw [String.data_append]
  have hp := List.isPrefixOf_iff_prefix.1 h
  exact List.isPrefixOf_iff_prefix.2 (hp.trans (List.prefix_append _ _))

/-! ## Parameter types -/

namespace FPCGParameterManager

/-- `ResolveParamType` looks at its argument only through case-insensitive
comparisons. -/
theorem ResolveParamType_congr (s t : String) (h : FString.EqualsIgnoreCase s t = true) :
    ResolveParamType s = ResolveParamType t := by
  have hEq : FString.ToLowerChars s = FString.ToLowerChars t := by
    simpa [FString.EqualsIgnoreCase] using h
  simp only [ResolveParamType, FString.EqualsIgnoreCase, hEq]

theorem ResolveParamType_table :
    ∀ row ∈ ParamTypeTable, ResolveParamType row.1 = some row.2 := by
  decide

theorem ResolveParamType_unknown (s : String)
    (h : ∀ row ∈ ParamTypeTable, FString.EqualsIgnoreCase s row.1 = false) :
    ResolveParamType s = none := by
  simp only [ParamTypeTable, List.mem_cons, List.mem_singleton, List.not_mem_nil, or_false,
    forall_eq_or_imp, forall_eq] at h
  simp only [ResolveParamType, h, Bool.or_self, Bool.false_eq_true, if_false]

/-- C13: the type vocabulary of Add Parameter. `ResolveParamType` accepts a type
string exactly when it equals, ignoring case, one of the names of the vocabulary;
the result does not change with the case of the input; each name resolves to the bag
type and value struct of the table (`Int` and `Integer` to the type of `Int32`, the
four composite names to the struct kind with the matching value struct, every other
name without value struct); and for every other string `AddGraphParameter` returns
the "Unknown parameter type" error and leaves the graph, with its parameter bag, as
it was. -/
theorem ResolveParamType_vocabulary :
    (∀ s, (ResolveParamType s).isSome = true ↔
      ∃ row ∈ ParamTypeTable, FString.EqualsIgnoreCase s row.1 = true) ∧
    (∀ s t, FString.EqualsIgnoreCase s t = true → ResolveParamType s = ResolveParamType t) ∧
    (∀ row ∈ ParamTypeTable, ∀ s, FString.EqualsIgnoreCase s row.1 = true →
      ResolveParamType s = some row.2) ∧
    (∀ (E : FEngine) (Params : FJsonObject) (GraphPath ParamName ParamType : String)
      (Graph : UPCGGraph),
      FJsonObject.TryGetStringField Params "graph_path" = some GraphPath →
      FJsonObject.TryGetStringField Params "param_name" = some ParamName →
      FJsonObject.TryGetStringField Params "param_type" = some ParamType →
      FPCGGraphCreator.LoadPCGGraph E GraphPath = some Graph →
      (∀ row ∈ ParamTypeTable, FString.EqualsIgnoreCase ParamType row.1 = false) →
      (AddGraphParameter E Params).Response
        = CreateErrorResponse ("Unknown parameter type '" ++ ParamType ++
          "'. Supported: Bool, Int32, Int64, Float, Double, String, Name, Vector, Rotator, " ++
          "Transform, SoftObjectPath") ∧
      FString.StartsWith ("Unknown parameter type '" ++ ParamType ++
          "'. Supported: Bool, Int32, Int64, Float, Double, String, Name, Vector, Rotator, " ++
          "Transform, SoftObjectPath") "Unknown parameter type" = true ∧
      (AddGraphParameter E Params).Graph = some Graph) := by
  refine ⟨?_, ResolveParamType_congr, ?_, ?_⟩
  · intro s
    constructor
    · intro h
      by_contra hNo
      have hAll : ∀ row ∈ ParamTypeTable, FString.EqualsIgnoreCase s row.1 = false := by
        intro row hrow
        by_contra hc
        exact hNo ⟨row, hrow, by simpa using hc⟩
      rw [ResolveParamType_unknown s hAll] at h
      cases h
    · rintro ⟨row, hrow, hCI⟩
      rw [ResolveParamType_congr s row.1 hCI, ResolveParamType_table row hrow]
      rfl
  · intro row hrow s hCI
    rw [ResolveParamType_congr s row.1 hCI, ResolveParamType_table row hrow]
  · intro E Params GraphPath ParamName ParamType Graph hPath hName hType hLoad hUnknown
    have hNone := ResolveParamType_unknown ParamType hUnknown
    have hOut : AddGraphParameter E Params
        = ⟨CreateErrorResponse ("Unknown parameter type '" ++ ParamType ++
          "'. Supported: Bool, Int32, Int64, Float, Double, String, Name, Vector, Rotator, " ++
          "Transform, SoftObjectPath"), some Graph⟩ := by
      simp only [AddGraphParameter, hPath, hName, hType, hLoad, hNone]
    rw [hOut]
    refine ⟨rfl, ?_, rfl⟩
    apply FString.StartsWith_append
    apply FString.StartsWith_append
    apply FString.StartsWith_append
    decide

end FPCGParameterManager

namespace FPCGParameterManager

/-- C13, on sample inputs: `iNtEgEr` resolves to the 32-bit integer type without
value struct, and `vector` to the struct kind with the vector struct. -/
theorem ResolveParamType_vocabulary_witness :
    ResolveParamType "iNtEgEr" = some (.Int32, none) ∧
    ResolveParamType "vector" = some (.Struct, some .FVector) :=
  ⟨ResolveParamType_vocabulary.2.2.1 ("Integer", .Int32, none) (by decide) "iNtEgEr"
      (by decide),
   by decide⟩

/-- C14 (counterexample). The sample bag declares `Density` and `Offset`; the name
`density` is not equal to the name of any descriptor, yet Set Parameter with it does
not fail: the descriptor `Density` is found, the call succeeds and the value of
`Density` changes from 0 to 0.75. -/
theorem lower_case_name_finds_parameter :
    (∀ Desc ∈ SampleBag.PropertyDescs.getD [], Desc.Name ≠ "density") ∧
    SampleBag.Values.Read "Density" = some (.Float 0) ∧
    SetGraphParameter (ParameterEngine ParameterGraph)
        [ ("graph_path", .Str "/Game/PCG/Sample"), ("param_name", .Str "density"),
          ("default_value", .Number (mkRat 3 4)) ]
      = ⟨SetParameterSuccess "density" "0.75",
         some (GraphWithParameters ParameterGraph
           { SampleBag with Values := [("Density", .Float (mkRat 3 4))] })⟩ := by
  refine ⟨by decide, rfl, rfl⟩

/-- C14 (as the code has it): Set Parameter on an undeclared name. When the parameter
bag has a layout and no descriptor of it has the requested name, even ignoring case,
`SetGraphParameter` returns the error "Parameter '<name>' not found in graph's user
parameters" and leaves the graph, with every parameter value, as it was; when the bag
has no layout at all the error is "Graph has no user parameters defined. Use
add_pcg_graph_parameter first.", a different message. -/
theorem SetGraphParameter_undeclared (E : FEngine) (Params : FJsonObject)
    (GraphPath ParamName : String) (DefaultValue : FJsonValue) (Graph : UPCGGraph)
    (UserParams : FInstancedPropertyBag)
    (hPath : FJsonObject.TryGetStringField Params "graph_path" = some GraphPath)
    (hName : FJsonObject.TryGetStringField Params "param_name" = some ParamName)
    (hValue : FJsonObject.TryGetField Params "default_value" = some DefaultValue)
    (hLoad : FPCGGraphCreator.LoadPCGGraph E GraphPath = some Graph)
    (hBag : Graph.UserParameters = some UserParams) :
    (∀ PropertyDescs, UserParams.PropertyDescs = some PropertyDescs →
      (∀ Desc ∈ PropertyDescs, FString.EqualsIgnoreCase Desc.Name ParamName = false) →
      (SetGraphParameter E Params).Response
        = CreateErrorResponse ("Parameter '" ++ ParamName ++ "' " ++
            "not found in graph's user parameters") ∧
      FString.Contains ("Parameter '" ++ ParamName ++ "' " ++
            "not found in graph's user parameters")
          "not found in graph's user parameters" = true ∧
      (SetGraphParameter E Params).Graph = some Graph) ∧
    (UserParams.PropertyDescs = none →
      (SetGraphParameter E Params).Response = CreateErrorResponse
        "Graph has no user parameters defined. Use add_pcg_graph_parameter first." ∧
      (SetGraphParameter E Params).Graph = some Graph) ∧
    FString.Contains "Graph has no user parameters defined. Use add_pcg_graph_parameter first."
      "not found in graph's user parameters" = false := by
  refine ⟨?_, ?_, by decide⟩
  · intro PropertyDescs hDescs hUndeclared
    have hFind : PropertyDescs.find?
        (fun Desc => FString.EqualsIgnoreCase Desc.Name ParamName) = none := by
      apply List.find?_eq_none.2
      intro Desc hDesc
      simp [hUndeclared Desc hDesc]
    have hOut : SetGraphParameter E Params
        = ⟨CreateErrorResponse ("Parameter '" ++ ParamName ++
            "' not found in graph's user parameters"), some Graph⟩ := by
      simp only [SetGraphParameter, hPath, hName, hValue, hLoad, hBag, hDescs, hFind]
    have hMsg : "Parameter '" ++ ParamName ++ "' not found in graph's user parameters"
        = "Parameter '" ++ ParamName ++ "' " ++ "not found in graph's user parameters" := by
      rw [String.append_assoc ("Parameter '" ++ ParamName)]
      rfl
    rw [hOut, hMsg]
    refine ⟨rfl, ?_, rfl⟩
    have h := FString.Contains_middle ("Parameter '" ++ ParamName ++ "' ")
      "not found in graph's user parameters" ""
    simpa using h
  · intro hDescs
    have hOut : SetGraphParameter E Params = ⟨CreateErrorResponse
        "Graph has no user parameters defined. Use add_pcg_graph_parameter first.",
        some Graph⟩ := by
      simp only [SetGraphParameter, hPath, hName, hValue, hLoad, hBag, hDescs]
    rw [hOut]
    exact ⟨rfl, rfl⟩

/-- C14, on the sample bag, which declares `Density` and `Offset`: setting the
undeclared `Missing` is refused and the graph is left as it was. -/
theorem SetGraphParameter_undeclared_witness :
    SetGraphParameter (ParameterEngine ParameterGraph)
        [ ("graph_path", .Str "/Game/PCG/Sample"), ("param_name", .Str "Missing"),
          ("default_value", .Number 1) ]
      = ⟨CreateErrorResponse "Parameter 'Missing' not found in graph's user parameters",
         some ParameterGraph⟩ :=
  have h := (SetGraphParameter_undeclared (ParameterEngine ParameterGraph)
    [ ("graph_path", .Str "/Game/PCG/Sample"), ("param_name", .Str "Missing"),
      ("default_value", .Number 1) ]
    "/Game/PCG/Sample" "Missing" (.Number 1) ParameterGraph SampleBag
    rfl rfl rfl rfl rfl).1 _ rfl (by decide)
  (congrArg₂ FOutcome.mk h.1 h.2.2 : _)

end FPCGParameterManager

/-! ## Set Parameter -/

/-- Truncation toward zero of a number that is not negative is its floor. -/
theorem TruncToInt_nonneg (n : ℚ) (h : 0 ≤ n) : TruncToInt n = ⌊n⌋ := by
  unfold TruncToInt
  rw [Rat.floor_def]
  have hn : 0 ≤ n.num := Rat.num_nonneg.2 h
  exact Int.tdiv_eq_ediv hn (Int.ofNat_nonneg _)

theorem TruncToInt_neg (n : ℚ) : TruncToInt (-n) = - TruncToInt n := by
  unfold TruncToInt
  simp [Int.neg_tdiv]

/-- Truncation toward zero of a number that is not positive is its ceiling. -/
theorem TruncToInt_nonpos (n : ℚ) (h : n ≤ 0) : TruncToInt n = ⌈n⌉ := by
  have h2 : 0 ≤ -n := by linarith
  have h1 := TruncToInt_nonneg (-n) h2
  rw [TruncToInt_neg] at h1
  have h3 : ⌈n⌉ = -⌊-n⌋ := by
    rw [Int.floor_neg]
    simp
  rw [h3, ← h1]
  simp

namespace FPCGParameterManager

/-- Set Parameter on a declared parameter, in terms of the typed setter switch. -/
theorem SetGraphParameter_declared (E : FEngine) (Params : FJsonObject)
    (GraphPath ParamName : String) (DefaultValue : FJsonValue) (Graph : UPCGGraph)
    (UserParamsConst UserParams : FInstancedPropertyBag)
    (PropertyDescs : List FPropertyBagPropertyDesc) (FoundDesc : FPropertyBagPropertyDesc)
    (hPath : FJsonObject.TryGetStringField Params "graph_path" = some GraphPath)
    (hName : FJsonObject.TryGetStringField Params "param_name" = some ParamName)
    (hValue : FJsonObject.TryGetField Params "default_value" = some DefaultValue)
    (hLoad : FPCGGraphCreator.LoadPCGGraph E GraphPath = some Graph)
    (hBag : Graph.UserParameters = some UserParamsConst)
    (hDescs : UserParamsConst.PropertyDescs = some PropertyDescs)
    (hFound : PropertyDescs.find? (fun Desc => FString.EqualsIgnoreCase Desc.Name ParamName)
      = some FoundDesc)
    (hMutable : E.GetMutableUserParametersStruct Graph = some UserParams) :
    (∀ UserParams1 ValueStr,
      SetTypedValue E UserParams FoundDesc.ValueType ParamName DefaultValue
        = (some UserParams1, ValueStr) →
      SetGraphParameter E Params
        = ⟨SetParameterSuccess ParamName ValueStr, some (GraphWithParameters Graph UserParams1)⟩) ∧
    (∀ ValueStr,
      SetTypedValue E UserParams FoundDesc.ValueType ParamName DefaultValue
        = (none, ValueStr) →
      SetGraphParameter E Params
        = ⟨CreateErrorResponse ("Failed to set value for parameter '" ++ ParamName ++ "'"),
           some Graph⟩) := by
  constructor
  · intro UserParams1 ValueStr h
    simp only [SetGraphParameter, hPath, hName, hValue, hLoad, hBag, hDescs, hFound, hMutable, h]
    rfl
  · intro ValueStr h
    simp only [SetGraphParameter, hPath, hName, hValue, hLoad, hBag, hDescs, hFound, hMutable, h]

/-- Set Parameter on a declared parameter when the graph gives no mutable bag. -/
theorem SetGraphParameter_immutable (E : FEngine) (Params : FJsonObject)
    (GraphPath ParamName : String) (DefaultValue : FJsonValue) (Graph : UPCGGraph)
    (UserParamsConst : FInstancedPropertyBag)
    (PropertyDescs : List FPropertyBagPropertyDesc) (FoundDesc : FPropertyBagPropertyDesc)
    (hPath : FJsonObject.TryGetStringField Params "graph_path" = some GraphPath)
    (hName : FJsonObject.TryGetStringField Params "param_name" = some ParamName)
    (hValue : FJsonObject.TryGetField Params "default_value" = some DefaultValue)
    (hLoad : FPCGGraphCreator.LoadPCGGraph E GraphPath = some Graph)
    (hBag : Graph.UserParameters = some UserParamsConst)
    (hDescs : UserParamsConst.PropertyDescs = some PropertyDescs)
    (hFound : PropertyDescs.find? (fun Desc => FString.EqualsIgnoreCase Desc.Name ParamName)
      = some FoundDesc)
    (hMutable : E.GetMutableUserParametersStruct Graph = none) :
    SetGraphParameter E Params
      = ⟨CreateErrorResponse "Could not get mutable user parameters from graph.",
         some Graph⟩ := by
  simp only [SetGraphParameter, hPath, hName, hValue, hLoad, hBag, hDescs, hFound, hMutable]

/-- The typed setter switch agrees with the claim-side table on matching shapes. -/
theorem SetTypedValue_scalar (E : FEngine) (UserParams : FInstancedPropertyBag)
    (ValueType : EPropertyBagPropertyType) (ParamName : String) (DefaultValue : FJsonValue)
    (Call : Option FInstancedPropertyBag × String)
    (h : ScalarSetterCall E UserParams ParamName ValueType DefaultValue = some Call) :
    SetTypedValue E UserParams ValueType ParamName DefaultValue = Call := by
  cases ValueType <;> cases DefaultValue <;> simp only [ScalarSetterCall] at h <;>
    first
    | (cases h; rfl)
    | cases h

/-- The typed setter switch treats a JSON value as its reading of the declared kind. -/
theorem SetTypedValue_reading (E : FEngine) (UserParams : FInstancedPropertyBag)
    (ValueType : EPropertyBagPropertyType) (ParamName : String)
    (DefaultValue Canonical : FJsonValue)
    (h : ScalarReading ValueType DefaultValue = some Canonical) :
    SetTypedValue E UserParams ValueType ParamName DefaultValue
      = SetTypedValue E UserParams ValueType ParamName Canonical := by
  cases ValueType <;> simp only [ScalarReading, Option.map_eq_some'] at h <;>
    first
    | (obtain ⟨v, hv, rfl⟩ := h
       simp only [SetTypedValue, hv] <;> rfl)
    | cases h

/-- On a scalar kind, a JSON value without a reading of that kind reaches no setter. -/
theorem SetTypedValue_unreadable (E : FEngine) (UserParams : FInstancedPropertyBag)
    (ValueType : EPropertyBagPropertyType) (ParamName : String) (DefaultValue : FJsonValue)
    (hScalar : IsScalarBagType ValueType = true)
    (h : ScalarReading ValueType DefaultValue = none) :
    SetTypedValue E UserParams ValueType ParamName DefaultValue = (none, "") := by
  cases ValueType <;>
    first
    | (cases hScalar; done)
    | (simp only [ScalarReading, Option.map_eq_none'] at h
       simp only [SetTypedValue, h])

theorem CastInt32_of_range (n : ℚ) (hLo : -2 ^ 31 ≤ TruncToInt n) (hHi : TruncToInt n < 2 ^ 31) :
    CastInt32 n = TruncToInt n := by
  unfold CastInt32
  omega

theorem CastInt64_of_range (n : ℚ) (hLo : -2 ^ 63 ≤ TruncToInt n) (hHi : TruncToInt n < 2 ^ 63) :
    CastInt64 n = TruncToInt n := by
  unfold CastInt64
  omega

end FPCGParameterManager

namespace FPCGParameterManager

/-- C15 (counterexample). `Density` is declared a float and the JSON string `"0.5"`
does not have the shape of a number, yet Set Parameter with it is no failure: the
string is read as the number it spells, the float setter stores 0.5 and `new_value`
is `0.5`. -/
theorem string_value_sets_float_parameter :
    (∀ Bag, ScalarSetterCall (ParameterEngine DensityGraph) Bag "Density" .Float (.Str "0.5")
      = none) ∧
    SetGraphParameter (ParameterEngine DensityGraph) SetDensityTextRequest
      = ⟨SetParameterSuccess "Density" "0.5",
         some (GraphWithParameters DensityGraph
           ⟨some [⟨"Density", .Float, none⟩], [("Density", .Float (mkRat 1 2))]⟩)⟩ :=
  ⟨fun _ => rfl, rfl⟩

/-- C15 (as the code has it). Set Parameter on a declared scalar parameter. With the
parameter found in the layout of the bag and its declared kind one of the seven
scalar kinds, the JSON value is taken in its reading of that kind (`ScalarReading`):
a value of the matching shape is its own reading, and a value of another shape is
converted when it has such a reading (a number or a string for a boolean, a boolean
or a numeric string for a number, a number or a boolean for a string or name). On
the reading the claim-side table `ScalarSetterCall` names the typed setter call on
the coerced value and its text: the operation succeeds when that setter succeeds,
the graph then carries the bag the setter returned (one settings notification,
package dirty) and `new_value` is that text; when the setter fails the operation
fails with the graph as loaded. The text is `true`/`false` for a boolean, the
decimal of the truncated integer for int32 and int64 (the cast is the truncation
toward zero inside the range of the type), the `SanitizeFloat` text of the number
for float (after rounding to a float) and double, and the string itself for string
and name. Only a JSON value without a reading of the declared kind (null, an array,
an object, and for a number a string that is not numeric) is a failure; it leaves
the graph as loaded, as does the failure to get the mutable bag. -/
theorem SetGraphParameter_scalar (E : FEngine) (Params : FJsonObject)
    (GraphPath ParamName : String) (DefaultValue : FJsonValue) (Graph : UPCGGraph)
    (UserParamsConst : FInstancedPropertyBag) (PropertyDescs : List FPropertyBagPropertyDesc)
    (FoundDesc : FPropertyBagPropertyDesc)
    (hPath : FJsonObject.TryGetStringField Params "graph_path" = some GraphPath)
    (hName : FJsonObject.TryGetStringField Params "param_name" = some ParamName)
    (hValue : FJsonObject.TryGetField Params "default_value" = some DefaultValue)
    (hLoad : FPCGGraphCreator.LoadPCGGraph E GraphPath = some Graph)
    (hBag : Graph.UserParameters = some UserParamsConst)
    (hDescs : UserParamsConst.PropertyDescs = some PropertyDescs)
    (hFound : PropertyDescs.find? (fun Desc => FString.EqualsIgnoreCase Desc.Name ParamName)
      = some FoundDesc)
    (hScalar : IsScalarBagType FoundDesc.ValueType = true) :
    (E.GetMutableUserParametersStruct Graph = none →
      SetGraphParameter E Params
        = ⟨CreateErrorResponse "Could not get mutable user parameters from graph.",
           some Graph⟩) ∧
    (∀ UserParams, E.GetMutableUserParametersStruct Graph = some UserParams →
      (∀ Canonical Stored ValueStr,
        ScalarReading FoundDesc.ValueType DefaultValue = some Canonical →
        ScalarSetterCall E UserParams ParamName FoundDesc.ValueType Canonical
          = some (Stored, ValueStr) →
        (∀ UserParams1, Stored = some UserParams1 →
          SetGraphParameter E Params
            = ⟨[ ("success", .Boolean true), ("param_name", .Str ParamName),
                 ("new_value", .Str ValueStr) ],
               some (GraphWithParameters Graph UserParams1)⟩) ∧
        (Stored = none →
          SetGraphParameter E Params
            = ⟨CreateErrorResponse ("Failed to set value for parameter '" ++ ParamName ++ "'"),
               some Graph⟩)) ∧
      (ScalarReading FoundDesc.ValueType DefaultValue = none →
        SetGraphParameter E Params
          = ⟨CreateErrorResponse ("Failed to set value for parameter '" ++ ParamName ++ "'"),
             some Graph⟩)) ∧
    (∀ UserParams Canonical, ScalarReading FoundDesc.ValueType DefaultValue = some Canonical →
      (ScalarSetterCall E UserParams ParamName FoundDesc.ValueType Canonical).isSome = true) ∧
    (∀ UserParams,
      (ScalarSetterCall E UserParams ParamName FoundDesc.ValueType DefaultValue).isSome = true →
      ScalarReading FoundDesc.ValueType DefaultValue = some DefaultValue) ∧
    (∀ UserParams,
      (∀ b, ScalarSetterCall E UserParams ParamName .Bool (.Boolean b)
        = some (E.SetValueBool UserParams ParamName b, if b then "true" else "false")) ∧
      (∀ n, -2 ^ 31 ≤ TruncToInt n → TruncToInt n < 2 ^ 31 →
        ScalarSetterCall E UserParams ParamName .Int32 (.Number n)
          = some (E.SetValueInt32 UserParams ParamName (TruncToInt n),
              FromInt (TruncToInt n))) ∧
      (∀ n, -2 ^ 63 ≤ TruncToInt n → TruncToInt n < 2 ^ 63 →
        ScalarSetterCall E UserParams ParamName .Int64 (.Number n)
          = some (E.SetValueInt64 UserParams ParamName (TruncToInt n),
              FromInt (TruncToInt n))) ∧
      (∀ n, ScalarSetterCall E UserParams ParamName .Float (.Number n)
        = some (E.SetValueFloat UserParams ParamName (CastFloat n),
            FString.SanitizeFloat (CastFloat n) 1)) ∧
      (∀ n, ScalarSetterCall E UserParams ParamName .Double (.Number n)
        = some (E.SetValueDouble UserParams ParamName n, FString.SanitizeFloat n 1)) ∧
      (∀ s, ScalarSetterCall E UserParams ParamName .String (.Str s)
        = some (E.SetValueString UserParams ParamName s, s)) ∧
      (∀ s, ScalarSetterCall E UserParams ParamName .Name (.Str s)
        = some (E.SetValueName UserParams ParamName s, s))) ∧
    ((∀ n, ScalarReading .Bool (.Number n) = some (.Boolean (n != 0))) ∧
      (∀ s, ScalarReading .Bool (.Str s) = some (.Boolean (FString.ToBool s))) ∧
      (∀ T, IsNumberBagType T = true →
        (∀ b, ScalarReading T (.Boolean b) = some (.Number (if b then 1 else 0))) ∧
        (∀ s, ScalarReading T (.Str s)
          = if FString.IsNumeric s then some (.Number (FString.Atod s)) else none)) ∧
      (∀ T, IsTextBagType T = true →
        (∀ n, ScalarReading T (.Number n) = some (.Str (FString.SanitizeFloat n 0))) ∧
        (∀ b, ScalarReading T (.Boolean b) = some (.Str (if b then "true" else "false")))) ∧
      (∀ T, ScalarReading T .Null = none ∧ (∀ a, ScalarReading T (.Array a) = none) ∧
        (∀ o, ScalarReading T (.Object o) = none))) ∧
    ((∀ n : ℚ, 0 ≤ n → TruncToInt n = ⌊n⌋) ∧ (∀ n : ℚ, n ≤ 0 → TruncToInt n = ⌈n⌉) ∧
      TruncToInt (mkRat 5 2) = 2 ∧ TruncToInt (mkRat (-5) 2) = -2 ∧
      (∀ k : Nat, FromInt (Int.ofNat k) = Nat.repr k ∧
        FromInt (Int.negSucc k) = "-" ++ Nat.repr (k + 1)) ∧
      FromInt 42 = "42" ∧ FromInt (-12) = "-12" ∧
      CastFloat (mkRat 3 4) = mkRat 3 4 ∧ CastFloat (mkRat 1 10) = mkRat 13421773 134217728 ∧
      FString.SanitizeFloat (mkRat 3 4) 1 = "0.75" ∧ FString.SanitizeFloat 5 1 = "5.0" ∧
      FString.SanitizeFloat (CastFloat (mkRat 1 10)) 1 = "0.1" ∧
      FString.SanitizeFloat (mkRat (-5) 2) 0 = "-2.5" ∧ FString.SanitizeFloat 5 0 = "5") := by
  refine ⟨?_, ?_, ?_, ?_, ?_, ?_, ?_⟩
  · intro hMutable
    exact SetGraphParameter_immutable E Params GraphPath ParamName DefaultValue Graph
      UserParamsConst PropertyDescs FoundDesc hPath hName hValue hLoad hBag hDescs hFound
      hMutable
  · intro UserParams hMutable
    have hDecl := SetGraphParameter_declared E Params GraphPath ParamName DefaultValue Graph
      UserParamsConst UserParams PropertyDescs FoundDesc hPath hName hValue hLoad hBag hDescs
      hFound hMutable
    constructor
    · intro Canonical Stored ValueStr hRead hCall
      have hTyped : SetTypedValue E UserParams FoundDesc.ValueType ParamName DefaultValue
          = (Stored, ValueStr) := by
        rw [SetTypedValue_reading E UserParams _ ParamName DefaultValue Canonical hRead]
        exact SetTypedValue_scalar E UserParams FoundDesc.ValueType ParamName Canonical
          (Stored, ValueStr) hCall
      constructor
      · intro UserParams1 hStored
        subst hStored
        exact hDecl.1 UserParams1 ValueStr hTyped
      · intro hStored
        subst hStored
        exact hDecl.2 ValueStr hTyped
    · intro hRead
      exact hDecl.2 "" (SetTypedValue_unreadable E UserParams FoundDesc.ValueType ParamName
        DefaultValue hScalar hRead)
  · intro UserParams Canonical hRead
    revert hRead
    cases FoundDesc.ValueType <;> simp only [ScalarReading, Option.map_eq_some'] <;>
      first
      | (rintro ⟨v, _, rfl⟩; rfl)
      | (intro h; cases h)
  · intro UserParams hCall
    revert hCall
    cases FoundDesc.ValueType <;> cases DefaultValue <;>
      simp only [ScalarSetterCall, Option.isSome_none, Option.isSome_some] <;>
      first
      | (intro _; rfl)
      | (intro h; cases h)
  · intro UserParams
    refine ⟨fun _ => rfl, ?_, ?_, fun _ => rfl, fun _ => rfl, fun _ => rfl, fun _ => rfl⟩
    · intro n hLo hHi
      simp only [ScalarSetterCall, CastInt32_of_range n hLo hHi]
    · intro n hLo hHi
      simp only [ScalarSetterCall, CastInt64_of_range n hLo hHi]
  · refine ⟨fun _ => rfl, fun _ => rfl, ?_, ?_, ?_⟩
    · intro T hT
      cases T <;> first | (cases hT; done) | exact ⟨fun _ => rfl, fun s => by
        simp only [ScalarReading, FJsonValue.TryGetNumber]
        split <;> rfl⟩
    · intro T hT
      cases T <;> first | (cases hT; done) | exact ⟨fun _ => rfl, fun _ => rfl⟩
    · intro T
      cases T <;> exact ⟨rfl, fun _ => rfl, fun _ => rfl⟩
  · refine ⟨TruncToInt_nonneg, TruncToInt_nonpos, by decide, by decide, ?_, by decide,
      by decide, by decide, by decide, by decide, by decide, by decide, by decide, by decide⟩
    intro k
    exact ⟨rfl, rfl⟩

/-- Scenario C: on the graph on which `Density` was declared a float, setting it to
three quarters succeeds, stores the number and reports `0.75`. -/
theorem SetGraphParameter_scalar_witness :
    SetGraphParameter (ParameterEngine DensityGraph) SetDensityRequest
      = ⟨[ ("success", .Boolean true), ("param_name", .Str "Density"),
           ("new_value", .Str "0.75") ],
         some (GraphWithParameters DensityGraph DensityBag)⟩ :=
  (((SetGraphParameter_scalar (ParameterEngine DensityGraph) SetDensityRequest
    "/Game/PCG/Sample" "Density" (.Number (mkRat 3 4)) DensityGraph
    ⟨some [⟨"Density", .Float, none⟩], []⟩ [⟨"Density", .Float, none⟩]
    ⟨"Density", .Float, none⟩ rfl rfl rfl rfl rfl rfl rfl rfl).2.1
      ⟨some [⟨"Density", .Float, none⟩], []⟩ rfl).1
      (.Number (mkRat 3 4)) (some DensityBag) "0.75" rfl rfl).1 DensityBag rfl

end FPCGParameterManager

namespace FPCGParameterManager

/-- C16 (as the code has it). Set Parameter on a declared parameter of a non-scalar
kind: a JSON value that reads as text (a string as itself, a number as its
`SanitizeFloat` text without a minimum of fractional digits, a boolean as `true` or
`false`) has that text passed to the generic deserializing setter, the operation
succeeds exactly when that setter succeeds and `new_value` is the text; a JSON array,
a JSON object and null have no reading as text, nothing is serialized, no setter is
reached and the operation is a failure that leaves the graph as loaded, as does the
failure to get the mutable bag. -/
theorem SetGraphParameter_nonscalar (E : FEngine) (Params : FJsonObject)
    (GraphPath ParamName : String) (DefaultValue : FJsonValue) (Graph : UPCGGraph)
    (UserParamsConst : FInstancedPropertyBag) (PropertyDescs : List FPropertyBagPropertyDesc)
    (FoundDesc : FPropertyBagPropertyDesc)
    (hPath : FJsonObject.TryGetStringField Params "graph_path" = some GraphPath)
    (hName : FJsonObject.TryGetStringField Params "param_name" = some ParamName)
    (hValue : FJsonObject.TryGetField Params "default_value" = some DefaultValue)
    (hLoad : FPCGGraphCreator.LoadPCGGraph E GraphPath = some Graph)
    (hBag : Graph.UserParameters = some UserParamsConst)
    (hDescs : UserParamsConst.PropertyDescs = some PropertyDescs)
    (hFound : PropertyDescs.find? (fun Desc => FString.EqualsIgnoreCase Desc.Name ParamName)
      = some FoundDesc)
    (hOther : IsScalarBagType FoundDesc.ValueType = false) :
    (E.GetMutableUserParametersStruct Graph = none →
      SetGraphParameter E Params
        = ⟨CreateErrorResponse "Could not get mutable user parameters from graph.",
           some Graph⟩) ∧
    (∀ UserParams, E.GetMutableUserParametersStruct Graph = some UserParams →
      (∀ StrValue, DefaultValue.TryGetString = some StrValue →
        (∀ UserParams1, E.SetValueSerialize UserParams ParamName StrValue = some UserParams1 →
          SetGraphParameter E Params
            = ⟨[ ("success", .Boolean true), ("param_name", .Str ParamName),
                 ("new_value", .Str StrValue) ],
               some (GraphWithParameters Graph UserParams1)⟩) ∧
        (E.SetValueSerialize UserParams ParamName StrValue = none →
          SetGraphParameter E Params
            = ⟨CreateErrorResponse ("Failed to set value for parameter '" ++ ParamName ++ "'"),
               some Graph⟩)) ∧
      (DefaultValue.TryGetString = none →
        SetGraphParameter E Params
          = ⟨CreateErrorResponse ("Failed to set value for parameter '" ++ ParamName ++ "'"),
             some Graph⟩)) ∧
    ((∀ s, (FJsonValue.Str s).TryGetString = some s) ∧
      (∀ n, (FJsonValue.Number n).TryGetString = some (FString.SanitizeFloat n 0)) ∧
      (∀ b, (FJsonValue.Boolean b).TryGetString = some (if b then "true" else "false")) ∧
      FJsonValue.Null.TryGetString = none ∧
      (∀ a, (FJsonValue.Array a).TryGetString = none) ∧
      (∀ o, (FJsonValue.Object o).TryGetString = none)) ∧
    (FString.SanitizeFloat 5 0 = "5" ∧ FString.SanitizeFloat (mkRat (-5) 2) 0 = "-2.5" ∧
      FString.SanitizeFloat (mkRat 1 8) 0 = "0.125" ∧
      FString.SanitizeFloat 1234567 0 = "1234567") := by
  refine ⟨?_, ?_, ⟨fun _ => rfl, fun _ => rfl, fun _ => rfl, rfl, fun _ => rfl, fun _ => rfl⟩,
    ⟨by decide, by decide, by decide, by decide⟩⟩
  · intro hMutable
    exact SetGraphParameter_immutable E Params GraphPath ParamName DefaultValue Graph
      UserParamsConst PropertyDescs FoundDesc hPath hName hValue hLoad hBag hDescs hFound
      hMutable
  · intro UserParams hMutable
    have hDecl := SetGraphParameter_declared E Params GraphPath ParamName DefaultValue Graph
      UserParamsConst UserParams PropertyDescs FoundDesc hPath hName hValue hLoad hBag hDescs
      hFound hMutable
    constructor
    · intro StrValue hStr
      constructor
      · intro UserParams1 hSet
        apply hDecl.1 UserParams1 StrValue
        revert hOther
        cases FoundDesc.ValueType <;> intro hOther <;>
          first
          | (cases hOther; done)
          | simp only [SetTypedValue, hStr, hSet]
      · intro hSet
        apply hDecl.2 StrValue
        revert hOther
        cases FoundDesc.ValueType <;> intro hOther <;>
          first
          | (cases hOther; done)
          | simp only [SetTypedValue, hStr, hSet]
    · intro hNone
      apply hDecl.2 ""
      revert hOther
      cases FoundDesc.ValueType <;> intro hOther <;>
        first
        | (cases hOther; done)
        | simp only [SetTypedValue, hNone]

/-- The vector parameter `Offset` set from the text `(X=1,Y=2,Z=3)` and from the
number 5: the text `(X=1,Y=2,Z=3)`, respectively `5`, reaches the generic setter and
is reported. -/
theorem SetGraphParameter_nonscalar_witness :
    SetGraphParameter (ParameterEngine ParameterGraph) SetOffsetTextRequest
      = ⟨[ ("success", .Boolean true), ("param_name", .Str "Offset"),
           ("new_value", .Str "(X=1,Y=2,Z=3)") ],
         some (GraphWithParameters ParameterGraph
           ⟨SampleBag.PropertyDescs,
            SampleBag.Values.Write "Offset" (.Imported "(X=1,Y=2,Z=3)")⟩)⟩ ∧
    SetGraphParameter (ParameterEngine ParameterGraph) SetOffsetNumberRequest
      = ⟨[ ("success", .Boolean true), ("param_name", .Str "Offset"),
           ("new_value", .Str "5") ],
         some (GraphWithParameters ParameterGraph
           ⟨SampleBag.PropertyDescs, SampleBag.Values.Write "Offset" (.Imported "5")⟩)⟩ :=
  ⟨(((SetGraphParameter_nonscalar (ParameterEngine ParameterGraph) SetOffsetTextRequest
      "/Game/PCG/Sample" "Offset" (.Str "(X=1,Y=2,Z=3)") ParameterGraph SampleBag
      [⟨"Density", .Float, none⟩, ⟨"Offset", .Struct, some .FVector⟩]
      ⟨"Offset", .Struct, some .FVector⟩ rfl rfl rfl rfl rfl rfl rfl rfl).2.1 SampleBag rfl).1
        "(X=1,Y=2,Z=3)" rfl).1 _ rfl,
   (((SetGraphParameter_nonscalar (ParameterEngine ParameterGraph) SetOffsetNumberRequest
      "/Game/PCG/Sample" "Offset" (.Number 5) ParameterGraph SampleBag
      [⟨"Density", .Float, none⟩, ⟨"Offset", .Struct, some .FVector⟩]
      ⟨"Offset", .Struct, some .FVector⟩ rfl rfl rfl rfl rfl rfl rfl rfl).2.1 SampleBag rfl).1
        "5" rfl).1 _ rfl⟩

/-- C16 (counterexample). The vector parameter `Offset` is declared with a
non-scalar kind and the generic setter of the engine accepts every text for it, yet
Set Parameter with the JSON array `[1, 2, 3]` fails and leaves the graph as loaded:
the array is not serialized and the generic setter is not reached. -/
theorem SetGraphParameter_array_not_serialized :
    (ParameterGraph.UserParameters.bind (fun Bag => Bag.PropertyDescs)).bind
        (fun Descs => (Descs.find? (fun Desc => Desc.Name == "Offset")).map
          (fun Desc => IsScalarBagType Desc.ValueType)) = some false ∧
    (∀ Text,
      ((ParameterEngine ParameterGraph).SetValueSerialize SampleBag "Offset" Text).isSome
        = true) ∧
    SetGraphParameter (ParameterEngine ParameterGraph) SetOffsetArrayRequest
      = ⟨CreateErrorResponse "Failed to set value for parameter 'Offset'",
         some ParameterGraph⟩ :=
  ⟨rfl, fun _ => rfl, rfl⟩

end FPCGParameterManager

/-! ## Connect Nodes -/

namespace FPCGNodeConnector

end FPCGNodeConnector

namespace FPCGNodeConnector

end FPCGNodeConnector

namespace FPCGNodeConnector

/-- C18 (at the failing input). On the sample graph the output port `Result` of
`Filter_0` has one edge, to the input port `Out` of the Output node. Connecting these
two ports again: the pin-level call refuses, because the ports are already
connected; the graph-level call, which returns the To node, adds nothing and returns
it; Connect Nodes takes the non-null return for success and reports it, yet the
output port still has its one edge and the graph its one edge, not M+1 and one more.
Connecting the same output port to an input port it is not yet connected to does
add the edge: the port then has both edges and the graph two. -/
theorem ConnectNodes_reports_success_without_new_edge :
    FilterGraph.OutputEdges 62 = some [⟨62, 21⟩] ∧ FilterGraph.EdgeCount = 1 ∧
    (EdgeEngine FilterGraph).AddEdgeTo FilterGraph ⟨62, "Result", [⟨62, 21⟩]⟩
      ⟨21, "Out", [⟨62, 21⟩]⟩ = none ∧
    (ConnectNodes (EdgeEngine FilterGraph) ConnectAgainRequest).Response
      = [ ("success", .Boolean true), ("from_node_id", .Str "Filter_0"),
          ("from_pin", .Str "Result"), ("to_node_id", .Str "OutputNode"),
          ("to_pin", .Str "Out") ] ∧
    ((ConnectNodes (EdgeEngine FilterGraph) ConnectAgainRequest).Graph.bind
      (fun Graph2 => Graph2.OutputEdges 62)) = some [⟨62, 21⟩] ∧
    ((ConnectNodes (EdgeEngine FilterGraph) ConnectAgainRequest).Graph.map
      UPCGGraph.EdgeCount) = some 1 ∧
    ((ConnectNodes (EdgeEngine FilterGraph) ConnectFanOutRequest).Graph.bind
      (fun Graph2 => Graph2.OutputEdges 62)) = some [⟨62, 21⟩, ⟨62, 51⟩] ∧
    ((ConnectNodes (EdgeEngine FilterGraph) ConnectFanOutRequest).Graph.map
      UPCGGraph.EdgeCount) = some 2 :=
  ⟨rfl, rfl, rfl, rfl, rfl, rfl, rfl, rfl⟩

end FPCGNodeConnector

/-! ## Vector, rotator and transform fields -/

theorem OverwriteMember_none (Memory : FMemory) (Cell Member : String) :
    OverwriteMember Memory Cell Member none = Memory := rfl

theorem OverwriteMember_read_self (Memory : FMemory) (Cell Member : String) (Value : FValue) :
    ((OverwriteMember Memory Cell Member (some Value)).ReadStruct Cell).Read Member
      = some Value := by
  simp only [OverwriteMember, FMemory.WritePath, FMemory.ReadStruct_Write,
    FMemory.Read_Write_self]

theorem OverwriteMember_read_ne (Memory : FMemory) (Cell Member Name : String)
    (New : Option FValue) (hne : Name ≠ Member) :
    ((OverwriteMember Memory Cell Member New).ReadStruct Cell).Read Name
      = (Memory.ReadStruct Cell).Read Name := by
  cases New with
  | none => rfl
  | some Value =>
    simp only [OverwriteMember, FMemory.WritePath, FMemory.ReadStruct_Write]
    exact FMemory.Read_Write_ne _ _ _ _ hne

theorem OverwriteMember_read_other (Memory : FMemory) (Cell Member Other : String)
    (New : Option FValue) (hne : Other ≠ Cell) :
    (OverwriteMember Memory Cell Member New).Read Other = Memory.Read Other := by
  cases New with
  | none => rfl
  | some Value =>
    simp only [OverwriteMember, FMemory.WritePath]
    exact FMemory.Read_Write_ne _ _ _ _ hne

/-- One key of the transform object: the guarded write of the source is the
overwrite with what the key gives. -/
theorem transform_key_step (ObjValue : FJsonObject) (Key : String) (Memory : FMemory)
    (Cell Member : String) (Make : ℚ × ℚ × ℚ → FValue) :
    (if ObjValue.HasField Key then
      match ObjValue.GetArrayField Key with
      | A0 :: A1 :: A2 :: _ =>
        Memory.WritePath [Cell] Member (Make (A0.AsNumber, A1.AsNumber, A2.AsNumber))
      | _ => Memory
     else Memory)
      = OverwriteMember Memory Cell Member ((TransformKeyValue ObjValue Key).map Make) := by
  unfold FJsonObject.HasField FJsonObject.GetArrayField FJsonObject.TryGetArrayField
    TransformKeyValue
  rcases hField : FJsonObject.TryGetField ObjValue Key with _ | Value
  · rfl
  · cases Value with
    | Array Elements =>
      rcases Elements with _ | ⟨A0, _ | ⟨A1, _ | ⟨A2, Rest⟩⟩⟩ <;> rfl
    | _ => rfl

namespace FPCGNodePropertyManager

/-- The transform case of `SetPropertyValue` on a JSON object: three guarded writes. -/
theorem SetPropertyValue_transform (E : FEngine) (Fields : List FProperty) (Memory : FMemory)
    (PropertyName : String) (ObjValue : FJsonObject) (Property : FProperty)
    (Struct : UScriptStruct)
    (hFind : FindProperty Fields PropertyName = some Property)
    (hKind : Property.Kind = .FStructProperty Struct)
    (hBase : Struct.Base = some .FTransform) :
    SetPropertyValue E Fields Memory PropertyName (.Object ObjValue)
      = ⟨true,
         OverwriteMember
           (OverwriteMember
             (OverwriteMember Memory Property.GetName "Translation"
               ((TransformKeyValue ObjValue "location").map VectorValue))
             Property.GetName "Rotation"
             ((TransformKeyValue ObjValue "rotation").map RotationValue))
           Property.GetName "Scale3D" ((TransformKeyValue ObjValue "scale").map VectorValue),
         "Transform"⟩ := by
  simp only [SetPropertyValue, hFind, hKind, hBase, FJsonValue.TryGetObject]
  refine congrArg (fun m => FSetResult.mk true m "Transform") ?_
  refine (transform_key_step ObjValue "scale" _ Property.GetName "Scale3D" VectorValue).trans ?_
  refine congrArg (fun m => OverwriteMember m Property.GetName "Scale3D"
    ((TransformKeyValue ObjValue "scale").map VectorValue)) ?_
  refine (transform_key_step ObjValue "rotation" _ Property.GetName "Rotation"
    RotationValue).trans ?_
  refine congrArg (fun m => OverwriteMember m Property.GetName "Rotation"
    ((TransformKeyValue ObjValue "rotation").map RotationValue)) ?_
  exact transform_key_step ObjValue "location" Memory Property.GetName "Translation" VectorValue

end FPCGNodePropertyManager

namespace FPCGNodePropertyManager

/-- C19. Transform write frame. For a field of transform kind and a JSON object,
`SetPropertyValue` succeeds with tag `Transform`; the location, rotation and scale
of the transform are overwritten from the keys `location`, `rotation` and `scale`:
a key present with an array of at least three elements gives elements 0, 1, 2 (read
as numbers) to its component, and a component whose key is absent, or present
without such an array, keeps its prior value. Nothing else in the object is
touched, and when no key gives a value (so also when none is present) the memory
is unchanged. -/
theorem SetPropertyValue_transform_frame (E : FEngine) (Fields : List FProperty)
    (Memory : FMemory) (PropertyName : String) (ObjValue : FJsonObject) (Property : FProperty)
    (Struct : UScriptStruct)
    (hFind : FindProperty Fields PropertyName = some Property)
    (hKind : Property.Kind = .FStructProperty Struct)
    (hBase : Struct.Base = some .FTransform) :
    (SetPropertyValue E Fields Memory PropertyName (.Object ObjValue)).Success = true ∧
    (SetPropertyValue E Fields Memory PropertyName (.Object ObjValue)).PropertyType
      = "Transform" ∧
    (∀ x y z, TransformKeyValue ObjValue "location" = some (x, y, z) →
      ((SetPropertyValue E Fields Memory PropertyName (.Object ObjValue)).Memory.ReadStruct
        Property.GetName).Read "Translation" = some (FVector.ToValue ⟨x, y, z⟩)) ∧
    (TransformKeyValue ObjValue "location" = none →
      ((SetPropertyValue E Fields Memory PropertyName (.Object ObjValue)).Memory.ReadStruct
        Property.GetName).Read "Translation"
        = (Memory.ReadStruct Property.GetName).Read "Translation") ∧
    (∀ x y z, TransformKeyValue ObjValue "rotation" = some (x, y, z) →
      ((SetPropertyValue E Fields Memory PropertyName (.Object ObjValue)).Memory.ReadStruct
        Property.GetName).Read "Rotation" = some (.Quat ⟨x, y, z⟩)) ∧
    (TransformKeyValue ObjValue "rotation" = none →
      ((SetPropertyValue E Fields Memory PropertyName (.Object ObjValue)).Memory.ReadStruct
        Property.GetName).Read "Rotation"
        = (Memory.ReadStruct Property.GetName).Read "Rotation") ∧
    (∀ x y z, TransformKeyValue ObjValue "scale" = some (x, y, z) →
      ((SetPropertyValue E Fields Memory PropertyName (.Object ObjValue)).Memory.ReadStruct
        Property.GetName).Read "Scale3D" = some (FVector.ToValue ⟨x, y, z⟩)) ∧
    (TransformKeyValue ObjValue "scale" = none →
      ((SetPropertyValue E Fields Memory PropertyName (.Object ObjValue)).Memory.ReadStruct
        Property.GetName).Read "Scale3D"
        = (Memory.ReadStruct Property.GetName).Read "Scale3D") ∧
    (∀ Member, Member ≠ "Translation" → Member ≠ "Rotation" → Member ≠ "Scale3D" →
      ((SetPropertyValue E Fields Memory PropertyName (.Object ObjValue)).Memory.ReadStruct
        Property.GetName).Read Member = (Memory.ReadStruct Property.GetName).Read Member) ∧
    (∀ Other, Other ≠ Property.GetName →
      (SetPropertyValue E Fields Memory PropertyName (.Object ObjValue)).Memory.Read Other
        = Memory.Read Other) ∧
    (TransformKeyValue ObjValue "location" = none →
      TransformKeyValue ObjValue "rotation" = none →
      TransformKeyValue ObjValue "scale" = none →
      (SetPropertyValue E Fields Memory PropertyName (.Object ObjValue)).Memory = Memory) ∧
    (∀ Key, ObjValue.HasField Key = false → TransformKeyValue ObjValue Key = none) ∧
    (∀ Key a b c Rest,
      ObjValue.TryGetField Key = some (.Array (.Number a :: .Number b :: .Number c :: Rest)) →
      TransformKeyValue ObjValue Key = some (a, b, c)) := by
  rw [SetPropertyValue_transform E Fields Memory PropertyName ObjValue Property Struct
    hFind hKind hBase]
  refine ⟨rfl, rfl, ?_, ?_, ?_, ?_, ?_, ?_, ?_, ?_, ?_, ?_, ?_⟩
  · intro x y z h
    dsimp only
    rw [OverwriteMember_read_ne _ _ _ _ _ (by decide),
      OverwriteMember_read_ne _ _ _ _ _ (by decide), h]
    exact OverwriteMember_read_self _ _ _ _
  · intro h
    dsimp only
    rw [OverwriteMember_read_ne _ _ _ _ _ (by decide),
      OverwriteMember_read_ne _ _ _ _ _ (by decide), h, Option.map_none',
      OverwriteMember_none]
  · intro x y z h
    dsimp only
    rw [OverwriteMember_read_ne _ _ _ _ _ (by decide), h]
    exact OverwriteMember_read_self _ _ _ _
  · intro h
    dsimp only
    rw [OverwriteMember_read_ne _ _ _ _ _ (by decide), h, Option.map_none',
      OverwriteMember_none]
    exact OverwriteMember_read_ne _ _ _ _ _ (by decide)
  · intro x y z h
    dsimp only
    rw [h]
    exact OverwriteMember_read_self _ _ _ _
  · intro h
    dsimp only
    rw [h, Option.map_none', OverwriteMember_none]
    exact (OverwriteMember_read_ne _ _ _ _ _ (by decide)).trans
      (OverwriteMember_read_ne _ _ _ _ _ (by decide))
  · intro Member h1 h2 h3
    dsimp only
    rw [OverwriteMember_read_ne _ _ _ _ _ h3, OverwriteMember_read_ne _ _ _ _ _ h2,
      OverwriteMember_read_ne _ _ _ _ _ h1]
  · intro Other hne
    dsimp only
    rw [OverwriteMember_read_other _ _ _ _ _ hne, OverwriteMember_read_other _ _ _ _ _ hne,
      OverwriteMember_read_other _ _ _ _ _ hne]
  · intro h1 h2 h3
    dsimp only
    rw [h1, h2, h3]
    rfl
  · intro Key h
    unfold FJsonObject.HasField at h
    unfold TransformKeyValue
    rcases hField : FJsonObject.TryGetField ObjValue Key with _ | Value
    · rfl
    · rw [hField] at h
      cases h
  · intro Key a b c Rest h
    unfold TransformKeyValue
    rw [h]
    rfl

/-- The sample transform has rotation (10, 20, 30), location (0, 0, 0) and scale
(1, 1, 1); the object with `location` `[1, 2, 3, 4]` and a `scale` of two elements
moves the location to (1, 2, 3) and leaves rotation and scale. -/
theorem SetPropertyValue_transform_frame_witness :
    ((SetPropertyValue (SampleEngine TransformGraph []) SampleTransformClass.Properties
        SampleTransformSettings.Memory "Transform"
        (.Object [("location", .Array [.Number 1, .Number 2, .Number 3, .Number 4]),
                  ("scale", .Array [.Number 5, .Number 6])])).Memory.ReadStruct
      "Transform").Read "Translation" = some (FVector.ToValue ⟨1, 2, 3⟩) ∧
    ((SetPropertyValue (SampleEngine TransformGraph []) SampleTransformClass.Properties
        SampleTransformSettings.Memory "Transform"
        (.Object [("location", .Array [.Number 1, .Number 2, .Number 3, .Number 4]),
                  ("scale", .Array [.Number 5, .Number 6])])).Memory.ReadStruct
      "Transform").Read "Rotation" = some (.Quat ⟨10, 20, 30⟩) ∧
    ((SetPropertyValue (SampleEngine TransformGraph []) SampleTransformClass.Properties
        SampleTransformSettings.Memory "Transform"
        (.Object [("location", .Array [.Number 1, .Number 2, .Number 3, .Number 4]),
                  ("scale", .Array [.Number 5, .Number 6])])).Memory.ReadStruct
      "Transform").Read "Scale3D" = some (FVector.ToValue ⟨1, 1, 1⟩) :=
  have h := SetPropertyValue_transform_frame (SampleEngine TransformGraph [])
    SampleTransformClass.Properties SampleTransformSettings.Memory "Transform"
    [("location", .Array [.Number 1, .Number 2, .Number 3, .Number 4]),
     ("scale", .Array [.Number 5, .Number 6])]
    SampleTransformProperty TransformStruct rfl rfl rfl
  ⟨h.2.2.1 1 2 3 rfl, h.2.2.2.2.2.1 rfl, h.2.2.2.2.2.2.2.1 rfl⟩

/-- C20. Vector and rotation component order. For a field of vector kind and a JSON
array of at least three elements, `SetPropertyValue` succeeds with tag `Vector` and
writes X, Y, Z from elements 0, 1, 2 (read as numbers); for a field of rotator kind
it succeeds with tag `Rotator` and writes Pitch, Yaw, Roll from elements 0, 1, 2.
Elements past index 2 are ignored and nothing else in the object is touched. A JSON
array of fewer than three elements is rejected: the setter returns false and the
memory is as before. -/
theorem SetPropertyValue_vector_rotator (E : FEngine) (Fields : List FProperty)
    (Memory : FMemory) (PropertyName : String) (Property : FProperty) (Struct : UScriptStruct)
    (hFind : FindProperty Fields PropertyName = some Property)
    (hKind : Property.Kind = .FStructProperty Struct)
    (hBase : Struct.Base = some .FVector ∨ Struct.Base = some .FRotator) :
    (Struct.Base = some .FVector → ∀ A0 A1 A2 Rest,
      (SetPropertyValue E Fields Memory PropertyName (.Array (A0 :: A1 :: A2 :: Rest))).Success
        = true ∧
      (SetPropertyValue E Fields Memory PropertyName
        (.Array (A0 :: A1 :: A2 :: Rest))).PropertyType = "Vector" ∧
      ((SetPropertyValue E Fields Memory PropertyName
        (.Array (A0 :: A1 :: A2 :: Rest))).Memory.ReadStruct Property.GetName).Read "X"
          = some (.Double A0.AsNumber) ∧
      ((SetPropertyValue E Fields Memory PropertyName
        (.Array (A0 :: A1 :: A2 :: Rest))).Memory.ReadStruct Property.GetName).Read "Y"
          = some (.Double A1.AsNumber) ∧
      ((SetPropertyValue E Fields Memory PropertyName
        (.Array (A0 :: A1 :: A2 :: Rest))).Memory.ReadStruct Property.GetName).Read "Z"
          = some (.Double A2.AsNumber) ∧
      SetPropertyValue E Fields Memory PropertyName (.Array (A0 :: A1 :: A2 :: Rest))
        = SetPropertyValue E Fields Memory PropertyName (.Array [A0, A1, A2])) ∧
    (Struct.Base = some .FRotator → ∀ A0 A1 A2 Rest,
      (SetPropertyValue E Fields Memory PropertyName (.Array (A0 :: A1 :: A2 :: Rest))).Success
        = true ∧
      (SetPropertyValue E Fields Memory PropertyName
        (.Array (A0 :: A1 :: A2 :: Rest))).PropertyType = "Rotator" ∧
      ((SetPropertyValue E Fields Memory PropertyName
        (.Array (A0 :: A1 :: A2 :: Rest))).Memory.ReadStruct Property.GetName).Read "Pitch"
          = some (.Double A0.AsNumber) ∧
      ((SetPropertyValue E Fields Memory PropertyName
        (.Array (A0 :: A1 :: A2 :: Rest))).Memory.ReadStruct Property.GetName).Read "Yaw"
          = some (.Double A1.AsNumber) ∧
      ((SetPropertyValue E Fields Memory PropertyName
        (.Array (A0 :: A1 :: A2 :: Rest))).Memory.ReadStruct Property.GetName).Read "Roll"
          = some (.Double A2.AsNumber) ∧
      SetPropertyValue E Fields Memory PropertyName (.Array (A0 :: A1 :: A2 :: Rest))
        = SetPropertyValue E Fields Memory PropertyName (.Array [A0, A1, A2])) ∧
    (∀ A0 A1 A2 Rest Other, Other ≠ Property.GetName →
      (SetPropertyValue E Fields Memory PropertyName
        (.Array (A0 :: A1 :: A2 :: Rest))).Memory.Read Other = Memory.Read Other) ∧
    (∀ Elements : List FJsonValue, Elements.length < 3 →
      SetPropertyValue E Fields Memory PropertyName (.Array Elements) = ⟨false, Memory, ""⟩) ∧
    (∀ a : ℚ, (FJsonValue.Number a).AsNumber = a) := by
  have hVec : Struct.Base = some .FVector → ∀ A0 A1 A2 Rest,
      SetPropertyValue E Fields Memory PropertyName (.Array (A0 :: A1 :: A2 :: Rest))
        = ⟨true,
           OverwriteMember (OverwriteMember (OverwriteMember Memory Property.GetName "X"
             (some (.Double A0.AsNumber))) Property.GetName "Y" (some (.Double A1.AsNumber)))
             Property.GetName "Z" (some (.Double A2.AsNumber)), "Vector"⟩ := by
    intro hB A0 A1 A2 Rest
    simp only [SetPropertyValue, hFind, hKind, hB, FJsonValue.TryGetArray]
    rfl
  have hRot : Struct.Base = some .FRotator → ∀ A0 A1 A2 Rest,
      SetPropertyValue E Fields Memory PropertyName (.Array (A0 :: A1 :: A2 :: Rest))
        = ⟨true,
           OverwriteMember (OverwriteMember (OverwriteMember Memory Property.GetName "Pitch"
             (some (.Double A0.AsNumber))) Property.GetName "Yaw" (some (.Double A1.AsNumber)))
             Property.GetName "Roll" (some (.Double A2.AsNumber)), "Rotator"⟩ := by
    intro hB A0 A1 A2 Rest
    simp only [SetPropertyValue, hFind, hKind, hB, FJsonValue.TryGetArray]
    rfl
  refine ⟨?_, ?_, ?_, ?_, fun _ => rfl⟩
  · intro hB A0 A1 A2 Rest
    rw [hVec hB A0 A1 A2 Rest, hVec hB A0 A1 A2 []]
    refine ⟨rfl, rfl, ?_, ?_, ?_, rfl⟩
    · dsimp only
      rw [OverwriteMember_read_ne _ _ _ _ _ (by decide),
        OverwriteMember_read_ne _ _ _ _ _ (by decide)]
      exact OverwriteMember_read_self _ _ _ _
    · dsimp only
      rw [OverwriteMember_read_ne _ _ _ _ _ (by decide)]
      exact OverwriteMember_read_self _ _ _ _
    · exact OverwriteMember_read_self _ _ _ _
  · intro hB A0 A1 A2 Rest
    rw [hRot hB A0 A1 A2 Rest, hRot hB A0 A1 A2 []]
    refine ⟨rfl, rfl, ?_, ?_, ?_, rfl⟩
    · dsimp only
      rw [OverwriteMember_read_ne _ _ _ _ _ (by decide),
        OverwriteMember_read_ne _ _ _ _ _ (by decide)]
      exact OverwriteMember_read_self _ _ _ _
    · dsimp only
      rw [OverwriteMember_read_ne _ _ _ _ _ (by decide)]
      exact OverwriteMember_read_self _ _ _ _
    · exact OverwriteMember_read_self _ _ _ _
  · intro A0 A1 A2 Rest Other hne
    rcases hBase with hB | hB
    · rw [hVec hB A0 A1 A2 Rest]
      dsimp only
      rw [OverwriteMember_read_other _ _ _ _ _ hne, OverwriteMember_read_other _ _ _ _ _ hne,
        OverwriteMember_read_other _ _ _ _ _ hne]
    · rw [hRot hB A0 A1 A2 Rest]
      dsimp only
      rw [OverwriteMember_read_other _ _ _ _ _ hne, OverwriteMember_read_other _ _ _ _ _ hne,
        OverwriteMember_read_other _ _ _ _ _ hne]
  · intro Elements hLen
    rcases Elements with _ | ⟨A0, _ | ⟨A1, _ | ⟨A2, Rest⟩⟩⟩
    · rcases hBase with hB | hB <;>
        simp only [SetPropertyValue, hFind, hKind, hB, FJsonValue.TryGetArray,
          FJsonValue.TryGetString]
    · rcases hBase with hB | hB <;>
        simp only [SetPropertyValue, hFind, hKind, hB, FJsonValue.TryGetArray,
          FJsonValue.TryGetString]
    · rcases hBase with hB | hB <;>
        simp only [SetPropertyValue, hFind, hKind, hB, FJsonValue.TryGetArray,
          FJsonValue.TryGetString]
    · simp only [List.length_cons] at hLen
      omega

end FPCGNodePropertyManager

namespace FPCGNodePropertyManager

/-- On the sample object: `[1, 2, 3, 4]` moves the vector `Offset` to X = 1, Y = 2,
Z = 3; `[40, 50, 60]` turns the rotator `Facing` to pitch 40, yaw 50, roll 60; the
array `[1, 2]` is rejected and the memory stays as it was. -/
theorem SetPropertyValue_vector_rotator_witness :
    ((SetPropertyValue (SampleEngine EmptyGraph []) [SampleVectorProperty, SampleRotatorProperty]
        SampleStructMemory "Offset"
        (.Array [.Number 1, .Number 2, .Number 3, .Number 4])).Memory.ReadStruct "Offset")
      = [("X", .Double 1), ("Y", .Double 2), ("Z", .Double 3)] ∧
    ((SetPropertyValue (SampleEngine EmptyGraph []) [SampleVectorProperty, SampleRotatorProperty]
        SampleStructMemory "Facing"
        (.Array [.Number 40, .Number 50, .Number 60])).Memory.ReadStruct "Facing").Read "Yaw"
      = some (.Double 50) ∧
    SetPropertyValue (SampleEngine EmptyGraph []) [SampleVectorProperty, SampleRotatorProperty]
        SampleStructMemory "Offset" (.Array [.Number 1, .Number 2])
      = ⟨false, SampleStructMemory, ""⟩ :=
  ⟨rfl,
   ((SetPropertyValue_vector_rotator (SampleEngine EmptyGraph [])
      [SampleVectorProperty, SampleRotatorProperty] SampleStructMemory "Facing"
      SampleRotatorProperty RotatorStruct rfl rfl (Or.inr rfl)).2.1 rfl
      (.Number 40) (.Number 50) (.Number 60) []).2.2.2.1,
   (SetPropertyValue_vector_rotator (SampleEngine EmptyGraph [])
      [SampleVectorProperty, SampleRotatorProperty] SampleStructMemory "Offset"
      SampleVectorProperty VectorStruct rfl rfl (Or.inl rfl)).2.2.2.1
      [.Number 1, .Number 2] (by decide)⟩

end FPCGNodePropertyManager

/-! ## Read Graph -/

namespace FPCGGraphCreator

/-- C30. Parameter type names round-trip for scalar kinds only. Read Graph lists one
entry per declared parameter whose `param_type` is the string of the switch on its
bag kind. For each of the seven scalar kinds that string is accepted by
`ResolveParamType` and resolves to the same kind with no value struct. Every name
that declares a struct-kind parameter (`Vector`, `Rotator`, `Transform`,
`SoftObjectPath`) resolves to the kind `Struct`, for which Read Graph reports
`Struct`, and `ResolveParamType` does not accept `Struct`. -/
theorem param_type_round_trip (E : FEngine) (Params : FJsonObject) (GraphPath : String)
    (Graph : UPCGGraph) (UserParams : FInstancedPropertyBag)
    (PropertyDescs : List FPropertyBagPropertyDesc)
    (hPath : FJsonObject.TryGetStringField Params "graph_path" = some GraphPath)
    (hLoad : LoadPCGGraph E GraphPath = some Graph)
    (hBag : Graph.UserParameters = some UserParams)
    (hDescs : UserParams.PropertyDescs = some PropertyDescs) :
    FJsonObject.TryGetField (ReadPCGGraph E Params) "parameters"
      = some (.Array (PropertyDescs.map ParameterEntry)) ∧
    (∀ Kind, IsScalarBagType Kind = true →
      FPCGParameterManager.ResolveParamType (TypeStr Kind) = some (Kind, none)) ∧
    (∀ row ∈ ParamTypeTable, row.2.2.isSome = true →
      row.2.1 = .Struct ∧ TypeStr row.2.1 = "Struct") ∧
    (∀ row ∈ ParamTypeTable, row.2.2.isSome = false → IsScalarBagType row.2.1 = true) ∧
    FPCGParameterManager.ResolveParamType "Struct" = none := by
  refine ⟨?_, ?_, by decide, by decide, by decide⟩
  · simp only [ReadPCGGraph, hPath, hLoad, hBag, hDescs, Option.bind]
    rfl
  · intro Kind hKind
    cases Kind <;> first | (cases hKind; done) | decide

/-- On the sample graph, whose bag declares the float `Density` and the vector
`Offset`, Read Graph reports `Float` and `Struct`. -/
theorem param_type_round_trip_witness :
    FJsonObject.TryGetField (ReadPCGGraph (ParameterEngine ParameterGraph) ReadSampleRequest)
      "parameters"
      = some (.Array
          [ .Object [("param_name", .Str "Density"), ("param_type", .Str "Float")],
            .Object [("param_name", .Str "Offset"), ("param_type", .Str "Struct")] ]) :=
  (param_type_round_trip (ParameterEngine ParameterGraph) ReadSampleRequest
    "/Game/PCG/Sample" ParameterGraph SampleBag
    [⟨"Density", .Float, none⟩, ⟨"Offset", .Struct, some .FVector⟩] rfl rfl rfl rfl).1

end FPCGGraphCreator

namespace FPCGGraphCreator

/-- C27 (at the failing input). On the sample graph, Connect Nodes from the Input
node to `Filter_0` succeeds, reports the pins `In` and `Data`, and the edge is on the
output pin of the Input node in the graph it leaves behind; Read Graph of that
graph lists in `connections` only the edge from `Filter_0` to the Output node: the
loop over the connections visits the regular nodes and not the Input node. A
connection made from the regular node `Filter_0` to `Branch_0` is listed. -/
theorem ReadPCGGraph_omits_input_node_connections :
    (FPCGNodeConnector.ConnectNodes (EdgeEngine FilterGraph) ConnectInputRequest).Response
      = [ ("success", .Boolean true), ("from_node_id", .Str "InputNode"),
          ("from_pin", .Str "In"), ("to_node_id", .Str "Filter_0"),
          ("to_pin", .Str "Data") ] ∧
    ((FPCGNodeConnector.ConnectNodes (EdgeEngine FilterGraph) ConnectInputRequest).Graph.bind
      (fun Graph2 => Graph2.OutputEdges 11)) = some [UPCGEdge.Between ⟨11, "In", []⟩
        ⟨61, "Data", []⟩] ∧
    ((FPCGNodeConnector.ConnectNodes (EdgeEngine FilterGraph) ConnectInputRequest).Graph.bind
      (fun Graph2 => FJsonObject.TryGetField
        (ReadPCGGraph (EdgeEngine Graph2) ReadSampleRequest) "connections"))
      = some (.Array
          [ .Object [ ("from_node_id", .Str "Filter_0"), ("from_pin", .Str "Result"),
                      ("to_node_id", .Str "OutputNode"), ("to_pin", .Str "Out") ] ]) ∧
    ((FPCGNodeConnector.ConnectNodes (EdgeEngine FilterGraph) ConnectFanOutRequest).Graph.bind
      (fun Graph2 => FJsonObject.TryGetField
        (ReadPCGGraph (EdgeEngine Graph2) ReadSampleRequest) "connections"))
      = some (.Array
          [ .Object [ ("from_node_id", .Str "Filter_0"), ("from_pin", .Str "Result"),
                      ("to_node_id", .Str "OutputNode"), ("to_pin", .Str "Out") ],
            .Object [ ("from_node_id", .Str "Filter_0"), ("from_pin", .Str "Result"),
                      ("to_node_id", .Str "Branch_0"), ("to_pin", .Str "Data") ] ]) :=
  ⟨rfl, rfl, rfl, rfl⟩

end FPCGGraphCreator

/-! ## Duplicate static registrations -/

namespace FPCGNodeManager

theorem TryRegister_find_self (E : FEngine) (Registry : TMap UClass)
    (FriendlyName ClassName : String) (c : UClass)
    (h : (FindClass E ClassName).filter UClass.IsChildOfPCGSettings = some c) :
    (TryRegister E Registry FriendlyName ClassName).Find FriendlyName = some c := by
  unfold TryRegister
  rcases hFind : FindClass E ClassName with _ | d
  · rw [hFind] at h
    cases h
  · rw [hFind] at h
    simp only [Option.filter] at h
    split at h
    · cases h
      rename_i hc
      simp only [hc, if_true]
      exact TMap.Find_Add_self _ _ _
    · cases h

theorem TryRegister_find_unresolved (E : FEngine) (Registry : TMap UClass)
    (FriendlyName ClassName : String)
    (h : (FindClass E ClassName).filter UClass.IsChildOfPCGSettings = none) :
    TryRegister E Registry FriendlyName ClassName = Registry := by
  unfold TryRegister
  rcases hFind : FindClass E ClassName with _ | d
  · rfl
  · rw [hFind] at h
    simp only [Option.filter] at h
    split at h
    · cases h
    · rename_i hc
      simp only [hc, if_false, Bool.false_eq_true]

theorem TryRegister_find_other (E : FEngine) (Registry : TMap UClass)
    (FriendlyName ClassName Key : String)
    (hne : FString.EqualsIgnoreCase FriendlyName Key = false) :
    (TryRegister E Registry FriendlyName ClassName).Find Key = Registry.Find Key := by
  unfold TryRegister
  split
  · split
    · exact TMap.Find_Add_ne _ _ _ _ hne
    · rfl
  · rfl

/-- After a run of `TryRegister` calls on an empty registry a friendly name is
mapped to the last class its registrations found and accepted, when no other
friendly name of the run equals it ignoring case. -/
theorem foldl_TryRegister_find (E : FEngine) (Registrations : List (String × String))
    (FriendlyName : String)
    (hNames : ∀ r ∈ Registrations, FString.EqualsIgnoreCase r.1 FriendlyName = true →
      r.1 = FriendlyName) :
    (Registrations.foldl (fun Registry r => TryRegister E Registry r.1 r.2) []).Find
        FriendlyName
      = (StaticCandidates E Registrations FriendlyName).getLast? := by
  induction Registrations using List.reverseRecOn with
  | nil => rfl
  | append_singleton l r ih =>
    have ih := ih (fun q hq => hNames q (List.mem_append_left _ hq))
    have hLast := hNames r (List.mem_append_right _ (List.mem_singleton_self r))
    rw [List.foldl_append]
    simp only [List.foldl_cons, List.foldl_nil, StaticCandidates, List.filter_append,
      List.filterMap_append]
    by_cases hName : r.1 = FriendlyName
    · have hb : (r.1 == FriendlyName) = true := by simpa using hName
      simp only [List.filter_cons, List.filter_nil, hb, if_true, List.filterMap_cons,
        List.filterMap_nil]
      rcases hRes : (FindClass E r.2).filter UClass.IsChildOfPCGSettings with _ | c
      · rw [TryRegister_find_unresolved E _ _ _ hRes, ih]
        simp only [StaticCandidates, List.append_nil]
      · rw [hName, TryRegister_find_self E _ _ _ c hRes]
        simp
    · have hb : (r.1 == FriendlyName) = false := by simpa using hName
      simp only [List.filter_cons, List.filter_nil, hb, Bool.false_eq_true, if_false,
        List.filterMap_nil, List.append_nil]
      have hne : FString.EqualsIgnoreCase r.1 FriendlyName = false := by
        rcases e : FString.EqualsIgnoreCase r.1 FriendlyName with _ | _
        · rfl
        · exact absurd (hLast e) hName
      rw [TryRegister_find_other E _ _ _ _ hne, ih]
      rfl

/-- No two friendly names of the static registrations differ only in case. -/
theorem StaticRegistrations_names :
    StaticRegistrations.all (fun r => StaticRegistrations.all (fun q =>
      !FString.EqualsIgnoreCase r.1 q.1 || r.1 == q.1)) = true := by
  decide

end FPCGNodeManager

namespace FPCGNodeManager

/-- C28. Duplicate static registrations. Among the static registrations the friendly
names `Union`, `AttributeFilter`, `CreateAttribute` and `AttributeOperation` occur
twice, with the class names listed here in list order. For every friendly name,
when at least one of its registrations finds a settings class, the built registry
maps the name to the class found by the last such registration in list order, and
`ResolveNodeType` returns it: with several found it is the last, with one found it
is that one. -/
theorem duplicate_static_registrations (E : FEngine) (FriendlyName : String) :
    (∀ c, (StaticCandidates E StaticRegistrations FriendlyName).getLast? = some c →
      (GetNodeTypeRegistry E).Find FriendlyName = some c ∧
      ResolveNodeType E FriendlyName = some c) ∧
    (∀ c, StaticCandidates E StaticRegistrations FriendlyName = [c] →
      (GetNodeTypeRegistry E).Find FriendlyName = some c) ∧
    (∀ pre c d, StaticCandidates E StaticRegistrations FriendlyName = pre ++ [c, d] →
      (GetNodeTypeRegistry E).Find FriendlyName = some d) ∧
    (StaticRegistrations.filter (fun r => r.1 == "Union")).map Prod.snd
      = ["PCGMergeSettings", "PCGUnionSettings"] ∧
    (StaticRegistrations.filter (fun r => r.1 == "AttributeFilter")).map Prod.snd
      = ["PCGFilterByAttributeSettings", "PCGAttributeFilterSettings"] ∧
    (StaticRegistrations.filter (fun r => r.1 == "CreateAttribute")).map Prod.snd
      = ["PCGCreateAttributeSettings", "PCGMetadataCreateAttributeSettings"] ∧
    (StaticRegistrations.filter (fun r => r.1 == "AttributeOperation")).map Prod.snd
      = ["PCGAttributeOperationSettings", "PCGMetadataAttributeOperationSettings"] := by
  have hLast : ∀ c, (StaticCandidates E StaticRegistrations FriendlyName).getLast? = some c →
      (GetNodeTypeRegistry E).Find FriendlyName = some c := by
    intro c h
    unfold GetNodeTypeRegistry
    apply AutoDiscover_stable
    unfold StaticRegistry
    rw [foldl_TryRegister_find]
    · exact h
    · -- the friendly name is one of the static names, which are distinct ignoring case
      have hMem : ∃ q ∈ StaticRegistrations, q.1 = FriendlyName := by
        rcases hF : StaticRegistrations.filter (fun r => r.1 == FriendlyName) with _ | ⟨q, rest⟩
        · simp only [StaticCandidates, hF, List.filterMap_nil, List.getLast?_nil] at h
          cases h
        · have hq : q ∈ StaticRegistrations.filter (fun r => r.1 == FriendlyName) := by
            rw [hF]
            exact List.mem_cons_self _ _
          rw [List.mem_filter] at hq
          exact ⟨q, hq.1, by simpa using hq.2⟩
      obtain ⟨q, hq, hqName⟩ := hMem
      intro r hr hCI
      have hAll := StaticRegistrations_names
      rw [List.all_eq_true] at hAll
      have hRow := hAll r hr
      rw [List.all_eq_true] at hRow
      have hCell := hRow q hq
      rw [hqName, hCI] at hCell
      simpa using hCell
  refine ⟨?_, ?_, ?_, by decide, by decide, by decide, by decide⟩
  · intro c h
    refine ⟨hLast c h, ?_⟩
    simp only [ResolveNodeType, ResolveIn, hLast c h]
  · intro c h
    apply hLast
    rw [h]
    rfl
  · intro pre c d h
    apply hLast
    rw [h]
    simp

/-- With both `PCGMergeSettings` and `PCGUnionSettings` in the type universe `Union`
is the later `PCGUnionSettings`; with `PCGMergeSettings` alone it is that class. -/
theorem duplicate_static_registrations_witness :
    (GetNodeTypeRegistry UnionEngine).Find "Union" = some UnionSettingsClass ∧
    (GetNodeTypeRegistry MergeEngine).Find "Union" = some MergeSettingsClass :=
  ⟨(duplicate_static_registrations UnionEngine "Union").2.2.1 []
      MergeSettingsClass UnionSettingsClass rfl,
   (duplicate_static_registrations MergeEngine "Union").2.1 MergeSettingsClass rfl⟩

end FPCGNodeManager

/-! ## Assign Graph -/

namespace FPCGParameterManager

/-- C22 (counterexample). A request that supplies both `actor_name` and
`blueprint_name` is accepted: the graph is assigned to the component of the actor. -/
theorem assign_with_both_targets_accepted :
    FJsonObject.TryGetStringField AssignBothRequest "actor_name" = some "Rock" ∧
    FJsonObject.TryGetStringField AssignBothRequest "blueprint_name" = some "BP_Forest" ∧
    AssignPCGGraph AssignEngine AssignBothRequest
      = ⟨[ ("success", .Boolean true), ("graph_path", .Str "/Game/PCG/Sample"),
           ("assigned_to_actor", .Str "Rock") ], some ⟨7⟩⟩ :=
  ⟨rfl, rfl, rfl⟩

/-- C22 (as the code has it). For a request whose graph resolves: when it supplies
neither `actor_name` nor `blueprint_name` the call fails with the message "Must
provide either 'actor_name' or 'blueprint_name' parameter" and no component
receives the graph; a call that is accepted supplied at least one of the two. -/
theorem AssignPCGGraph_target_selection (E : FEngine) (Params : FJsonObject)
    (GraphPath : String) (Graph : UPCGGraph)
    (hPath : FJsonObject.TryGetStringField Params "graph_path" = some GraphPath)
    (hLoad : FPCGGraphCreator.LoadPCGGraph E GraphPath = some Graph) :
    (FJsonObject.TryGetStringField Params "actor_name" = none →
      FJsonObject.TryGetStringField Params "blueprint_name" = none →
      AssignPCGGraph E Params
        = ⟨CreateErrorResponse "Must provide either 'actor_name' or 'blueprint_name' parameter",
           none⟩) ∧
    (IsErrorResponse (AssignPCGGraph E Params).Response = false →
      (FJsonObject.TryGetStringField Params "actor_name").isSome = true ∨
      (FJsonObject.TryGetStringField Params "blueprint_name").isSome = true) ∧
    ((AssignPCGGraph E Params).AssignedTo.isSome = true →
      (FJsonObject.TryGetStringField Params "actor_name").isSome = true ∨
      (FJsonObject.TryGetStringField Params "blueprint_name").isSome = true) := by
  have hNeither : FJsonObject.TryGetStringField Params "actor_name" = none →
      FJsonObject.TryGetStringField Params "blueprint_name" = none →
      AssignPCGGraph E Params
        = ⟨CreateErrorResponse "Must provide either 'actor_name' or 'blueprint_name' parameter",
           none⟩ := by
    intro hA hB
    simp only [AssignPCGGraph, hPath, hLoad, hA, hB]
  refine ⟨hNeither, ?_, ?_⟩
  · intro hOk
    rcases hA : FJsonObject.TryGetStringField Params "actor_name" with _ | A
    · rcases hB : FJsonObject.TryGetStringField Params "blueprint_name" with _ | B
      · rw [hNeither hA hB] at hOk
        cases hOk
      · exact Or.inr rfl
    · exact Or.inl rfl
  · intro hSet
    rcases hA : FJsonObject.TryGetStringField Params "actor_name" with _ | A
    · rcases hB : FJsonObject.TryGetStringField Params "blueprint_name" with _ | B
      · rw [hNeither hA hB] at hSet
        cases hSet
      · exact Or.inr rfl
    · exact Or.inl rfl

/-- On the sample world the request that names neither target fails with the message. -/
theorem AssignPCGGraph_target_selection_witness :
    AssignPCGGraph AssignEngine AssignNeitherRequest
      = ⟨CreateErrorResponse "Must provide either 'actor_name' or 'blueprint_name' parameter",
         none⟩ :=
  (AssignPCGGraph_target_selection AssignEngine AssignNeitherRequest "/Game/PCG/Sample"
    EmptyGraph rfl rfl).1 rfl rfl

/-- C29. Assign Graph with both targets. For a request whose graph resolves and
that supplies `actor_name`, the result is decided on the actor alone: no editor
world, no actor of that label or name, an actor without graph component, each an
error that assigns nothing, or success with `assigned_to_actor` and the component of
the first matching actor (label and name are compared ignoring case). It is the same
for every request with the same graph path and actor name, with or without
`blueprint_name`, and the same whatever the blueprint lookup of the engine would
return. -/
theorem AssignPCGGraph_actor_first (E : FEngine) (Params : FJsonObject)
    (GraphPath ActorName : String) (Graph : UPCGGraph)
    (hPath : FJsonObject.TryGetStringField Params "graph_path" = some GraphPath)
    (hLoad : FPCGGraphCreator.LoadPCGGraph E GraphPath = some Graph)
    (hActor : FJsonObject.TryGetStringField Params "actor_name" = some ActorName) :
    (∀ Other : FJsonObject,
      FJsonObject.TryGetStringField Other "graph_path" = some GraphPath →
      FJsonObject.TryGetStringField Other "actor_name" = some ActorName →
      AssignPCGGraph E Other = AssignPCGGraph E Params) ∧
    (∀ Lookup : String → Option UBlueprint,
      AssignPCGGraph { E with FindBlueprint := Lookup } Params = AssignPCGGraph E Params) ∧
    (E.EditorWorldActors = none →
      AssignPCGGraph E Params = ⟨CreateErrorResponse "No editor world available", none⟩) ∧
    (∀ Actors, E.EditorWorldActors = some Actors →
      Actors.find? (fun It => FString.EqualsIgnoreCase It.ActorLabel ActorName ||
          FString.EqualsIgnoreCase It.Name ActorName) = none →
      AssignPCGGraph E Params
        = ⟨CreateErrorResponse ("Could not find actor '" ++ ActorName ++ "' in the level"),
           none⟩) ∧
    (∀ Actors FoundActor, E.EditorWorldActors = some Actors →
      Actors.find? (fun It => FString.EqualsIgnoreCase It.ActorLabel ActorName ||
          FString.EqualsIgnoreCase It.Name ActorName)
        = some FoundActor →
      FoundActor.PCGComponent = none →
      AssignPCGGraph E Params
        = ⟨CreateErrorResponse ("Actor '" ++ ActorName ++ "' does not have a PCGComponent"),
           none⟩) ∧
    (∀ Actors FoundActor PCGComp, E.EditorWorldActors = some Actors →
      Actors.find? (fun It => FString.EqualsIgnoreCase It.ActorLabel ActorName ||
          FString.EqualsIgnoreCase It.Name ActorName)
        = some FoundActor →
      FoundActor.PCGComponent = some PCGComp →
      AssignPCGGraph E Params
        = ⟨[ ("success", .Boolean true), ("graph_path", .Str GraphPath),
             ("assigned_to_actor", .Str ActorName) ], some PCGComp⟩) := by
  refine ⟨?_, ?_, ?_, ?_, ?_, ?_⟩
  · intro Other hP hA
    simp only [AssignPCGGraph, hPath, hLoad, hActor, hP, hA]
  · intro Lookup
    have hLoad2 : FPCGGraphCreator.LoadPCGGraph { E with FindBlueprint := Lookup } GraphPath
        = some Graph := hLoad
    simp only [AssignPCGGraph, hPath, hLoad, hLoad2, hActor]
  · intro hWorld
    simp only [AssignPCGGraph, hPath, hLoad, hActor, hWorld]
  · intro Actors hWorld hFind
    simp only [AssignPCGGraph, hPath, hLoad, hActor, hWorld, hFind]
  · intro Actors FoundActor hWorld hFind hComp
    simp only [AssignPCGGraph, hPath, hLoad, hActor, hWorld, hFind, hComp]
  · intro Actors FoundActor PCGComp hWorld hFind hComp
    simp only [AssignPCGGraph, hPath, hLoad, hActor, hWorld, hFind, hComp]

/-- On the sample world: with the actor `Rock` and the blueprint `BP_Forest` both
named, the result is that of the request naming `Rock` alone; with an actor that is
not in the level the call fails on the actor although the blueprint exists. -/
theorem AssignPCGGraph_actor_first_witness :
    AssignPCGGraph AssignEngine AssignActorRequest
      = AssignPCGGraph AssignEngine AssignBothRequest ∧
    AssignPCGGraph AssignEngine AssignMissingActorRequest
      = ⟨CreateErrorResponse "Could not find actor 'Tree' in the level", none⟩ :=
  ⟨(AssignPCGGraph_actor_first AssignEngine AssignBothRequest "/Game/PCG/Sample" "Rock"
      EmptyGraph rfl rfl rfl).1 AssignActorRequest rfl rfl,
   (AssignPCGGraph_actor_first AssignEngine AssignMissingActorRequest "/Game/PCG/Sample"
      "Tree" EmptyGraph rfl rfl rfl).2.2.2.1 _ rfl rfl⟩

end FPCGParameterManager

/-! ## Field lookup -/

namespace FPCGNodePropertyManager

end FPCGNodePropertyManager

/-! ## List field discovery -/

theorem FString.Contains_append_left (pre s sub : String)
    (h : FString.Contains s sub = true) : FString.Contains (pre ++ s) sub = true := by
  unfold FString.Contains at h ⊢
  rw [String.data_append]
  exact FString.ContainsChars_append_left _ _ _ h

namespace FPCGNodePropertyManager

theorem DescribeArrays_cons (Count : Nat) (Property : FProperty) (Rest : List FProperty) :
    DescribeArrays Count (Property :: Rest)
      = (if Count > 0 then ", " else "") ++ AnnotatedArrayName Property ++
          DescribeArrays (Count + 1) Rest := by
  simp only [DescribeArrays, AnnotatedArrayName]
  cases ArrayInnerStruct Property <;> simp only [String.append_assoc]

/-- The diagnostic names every list field, with its annotation. -/
theorem DescribeArrays_names (Arrays : List FProperty) (Count : Nat) (Property : FProperty)
    (h : Property ∈ Arrays) :
    FString.Contains (DescribeArrays Count Arrays) (AnnotatedArrayName Property) = true := by
  induction Arrays generalizing Count with
  | nil => cases h
  | cons First Rest ih =>
    rw [DescribeArrays_cons]
    rcases List.mem_cons.mp h with hEq | hRest
    · subst hEq
      exact FString.Contains_middle _ _ _
    · exact FString.Contains_append_left _ _ _ (ih (Count + 1) hRest)

theorem qualifies_step (Q : FProperty) (hQ : QualifiesAsMeshArray Q = false) :
    (match ArrayInnerStruct Q with
      | some S => if IsMeshEntryStructName S.GetName then some (Q, S) else none
      | none => none) = none := by
  unfold QualifiesAsMeshArray at hQ
  rcases hS : ArrayInnerStruct Q with _ | S
  · rfl
  · simp only [hS] at hQ
    simp only [hQ, Bool.false_eq_true, if_false]

theorem findSome_mesh_array_first (pre post : List FProperty)
    (Property : FProperty) (Struct : UScriptStruct)
    (hPre : ∀ Q ∈ pre, QualifiesAsMeshArray Q = false)
    (hInner : ArrayInnerStruct Property = some Struct)
    (hName : IsMeshEntryStructName Struct.GetName = true) :
    (pre ++ Property :: post).findSome? (fun Q =>
      match ArrayInnerStruct Q with
      | some S => if IsMeshEntryStructName S.GetName then some (Q, S) else none
      | none => none) = some (Property, Struct) := by
  induction pre with
  | nil => simp only [List.nil_append, List.findSome?_cons, hInner, hName, if_true]
  | cons Q rest ih =>
    simp only [List.cons_append, List.findSome?_cons]
    rw [qualifies_step Q (hPre Q (List.mem_cons_self _ _))]
    exact ih (fun R hR => hPre R (List.mem_cons_of_mem _ hR))

theorem findSome_mesh_array_none (Arrays : List FProperty)
    (hAll : ∀ Q ∈ Arrays, QualifiesAsMeshArray Q = false) :
    Arrays.findSome? (fun Q =>
      match ArrayInnerStruct Q with
      | some S => if IsMeshEntryStructName S.GetName then some (Q, S) else none
      | none => none) = none := by
  induction Arrays with
  | nil => rfl
  | cons Q rest ih =>
    simp only [List.findSome?_cons]
    rw [qualifies_step Q (hAll Q (List.mem_cons_self _ _))]
    exact ih (fun R hR => hAll R (List.mem_cons_of_mem _ hR))

theorem FindMeshArrayProperty_first (Fields : List FProperty) (pre post : List FProperty)
    (Property : FProperty) (Struct : UScriptStruct)
    (hSplit : ArrayProperties Fields = pre ++ Property :: post)
    (hPre : ∀ Q ∈ pre, QualifiesAsMeshArray Q = false)
    (hInner : ArrayInnerStruct Property = some Struct)
    (hName : IsMeshEntryStructName Struct.GetName = true) :
    FindMeshArrayProperty Fields = some (Property, Struct) := by
  unfold FindMeshArrayProperty
  rw [hSplit]
  exact findSome_mesh_array_first pre post Property Struct hPre hInner hName

theorem FindMeshArrayProperty_none (Fields : List FProperty)
    (hAll : ∀ Q ∈ ArrayProperties Fields, QualifiesAsMeshArray Q = false) :
    FindMeshArrayProperty Fields = none := by
  unfold FindMeshArrayProperty
  exact findSome_mesh_array_none _ hAll

end FPCGNodePropertyManager

namespace FPCGNodePropertyManager

/-- C25 (counterexample). The only list field of the settings of `Upper_0` has
elements of the struct `PCGMESHENTRY`, a type name that contains none of
`MeshSpawnerEntry`, `WeightedMesh`, `MeshEntry`; the call is no error: the field is
selected, one entry is stored and the result reports the field and the struct. -/
theorem upper_case_struct_name_selected :
    FString.Contains "PCGMESHENTRY" "MeshSpawnerEntry" = false ∧
    FString.Contains "PCGMESHENTRY" "WeightedMesh" = false ∧
    FString.Contains "PCGMESHENTRY" "MeshEntry" = false ∧
    (SetSpawnerEntries (SampleEngine UpperGraph []) UpperEntriesRequest).Response
      = [ ("success", .Boolean true), ("node_id", .Str "Upper_0"),
          ("entry_count", .Number 1), ("array_property", .Str "Entries"),
          ("entry_struct", .Str "PCGMESHENTRY") ] := by
  refine ⟨by decide, by decide, by decide, rfl⟩

/-- C25 (as the code has it). List field discovery. The list fields of the settings
class are its list-valued fields in reflection order. A struct name is recognised
when it contains `MeshSpawnerEntry`, `WeightedMesh` or `MeshEntry` ignoring case.
When one of the list fields has a struct element type with a recognised name and no
list field before it has, `SetSpawnerEntries` takes that field: the call succeeds
and reports the name of the field as `array_property` and the name of its element
struct as `entry_struct`. When no list field qualifies the call returns the error
that lists the list fields, in which every list field is named, followed by its
element type name in brackets when that is a struct, and the graph is left as
loaded. -/
theorem SetSpawnerEntries_list_discovery (E : FEngine) (Params : FJsonObject)
    (GraphPath NodeId : String) (EntriesArray : List FJsonValue) (Graph : UPCGGraph)
    (Node : UPCGNode) (Settings : UPCGSettings)
    (hPath : Params.TryGetStringField "graph_path" = some GraphPath)
    (hId : Params.TryGetStringField "node_id" = some NodeId)
    (hEntries : Params.TryGetArrayField "entries" = some EntriesArray)
    (hLoad : FPCGGraphCreator.LoadPCGGraph E GraphPath = some Graph)
    (hFind : FPCGNodeManager.FindNodeByName Graph NodeId = some Node)
    (hSettings : Node.Settings = some Settings) :
    (ArrayProperties Settings.Class.Properties).Sublist Settings.Class.Properties ∧
    (∀ Property, Property ∈ ArrayProperties Settings.Class.Properties ↔
      Property ∈ Settings.Class.Properties ∧ ∃ Inner, Property.Kind = .FArrayProperty Inner) ∧
    (∀ pre Property post Struct,
      ArrayProperties Settings.Class.Properties = pre ++ Property :: post →
      (∀ Q ∈ pre, QualifiesAsMeshArray Q = false) →
      ArrayInnerStruct Property = some Struct →
      IsMeshEntryStructName Struct.GetName = true →
      IsErrorResponse (SetSpawnerEntries E Params).Response = false ∧
      FJsonObject.TryGetField (SetSpawnerEntries E Params).Response "array_property"
        = some (.Str Property.GetName) ∧
      FJsonObject.TryGetField (SetSpawnerEntries E Params).Response "entry_struct"
        = some (.Str Struct.GetName)) ∧
    ((∀ Q ∈ ArrayProperties Settings.Class.Properties, QualifiesAsMeshArray Q = false) →
      SetSpawnerEntries E Params
        = ⟨CreateErrorResponse ("Node '" ++ NodeId ++ "' (class: " ++ Settings.Class.Name ++
            ") does not appear to be a StaticMeshSpawner. Available array properties: " ++
            DescribeArrays 0 (ArrayProperties Settings.Class.Properties)), some Graph⟩ ∧
      ∀ Q ∈ ArrayProperties Settings.Class.Properties,
        FString.Contains (DescribeArrays 0 (ArrayProperties Settings.Class.Properties))
          (AnnotatedArrayName Q) = true) ∧
    (∀ StructName, IsMeshEntryStructName StructName = true ↔
      (FString.ContainsIgnoreCase StructName "MeshSpawnerEntry" = true ∨
       FString.ContainsIgnoreCase StructName "WeightedMesh" = true ∨
       FString.ContainsIgnoreCase StructName "MeshEntry" = true)) ∧
    (∀ Property, QualifiesAsMeshArray Property = true ↔
      ∃ Struct, ArrayInnerStruct Property = some Struct ∧
        IsMeshEntryStructName Struct.GetName = true) := by
  refine ⟨List.filter_sublist _, ?_, ?_, ?_, ?_, ?_⟩
  · intro Property
    unfold ArrayProperties
    rw [List.mem_filter]
    constructor
    · rintro ⟨hMem, hKind⟩
      refine ⟨hMem, ?_⟩
      split at hKind
      · rename_i Inner hK
        exact ⟨Inner, hK⟩
      · cases hKind
    · rintro ⟨hMem, Inner, hK⟩
      refine ⟨hMem, ?_⟩
      simp only [hK]
  · intro pre Property post Struct hSplit hPre hInner hName
    have hList := FindMeshArrayProperty_first Settings.Class.Properties pre post Property
      Struct hSplit hPre hInner hName
    simp only [SetSpawnerEntries, hPath, hId, hEntries, hLoad, hFind, hSettings, hList]
    exact ⟨rfl, rfl, rfl⟩
  · intro hAll
    have hList := FindMeshArrayProperty_none Settings.Class.Properties hAll
    refine ⟨?_, fun Q hQ => DescribeArrays_names _ 0 Q hQ⟩
    simp only [SetSpawnerEntries, hPath, hId, hEntries, hLoad, hFind, hSettings, hList]
  · intro StructName
    simp only [IsMeshEntryStructName, Bool.or_eq_true, or_assoc]
  · intro Property
    unfold QualifiesAsMeshArray
    rcases ArrayInnerStruct Property with _ | Struct
    · simp
    · simp

/-- On the node `Tags_0`, whose settings have the list fields `Tags` (of names) and
`Offsets` (of vectors), the call fails and the message lists `Tags, Offsets(Vector)`;
the list `Tags` keeps its element. On the node `Upper_0` the list field `Entries`,
whose element struct is `PCGMESHENTRY`, is selected. -/
theorem SetSpawnerEntries_list_discovery_witness :
    SetSpawnerEntries (SampleEngine TagsGraph []) TagsEntriesRequest
      = ⟨CreateErrorResponse ("Node 'Tags_0' (class: PCGTagsSettings) does not appear to " ++
          "be a StaticMeshSpawner. Available array properties: Tags, Offsets(Vector)"),
         some TagsGraph⟩ ∧
    FJsonObject.TryGetField
      (SetSpawnerEntries (SampleEngine UpperGraph []) UpperEntriesRequest).Response
      "array_property" = some (.Str "Entries") :=
  ⟨((SetSpawnerEntries_list_discovery (SampleEngine TagsGraph []) TagsEntriesRequest
      "/Game/PCG/Sample" "Tags_0" _ TagsGraph TagsNode
      ⟨TagsClass, [("Tags", .Array [.Name "Rock"])]⟩
      rfl rfl rfl rfl rfl rfl).2.2.2.1 (by decide)).1.trans (by
        rw [FOutcome.mk.injEq]
        exact ⟨congrArg CreateErrorResponse (by decide), rfl⟩),
   ((SetSpawnerEntries_list_discovery (SampleEngine UpperGraph []) UpperEntriesRequest
      "/Game/PCG/Sample" "Upper_0" _ UpperGraph
      ⟨9, "Upper_0", 0, 0, some ⟨UpperSpawnerClass, []⟩, [⟨91, "In", []⟩], [⟨92, "Out", []⟩]⟩
      ⟨UpperSpawnerClass, []⟩ rfl rfl rfl rfl rfl rfl).2.2.1 []
        (.mk "Entries" "TArray<FPCGMESHENTRY>" true
          (.FArrayProperty (.mk "Entries" "FPCGMESHENTRY" true
            (.FStructProperty UpperEntryStruct)))) [] UpperEntryStruct rfl
        (fun _ h => by cases h) rfl (by decide)).2.1⟩

end FPCGNodePropertyManager

/-! ## Weights of list entries -/

namespace FPCGNodePropertyManager

end FPCGNodePropertyManager

namespace FPCGNodePropertyManager

end FPCGNodePropertyManager

/-! ## Leaf coercion under a dot-path -/

namespace FPCGNodePropertyManager

/-- C23 (counterexample). A vector field and the JSON array `[1, 2, 3]`: whatever
the engine, the direct write succeeds with tag `Vector` and stores the components,
while the leaf writer of dot-paths fails on the same field and writes nothing. A
64-bit int field and the JSON number 5: whatever the engine, the direct write stores
5 with tag `Int64`, while the leaf writer never reports that tag; with an engine
whose text import reads decimal integers it stores 5 with the tag `int64`. An enum
field and the JSON string `2`, which names no value of the enum: the direct write
stores the ordinal 2 with tag `Enum(ELevel)`, the leaf writer fails. -/
theorem typed_leaf_counterexample :
    (∀ E : FEngine,
      SetPropertyValue E OffsetStruct.Fields [] "Offset" (.Array [.Number 1, .Number 2, .Number 3])
        = ⟨true, [("Offset", .Struct [("X", .Double 1), ("Y", .Double 2), ("Z", .Double 3)])],
           "Vector"⟩ ∧
      SetStructPropertyValue E OffsetStruct [] [] "Offset"
        (.Array [.Number 1, .Number 2, .Number 3]) = ⟨false, [], ""⟩) ∧
    (∀ E : FEngine,
      SetPropertyValue E CounterStruct.Fields [] "Count" (.Number 5)
        = ⟨true, [("Count", .Int64 5)], "Int64"⟩ ∧
      (SetStructPropertyValue E CounterStruct [] [] "Count" (.Number 5)).PropertyType
        ≠ "Int64") ∧
    SetStructPropertyValue ImportEngine CounterStruct [] [] "Count" (.Number 5)
      = ⟨true, [("Count", .Int64 5)], "int64"⟩ ∧
    SetPropertyValue (SampleEngine EmptyGraph []) EnumFields [] "Mode" (.Str "2")
      = ⟨true, [("Mode", .Enum 2)], "Enum(ELevel)"⟩ ∧
    SetStructPropertyValue (SampleEngine EmptyGraph []) (.mk "Levels" none EnumFields) [] []
      "Mode" (.Str "2") = ⟨false, [], ""⟩ := by
  refine ⟨fun E => ⟨rfl, rfl⟩, fun E => ⟨rfl, ?_⟩, rfl, rfl, rfl⟩
  have h : SetStructPropertyValue E CounterStruct [] [] "Count" (.Number 5)
      = match E.ImportText CountProperty "5" with
        | some Value => ⟨true, [("Count", Value)], "int64"⟩
        | none => ⟨false, [], ""⟩ := rfl
  rw [h]
  rcases E.ImportText CountProperty "5" with _ | Value
  · show "" ≠ "Int64"
    decide
  · show "int64" ≠ "Int64"
    decide

end FPCGNodePropertyManager

namespace FPCGNodePropertyManager

/-- On a field of a shared leaf kind both writers compute the same outcome. -/
theorem shared_leaf_outcome (E : FEngine) (Fields : List FProperty) (Memory : FMemory)
    (Struct : UScriptStruct) (Root : FMemory) (StructPtr : List String)
    (ObjectName LeafName : String) (JsonValue : FJsonValue) (Property : FProperty)
    (hObject : FindProperty Fields ObjectName = some Property)
    (hLeaf : FindProperty Struct.Fields LeafName = some Property)
    (hKind : IsSharedLeafKind Property.Kind = true) :
    ∃ Outcome : Option (FValue × String),
      SetPropertyValue E Fields Memory ObjectName JsonValue
        = FSetResult.OfOutcome Memory (fun Value => Memory.Write Property.GetName Value)
            Outcome ∧
      SetStructPropertyValue E Struct Root StructPtr LeafName JsonValue
        = FSetResult.OfOutcome Root
            (fun Value => Root.WritePath StructPtr Property.GetName Value) Outcome := by
  rcases hK : Property.Kind with _ | _ | _ | _ | _ | _ | _ | Enum | _ | _ | _ | _ | _ | _
  all_goals first
    | (rw [hK] at hKind; cases hKind; done)
    | skip
  all_goals simp only [SetPropertyValue, SetStructPropertyValue, hObject, hLeaf, hK]
  case FByteProperty =>
    rcases Enum with _ | Enum
    · rcases hS : JsonValue.TryGetString with _ | s
      · rcases hN : JsonValue.TryGetNumber with _ | n <;>
        first
          | exact ⟨none, rfl, rfl⟩
          | exact ⟨some (_, _), rfl, rfl⟩
      · rcases hN : JsonValue.TryGetNumber with _ | n <;>
        rcases hI : E.ImportText Property s with _ | v <;>
        (try simp only [hI]) <;>
        first
          | exact ⟨none, rfl, rfl⟩
          | exact ⟨some (_, _), rfl, rfl⟩
    · rcases hS : JsonValue.TryGetString with _ | s
      · rcases hN : JsonValue.TryGetNumber with _ | n <;>
        first
          | exact ⟨none, rfl, rfl⟩
          | exact ⟨some (_, _), rfl, rfl⟩
      · by_cases hE : Enum.GetValueByNameString s = INDEX_NONE <;>
        rcases hN : JsonValue.TryGetNumber with _ | n <;>
        rcases hI : E.ImportText Property s with _ | v <;>
        simp only [hE, ne_eq, not_true_eq_false, not_false_eq_true, if_false, if_true] <;>
        (try simp only [hI]) <;>
        first
          | exact ⟨none, rfl, rfl⟩
          | exact ⟨some (_, _), rfl, rfl⟩
  all_goals
    rcases hS : JsonValue.TryGetString with _ | s
    · rcases hN : JsonValue.TryGetNumber with _ | n <;>
      rcases hB : JsonValue.TryGetBool with _ | b <;>
      first
        | exact ⟨none, rfl, rfl⟩
        | exact ⟨some (_, _), rfl, rfl⟩
    · rcases hN : JsonValue.TryGetNumber with _ | n <;>
      rcases hB : JsonValue.TryGetBool with _ | b <;>
      rcases hI : E.ImportText Property s with _ | v <;>
      (try simp only [hI]) <;>
      first
        | exact ⟨none, rfl, rfl⟩
        | exact ⟨some (_, _), rfl, rfl⟩

/-- On an enum field both writers compute the same outcome for a JSON value that
names a symbolic value of the enum or has no reading as a number, and for every
JSON value when the field has no enum or no underlying numeric field. -/
theorem enum_leaf_outcome (E : FEngine) (Fields : List FProperty) (Memory : FMemory)
    (Struct : UScriptStruct) (Root : FMemory) (StructPtr : List String)
    (ObjectName LeafName : String) (JsonValue : FJsonValue) (Property : FProperty)
    (Enum : Option UEnum) (UnderlyingProp : Option ENumericType)
    (hObject : FindProperty Fields ObjectName = some Property)
    (hLeaf : FindProperty Struct.Fields LeafName = some Property)
    (hKind : Property.Kind = .FEnumProperty Enum UnderlyingProp)
    (hValue : JsonValue.TryGetNumber = none ∨ Enum = none ∨ UnderlyingProp = none ∨
      ∃ Named, Enum = some Named ∧ NamesEnumValue Named JsonValue = true) :
    ∃ Outcome : Option (FValue × String),
      SetPropertyValue E Fields Memory ObjectName JsonValue
        = FSetResult.OfOutcome Memory (fun Value => Memory.Write Property.GetName Value)
            Outcome ∧
      SetStructPropertyValue E Struct Root StructPtr LeafName JsonValue
        = FSetResult.OfOutcome Root
            (fun Value => Root.WritePath StructPtr Property.GetName Value) Outcome := by
  simp only [SetPropertyValue, SetStructPropertyValue, hObject, hLeaf, hKind]
  rcases Enum with _ | En
  · rcases hS : JsonValue.TryGetString with _ | s
    · exact ⟨none, rfl, rfl⟩
    · rcases hI : E.ImportText Property s with _ | v
      · simp only [hI]
        exact ⟨none, rfl, rfl⟩
      · simp only [hI]
        exact ⟨some (_, _), rfl, rfl⟩
  · have hValue2 : JsonValue.TryGetNumber = none ∨ UnderlyingProp = none ∨
        NamesEnumValue En JsonValue = true := by
      rcases hValue with h | h | h | ⟨Named, hNamed, h⟩
      · exact Or.inl h
      · cases h
      · exact Or.inr (Or.inl h)
      · cases hNamed
        exact Or.inr (Or.inr h)
    simp only [NamesEnumValue] at hValue2
    rcases hS : JsonValue.TryGetString with _ | s
    · rcases hN : JsonValue.TryGetNumber with _ | n
      · exact ⟨none, rfl, rfl⟩
      · rcases UnderlyingProp with _ | u
        · exact ⟨none, rfl, rfl⟩
        · simp [hS, hN] at hValue2
    · simp only [hS] at hValue2
      by_cases hE : En.GetValueByNameString s = INDEX_NONE
      · simp only [hE, ne_eq, not_true_eq_false, if_false]
        rcases hN : JsonValue.TryGetNumber with _ | n
        · rcases hI : E.ImportText Property s with _ | v
          · simp only [hI]
            exact ⟨none, rfl, rfl⟩
          · simp only [hI]
            exact ⟨some (_, _), rfl, rfl⟩
        · rcases UnderlyingProp with _ | u
          · rcases hI : E.ImportText Property s with _ | v
            · simp only [hI]
              exact ⟨none, rfl, rfl⟩
            · simp only [hI]
              exact ⟨some (_, _), rfl, rfl⟩
          · simp [hN, hE] at hValue2
      · simp only [hE, ne_eq, not_false_eq_true, if_true]
        rcases UnderlyingProp with _ | u
        · rcases hN : JsonValue.TryGetNumber with _ | n
          · rcases hI : E.ImportText Property s with _ | v
            · simp only [hI]
              exact ⟨none, rfl, rfl⟩
            · simp only [hI]
              exact ⟨some (_, _), rfl, rfl⟩
          · rcases hI : E.ImportText Property s with _ | v
            · simp only [hI]
              exact ⟨none, rfl, rfl⟩
            · simp only [hI]
              exact ⟨some (_, _), rfl, rfl⟩
        · exact ⟨some (_, _), rfl, rfl⟩

/-- On an enum field with an enum and an underlying numeric field, for a JSON value
that reads as a number and names no symbolic value, the direct write stores the
number as the ordinal and the leaf writer of dot-paths is the text import. -/
theorem enum_leaf_difference (E : FEngine) (Fields : List FProperty) (Memory : FMemory)
    (Struct : UScriptStruct) (Root : FMemory) (StructPtr : List String)
    (ObjectName LeafName : String) (JsonValue : FJsonValue) (Property : FProperty)
    (Enum : UEnum) (Underlying : ENumericType) (NumValue : ℚ)
    (hObject : FindProperty Fields ObjectName = some Property)
    (hLeaf : FindProperty Struct.Fields LeafName = some Property)
    (hKind : Property.Kind = .FEnumProperty (some Enum) (some Underlying))
    (hNumber : JsonValue.TryGetNumber = some NumValue)
    (hName : NamesEnumValue Enum JsonValue = false) :
    SetPropertyValue E Fields Memory ObjectName JsonValue
      = ⟨true, Memory.Write Property.GetName (.Enum (Underlying.Store (CastInt64 NumValue))),
         EnumTypeName Enum⟩ ∧
    SetStructPropertyValue E Struct Root StructPtr LeafName JsonValue
      = FSetResult.OfOutcome Root
          (fun Value => Root.WritePath StructPtr Property.GetName Value)
          (TextImport E Property JsonValue) := by
  simp only [SetPropertyValue, SetStructPropertyValue, hObject, hLeaf, hKind, TextImport,
    hNumber]
  simp only [NamesEnumValue] at hName
  rcases hS : JsonValue.TryGetString with _ | s
  · exact ⟨rfl, rfl⟩
  · simp only [hS, bne_eq_false_iff_eq] at hName
    simp only [hName, ne_eq, not_true_eq_false, if_false]
    rcases hI : E.ImportText Property s with _ | v
    · simp only [hI]
      exact ⟨trivial, rfl⟩
    · simp only [hI]
      exact ⟨trivial, rfl⟩

/-- On a field kind without typed coercion the leaf writer of dot-paths is the text
import. -/
theorem text_only_leaf (E : FEngine) (Struct : UScriptStruct) (Root : FMemory)
    (StructPtr : List String) (LeafName : String) (JsonValue : FJsonValue)
    (Property : FProperty)
    (hLeaf : FindProperty Struct.Fields LeafName = some Property)
    (hKind : IsTextOnlyLeafKind Property.Kind = true) :
    SetStructPropertyValue E Struct Root StructPtr LeafName JsonValue
      = FSetResult.OfOutcome Root
          (fun Value => Root.WritePath StructPtr Property.GetName Value)
          (TextImport E Property JsonValue) := by
  rcases hK : Property.Kind with _ | _ | _ | _ | _ | _ | _ | Enum | _ | _ | _ | _ | _ | _
  all_goals first
    | (rw [hK] at hKind; cases hKind; done)
    | skip
  all_goals
    simp only [SetStructPropertyValue, hLeaf, hK, TextImport]
    rcases hS : JsonValue.TryGetString with _ | s
    · rfl
    · rcases hI : E.ImportText Property s with _ | v <;> simp only [hI] <;> rfl

end FPCGNodePropertyManager

namespace FPCGNodePropertyManager

/-- C23 (as the code has it). For a field found by both writers, one as a top-level
field and one as the leaf of a dot-path. On the kinds bool, 32-bit int, 32-bit
float, 64-bit float, string, symbol and byte (with or without enum), for every JSON
value, and on an enum field for every JSON value that names a symbolic value of the
enum or has no reading as a number (and for every JSON value when the field has no
enum or no underlying numeric field), both writers have the same outcome: both fail
and leave their memory, or both succeed, store the same value in the field and
report the same type tag. On an enum field with an enum and an underlying numeric
field, a JSON value that reads as a number and names no symbolic value is stored as
the ordinal by the direct write, with tag `Enum(<enum name>)`, while the leaf writer
of dot-paths is the text import. On a 64-bit int, struct (vector, rotation,
transform, soft path, other) or soft reference field the leaf writer of dot-paths
has no typed coercion: it stores what the text import of the text reading of the
JSON value gives, tagged with the C++ type of the field, and fails when there is no
text reading or the import fails. -/
theorem leaf_coercion_under_dot_path (E : FEngine) (Fields : List FProperty)
    (Memory : FMemory) (Struct : UScriptStruct) (Root : FMemory) (StructPtr : List String)
    (ObjectName LeafName : String) (JsonValue : FJsonValue) (Property : FProperty)
    (hObject : FindProperty Fields ObjectName = some Property)
    (hLeaf : FindProperty Struct.Fields LeafName = some Property) :
    (IsSharedLeafKind Property.Kind = true ∨
      (∃ Enum UnderlyingProp, Property.Kind = .FEnumProperty Enum UnderlyingProp ∧
        (JsonValue.TryGetNumber = none ∨ Enum = none ∨ UnderlyingProp = none ∨
          ∃ Named, Enum = some Named ∧ NamesEnumValue Named JsonValue = true)) →
      ∃ Outcome : Option (FValue × String),
        SetPropertyValue E Fields Memory ObjectName JsonValue
          = FSetResult.OfOutcome Memory (fun Value => Memory.Write Property.GetName Value)
              Outcome ∧
        SetStructPropertyValue E Struct Root StructPtr LeafName JsonValue
          = FSetResult.OfOutcome Root
              (fun Value => Root.WritePath StructPtr Property.GetName Value) Outcome) ∧
    (∀ Enum Underlying NumValue,
      Property.Kind = .FEnumProperty (some Enum) (some Underlying) →
      JsonValue.TryGetNumber = some NumValue →
      NamesEnumValue Enum JsonValue = false →
      SetPropertyValue E Fields Memory ObjectName JsonValue
        = ⟨true,
           Memory.Write Property.GetName (.Enum (Underlying.Store (CastInt64 NumValue))),
           EnumTypeName Enum⟩ ∧
      SetStructPropertyValue E Struct Root StructPtr LeafName JsonValue
        = FSetResult.OfOutcome Root
            (fun Value => Root.WritePath StructPtr Property.GetName Value)
            (TextImport E Property JsonValue)) ∧
    (IsTextOnlyLeafKind Property.Kind = true →
      SetStructPropertyValue E Struct Root StructPtr LeafName JsonValue
        = FSetResult.OfOutcome Root
            (fun Value => Root.WritePath StructPtr Property.GetName Value)
            (TextImport E Property JsonValue)) := by
  refine ⟨?_, ?_, ?_⟩
  · rintro (hShared | ⟨Enum, UnderlyingProp, hEnum, hValue⟩)
    · exact shared_leaf_outcome E Fields Memory Struct Root StructPtr ObjectName LeafName
        JsonValue Property hObject hLeaf hShared
    · exact enum_leaf_outcome E Fields Memory Struct Root StructPtr ObjectName LeafName
        JsonValue Property Enum UnderlyingProp hObject hLeaf hEnum hValue
  · intro Enum Underlying NumValue hKind hNumber hName
    exact enum_leaf_difference E Fields Memory Struct Root StructPtr ObjectName LeafName
      JsonValue Property Enum Underlying NumValue hObject hLeaf hKind hNumber hName
  · exact text_only_leaf E Struct Root StructPtr LeafName JsonValue Property hLeaf

/-- On the struct with the float `Density` and the 64-bit int `Count`: the JSON
string `3` is stored in `Density` as the number 3 by both writers with tag `Float`;
for `Count` and the number 5 the leaf writer of dot-paths is the text import of the
text `5`. On the enum field `Mode`: the JSON string `high` is stored as the value
of `High` by both writers, and for the number 1 the direct write stores the ordinal
1 while the leaf writer is the text import. -/
theorem leaf_coercion_under_dot_path_witness :
    (∃ Outcome : Option (FValue × String),
      SetPropertyValue (SampleEngine EmptyGraph []) CounterStruct.Fields [] "Density"
          (.Str "3")
        = FSetResult.OfOutcome [] (fun Value => FMemory.Write [] "Density" Value) Outcome ∧
      SetStructPropertyValue (SampleEngine EmptyGraph []) CounterStruct [] ["Inner"] "Density"
          (.Str "3")
        = FSetResult.OfOutcome [] (fun Value => FMemory.WritePath [] ["Inner"] "Density" Value)
            Outcome) ∧
    SetPropertyValue (SampleEngine EmptyGraph []) CounterStruct.Fields [] "Density" (.Str "3")
      = ⟨true, [("Density", .Float 3)], "Float"⟩ ∧
    SetStructPropertyValue ImportEngine CounterStruct [] ["Inner"] "Count" (.Number 5)
      = FSetResult.OfOutcome [] (fun Value => FMemory.WritePath [] ["Inner"] "Count" Value)
          (TextImport ImportEngine CountProperty (.Number 5)) ∧
    TextImport ImportEngine CountProperty (.Number 5) = some (.Int64 5, "int64") ∧
    (∃ Outcome : Option (FValue × String),
      SetPropertyValue (SampleEngine EmptyGraph []) EnumFields [] "Mode" (.Str "high")
        = FSetResult.OfOutcome [] (fun Value => FMemory.Write [] "Mode" Value) Outcome ∧
      SetStructPropertyValue (SampleEngine EmptyGraph []) (.mk "Levels" none EnumFields) []
          ["Inner"] "Mode" (.Str "high")
        = FSetResult.OfOutcome [] (fun Value => FMemory.WritePath [] ["Inner"] "Mode" Value)
            Outcome) ∧
    SetPropertyValue (SampleEngine EmptyGraph []) EnumFields [] "Mode" (.Number 1)
      = ⟨true, [("Mode", .Enum 1)], "Enum(ELevel)"⟩ :=
  ⟨(leaf_coercion_under_dot_path (SampleEngine EmptyGraph []) CounterStruct.Fields []
      CounterStruct [] ["Inner"] "Density" "Density" (.Str "3")
      (.mk "Density" "float" true .FFloatProperty) rfl rfl).1 (Or.inl rfl),
   rfl,
   (leaf_coercion_under_dot_path ImportEngine CounterStruct.Fields []
      CounterStruct [] ["Inner"] "Count" "Count" (.Number 5) CountProperty rfl rfl).2.2 rfl,
   rfl,
   (leaf_coercion_under_dot_path (SampleEngine EmptyGraph []) EnumFields []
      (.mk "Levels" none EnumFields) [] ["Inner"] "Mode" "Mode" (.Str "high")
      ModeProperty rfl rfl).1
      (Or.inr ⟨some LevelEnum, some .UInt8, rfl, Or.inr (Or.inr (Or.inr ⟨LevelEnum, rfl, rfl⟩))⟩),
   ((leaf_coercion_under_dot_path (SampleEngine EmptyGraph []) EnumFields []
      (.mk "Levels" none EnumFields) [] ["Inner"] "Mode" "Mode" (.Number 1)
      ModeProperty rfl rfl).2.1 LevelEnum .UInt8 1 rfl rfl rfl).1⟩

end FPCGNodePropertyManager

/-! ## Enum fields -/

namespace FPCGNodePropertyManager

end FPCGNodePropertyManager

end UnrealMCP
